import Mathlib

/-!
# CBox chat backend: session layer and message routing

A shallow embedding of the connection/session layer of the CBox backend
(`backend/src/server/session.cpp`, `backend/src/server/session_manager.cpp`,
the handlers under `backend/src/handlers/` and `backend/src/auth/jwt_handler.cpp`)
together with theorems about it.

Conventions of the embedding

* A `Session` object is identified by a natural number (the identity of the
  object a `std::shared_ptr<Session>` points to).
* `SessionManager::sessions_` (a `std::unordered_map<std::string,
  std::shared_ptr<Session>>`) is a finite partial map; it is embedded as
  `String → Option SessionId`: `operator[]`-assignment is a point update,
  `erase` a point removal and `find` an application.
* Every externally visible effect (a registry `join`/`leave`, a
  `Session::send`, a re-armed read, a handler or repository invocation) is
  appended to `World.trace` in program order. `Logger` calls are not recorded.
* Boost.JSON (`json::parse`, `json::serialize`) and the database are
  libraries outside the repository: they are the fields of `Backend`.
  A string field is read as `obj.at(key).as_string().c_str()` assigned to a
  `std::string`, which keeps the characters before the first NUL
  (`Json.c_str`); a field value below is the value so read.
  `json::parse`, `value::as_object`, `object::at` and `value::as_string`
  throw a `std::exception` on failure; in `Session::handle_message` and
  `SessionManager::handle_client_message` every such throw happens before the
  first effect of the enclosing `try` block, so their `try` body is an
  `Option` and the `catch` handler runs on the state at entry. The friend
  handlers issue statements between throwing calls, so they thread the state
  explicitly.
-/

namespace CBox

/-! ## Data model -/

/-- Identity of a `Session` object. -/
abbrev SessionId := Nat

/-- A `boost::json::value`. A number is kept as its literal text: the code
only ever distinguishes the kind of a value. An object is its key/value
list in insertion order. -/
inductive Json where
  | null : Json
  | bool : Bool → Json
  | num : String → Json
  | str : String → Json
  | arr : List Json → Json
  | obj : List (String × Json) → Json

namespace Json

/-- The call `value::as_object()`: `none` when it throws. -/
def as_object : Json → Option (List (String × Json))
  | obj kvs => some kvs
  | _ => none

/-- The call `value::as_string()`: `none` when it throws. -/
def as_string : Json → Option String
  | str s => some s
  | _ => none

/-- The call `object::at(key)`: `none` when it throws `std::out_of_range`. -/
def at_ (kvs : List (String × Json)) (key : String) : Option Json :=
  kvs.lookup key

/-- The conversion of `json::string::c_str()` to `std::string`: a
`std::string` built from a `const char*` holds the characters before the
first NUL. -/
def c_str (s : String) : String :=
  String.mk (s.data.takeWhile (fun c => c ≠ Char.ofNat 0))

/-- The expression `obj.at(key).as_string().c_str()` converted to `std::string`. -/
def at_string (kvs : List (String × Json)) (key : String) : Option String :=
  ((at_ kvs key).bind as_string).map c_str

end Json

/-- The struct `Message` of `database/message_repository.hpp`. -/
structure Message where
  message_id : String
  sender_id : String
  recipient_id : String
  group_id : String
  content : String
  message_type : String
  created_at : String
  is_read : Bool

/-- The struct `Group` of `database/group_repository.hpp`. -/
structure Group where
  group_id : String
  group_name : String
  description : String
  created_by : String

/-- One row of the query of `FriendHandler::handle_get_friend_requests`. -/
structure FriendRequestRow where
  request_id : String
  sender_id : String
  username : String
  display_name : String
  created_at : String

/-- One row of the query of `FriendHandler::handle_get_friends`. -/
structure FriendRow where
  user_id : String
  username : String
  display_name : String
  status : String

/-- The libraries and the database the server runs against. For a database
statement issued inside a handler's own `try` block the result is an
`Option`: `none` means the statement (or the conversion of its columns)
threw a `std::exception`. The repositories catch their exceptions
themselves, so their results are plain values. -/
structure Backend where
  /-- The call `boost::json::parse`; `none` when it throws. -/
  parse : String → Option Json
  /-- The call `boost::json::serialize`. -/
  serialize : Json → String
  /-- The call `MessageRepository::send_message(sender, recipient, content)`. -/
  send_message : String → String → String → Option Message
  /-- The call `MessageRepository::send_group_message(sender, group, content)`. -/
  send_group_message : String → String → String → Option Message
  /-- The call `MessageRepository::get_conversation(user1, user2)`. -/
  get_conversation : String → String → List Message
  /-- The call `GroupRepository::create_group(name, description, creator)`. -/
  create_group : String → String → String → Option Group
  /-- The call `GroupRepository::add_member(group, user)`. -/
  add_member : String → String → Bool
  /-- The call `GroupRepository::get_user_groups(user)`. -/
  get_user_groups : String → List Group
  /-- Opening `pqxx::work txn(db_.get_connection())`. -/
  begin_txn : Option Unit
  /-- Committing a transaction. -/
  commit : Option Unit
  /-- The query `SELECT user_id FROM users WHERE username = $1`: the first row, if any. -/
  select_user_id : String → Option (Option String)
  /-- The query `SELECT 1 FROM friendships ...`: whether a row came back. -/
  select_friendship : String → String → Option Bool
  /-- The statement `INSERT INTO friend_requests ... RETURNING request_id`. -/
  insert_friend_request : String → String → Option (Option String)
  /-- The query for a pending request `(request_id, receiver)`: `(sender_id, receiver_id)`. -/
  select_pending_request : String → String → Option (Option (String × String))
  /-- The statement `UPDATE friend_requests SET status = accepted ...`. -/
  update_request_accepted : String → Option Unit
  /-- The statement `INSERT INTO friendships (user1_id, user2_id)`. -/
  insert_friendship : String → String → Option Unit
  /-- The statement `UPDATE friend_requests SET status = rejected ...` for `(request_id, receiver)`. -/
  update_request_rejected : String → String → Option Unit
  /-- The query of `handle_get_friend_requests`. -/
  select_friend_requests : String → Option (List FriendRequestRow)
  /-- The query of `handle_get_friends`. -/
  select_friends : String → Option (List FriendRow)

/-- An externally visible effect. -/
inductive Event where
  /-- The call `SessionManager::join(session, user_id)`. -/
  | join : SessionId → String → Event
  /-- The call `SessionManager::leave(user_id)`. -/
  | leave : String → Event
  /-- The call `Session::send(message)` on the given session. -/
  | send : SessionId → String → Event
  /-- The call `Session::do_read()` on the given session. -/
  | read : SessionId → Event
  /-- An entry point of MessageHandler, GroupHandler or FriendHandler was called. -/
  | handler : String → List String → Event
  /-- A repository method was called or a database statement was issued. -/
  | repo : String → List String → Event
  deriving DecidableEq

/-- The data members `user_id_` and `authenticated_` of a `Session`. -/
structure SessionState where
  user_id_ : String
  authenticated_ : Bool
  deriving DecidableEq

/-- The state of a freshly constructed `Session`. -/
def SessionState.init : SessionState := ⟨"", false⟩

/-- The member `SessionManager::sessions_`. -/
abbrev Registry := String → Option SessionId

/-- The empty registry. -/
def Registry.empty : Registry := fun _ => none

/-- The server state: the registry, the fields of every session object and
the effects so far. -/
structure World where
  sessions_ : Registry
  objs : SessionId → SessionState
  trace : List Event

/-- Append an effect to the trace. -/
def World.emit (w : World) (e : Event) : World :=
  ⟨w.sessions_, w.objs, w.trace ++ [e]⟩

/-- Overwrite the fields of one session object. -/
def World.setObj (w : World) (self : SessionId) (st : SessionState) : World :=
  ⟨w.sessions_, fun s => if s = self then st else w.objs s, w.trace⟩

/-! ## Session::send and the registry operations of SessionManager -/

namespace Session

/-- The method `Session::send`: an asynchronous write of `message` is
started on the socket of session `self`. -/
def send (w : World) (self : SessionId) (message : String) : World :=
  w.emit (Event.send self message)

/-- The method `Session::do_read`: the next asynchronous read is started. -/
def do_read (w : World) (self : SessionId) : World :=
  w.emit (Event.read self)

end Session

namespace SessionManager

/-- The method `SessionManager::join`: `sessions_[user_id] = session`. -/
def join (w : World) (session : SessionId) (user_id : String) : World :=
  ⟨fun k => if k = user_id then some session else w.sessions_ k, w.objs,
    w.trace ++ [Event.join session user_id]⟩

/-- The method `SessionManager::leave`: `sessions_.erase(user_id)`. -/
def leave (w : World) (user_id : String) : World :=
  ⟨fun k => if k = user_id then none else w.sessions_ k, w.objs,
    w.trace ++ [Event.leave user_id]⟩

/-- The method `SessionManager::send_to_user`. -/
def send_to_user (w : World) (user_id : String) (message : String) : World :=
  match w.sessions_ user_id with
  | some session => Session.send w session message
  | none => w

/-- The method `SessionManager::is_user_online`. -/
def is_user_online (w : World) (user_id : String) : Bool :=
  (w.sessions_ user_id).isSome

end SessionManager

/-- The object `{"type":"error","message":text}` built by the handlers. -/
def errorEnvelope (text : String) : Json :=
  Json.obj [("type", Json.str "error"), ("message", Json.str text)]

/-- The object `{"type":"auth_success","user_id":user_id}` built by
`Session::handle_message`. -/
def authSuccess (user_id : String) : Json :=
  Json.obj [("type", Json.str "auth_success"), ("user_id", Json.str user_id)]

/-! ## The handlers

Every handler holds a `session_manager_` pointer that the constructor of
`SessionManager` sets to itself before any message can be dispatched, so the
`if (session_manager_)` tests are taken in the embedding. -/

namespace MessageHandler

/-- The method `MessageHandler::handle_send_message`. -/
def handle_send_message (B : Backend) (w : World)
    (sender_id recipient_id content : String) : World :=
  let w := w.emit (Event.handler "handle_send_message" [sender_id, recipient_id, content])
  let w := w.emit (Event.repo "send_message" [sender_id, recipient_id, content])
  match B.send_message sender_id recipient_id content with
  | some message =>
    let sender_response := Json.obj [
      ("type", Json.str "message_sent"),
      ("message_id", Json.str message.message_id),
      ("recipient_id", Json.str recipient_id),
      ("content", Json.str content),
      ("created_at", Json.str message.created_at)]
    let w := SessionManager.send_to_user w sender_id (B.serialize sender_response)
    if SessionManager.is_user_online w recipient_id then
      let recipient_response := Json.obj [
        ("type", Json.str "new_message"),
        ("message_id", Json.str message.message_id),
        ("sender_id", Json.str sender_id),
        ("content", Json.str content),
        ("created_at", Json.str message.created_at)]
      SessionManager.send_to_user w recipient_id (B.serialize recipient_response)
    else w
  | none => w

/-- The method `MessageHandler::handle_send_group_message`: the response is
serialized into a local string and never sent. -/
def handle_send_group_message (B : Backend) (w : World)
    (sender_id group_id content : String) : World :=
  let w := w.emit (Event.handler "handle_send_group_message" [sender_id, group_id, content])
  let w := w.emit (Event.repo "send_group_message" [sender_id, group_id, content])
  match B.send_group_message sender_id group_id content with
  | some _ => w
  | none => w

/-- One element of the `messages` array of a `conversation` response. -/
def messageJson (msg : Message) : Json :=
  Json.obj [
    ("message_id", Json.str msg.message_id),
    ("sender_id", Json.str msg.sender_id),
    ("recipient_id", Json.str msg.recipient_id),
    ("content", Json.str msg.content),
    ("message_type", Json.str msg.message_type),
    ("created_at", Json.str msg.created_at),
    ("is_read", Json.bool msg.is_read)]

/-- The method `MessageHandler::handle_get_conversation`. -/
def handle_get_conversation (B : Backend) (w : World)
    (user1_id user2_id : String) : World × String :=
  let w := w.emit (Event.handler "handle_get_conversation" [user1_id, user2_id])
  let w := w.emit (Event.repo "get_conversation" [user1_id, user2_id])
  let messages := B.get_conversation user1_id user2_id
  (w, B.serialize (Json.obj [
    ("type", Json.str "conversation"),
    ("messages", Json.arr (messages.map messageJson))]))

end MessageHandler

namespace GroupHandler

/-- The method `GroupHandler::handle_create_group`. -/
def handle_create_group (B : Backend) (w : World)
    (creator_id group_name description : String) : World × String :=
  let w := w.emit (Event.handler "handle_create_group" [creator_id, group_name, description])
  let w := w.emit (Event.repo "create_group" [group_name, description, creator_id])
  match B.create_group group_name description creator_id with
  | some group =>
    (w, B.serialize (Json.obj [
      ("type", Json.str "group_created"),
      ("group_id", Json.str group.group_id),
      ("group_name", Json.str group.group_name),
      ("description", Json.str group.description),
      ("created_by", Json.str group.created_by)]))
  | none => (w, B.serialize (errorEnvelope "Failed to create group"))

/-- The method `GroupHandler::handle_add_member`. -/
def handle_add_member (B : Backend) (w : World)
    (group_id user_id : String) : World × String :=
  let w := w.emit (Event.handler "handle_add_member" [group_id, user_id])
  let w := w.emit (Event.repo "add_member" [group_id, user_id])
  if B.add_member group_id user_id then
    let response := Json.obj [
      ("type", Json.str "member_added"),
      ("group_id", Json.str group_id),
      ("user_id", Json.str user_id)]
    let w :=
      if SessionManager.is_user_online w user_id then
        SessionManager.send_to_user w user_id (B.serialize (Json.obj [
          ("type", Json.str "added_to_group"),
          ("group_id", Json.str group_id)]))
      else w
    (w, B.serialize response)
  else (w, B.serialize (errorEnvelope "Failed to add member"))

/-- One element of the `groups` array of a `groups` response. -/
def groupJson (group : Group) : Json :=
  Json.obj [
    ("group_id", Json.str group.group_id),
    ("group_name", Json.str group.group_name),
    ("description", Json.str group.description),
    ("created_by", Json.str group.created_by)]

/-- The method `GroupHandler::handle_get_groups`. -/
def handle_get_groups (B : Backend) (w : World) (user_id : String) : World × String :=
  let w := w.emit (Event.handler "handle_get_groups" [user_id])
  let w := w.emit (Event.repo "get_user_groups" [user_id])
  let groups := B.get_user_groups user_id
  (w, B.serialize (Json.obj [
    ("type", Json.str "groups"),
    ("groups", Json.arr (groups.map groupJson))]))

end GroupHandler

namespace FriendHandler

/-- The method `FriendHandler::handle_send_friend_request`. -/
def handle_send_friend_request (B : Backend) (w : World)
    (sender_id receiver_username : String) : World × String :=
  let w := w.emit (Event.handler "handle_send_friend_request" [sender_id, receiver_username])
  let failed := B.serialize (errorEnvelope "Failed to send friend request")
  match B.begin_txn with
  | none => (w, failed)
  | some _ =>
  let w := w.emit (Event.repo "select_user_id" [receiver_username])
  match B.select_user_id receiver_username with
  | none => (w, failed)
  | some none => (w, B.serialize (errorEnvelope "User not found"))
  | some (some receiver_id) =>
  let user1 := if sender_id < receiver_id then sender_id else receiver_id
  let user2 := if sender_id < receiver_id then receiver_id else sender_id
  let w := w.emit (Event.repo "select_friendship" [user1, user2])
  match B.select_friendship user1 user2 with
  | none => (w, failed)
  | some true => (w, B.serialize (errorEnvelope "Already friends"))
  | some false =>
  let w := w.emit (Event.repo "insert_friend_request" [sender_id, receiver_id])
  match B.insert_friend_request sender_id receiver_id with
  | none => (w, failed)
  | some result =>
  match B.commit with
  | none => (w, failed)
  | some _ =>
  match result with
  | some request_id =>
    let response := Json.obj [
      ("type", Json.str "friend_request_sent"),
      ("request_id", Json.str request_id),
      ("receiver_id", Json.str receiver_id)]
    let w :=
      if SessionManager.is_user_online w receiver_id then
        SessionManager.send_to_user w receiver_id (B.serialize (Json.obj [
          ("type", Json.str "friend_request_received"),
          ("request_id", Json.str request_id),
          ("sender_id", Json.str sender_id)]))
      else w
    (w, B.serialize response)
  | none => (w, B.serialize (errorEnvelope "Request already exists"))

/-- The method `FriendHandler::handle_accept_friend_request`. -/
def handle_accept_friend_request (B : Backend) (w : World)
    (user_id request_id : String) : World × String :=
  let w := w.emit (Event.handler "handle_accept_friend_request" [user_id, request_id])
  let failed := B.serialize (errorEnvelope "Failed to accept friend request")
  match B.begin_txn with
  | none => (w, failed)
  | some _ =>
  let w := w.emit (Event.repo "select_pending_request" [request_id, user_id])
  match B.select_pending_request request_id user_id with
  | none => (w, failed)
  | some none => (w, B.serialize (errorEnvelope "Friend request not found"))
  | some (some (sender_id, receiver_id)) =>
  let w := w.emit (Event.repo "update_request_accepted" [request_id])
  match B.update_request_accepted request_id with
  | none => (w, failed)
  | some _ =>
  let user1 := if sender_id < receiver_id then sender_id else receiver_id
  let user2 := if sender_id < receiver_id then receiver_id else sender_id
  let w := w.emit (Event.repo "insert_friendship" [user1, user2])
  match B.insert_friendship user1 user2 with
  | none => (w, failed)
  | some _ =>
  match B.commit with
  | none => (w, failed)
  | some _ =>
  let response := Json.obj [
    ("type", Json.str "friend_request_accepted"),
    ("request_id", Json.str request_id),
    ("friend_id", Json.str sender_id)]
  let w :=
    if SessionManager.is_user_online w sender_id then
      SessionManager.send_to_user w sender_id (B.serialize (Json.obj [
        ("type", Json.str "friend_request_accepted"),
        ("friend_id", Json.str receiver_id)]))
    else w
  (w, B.serialize response)

/-- The method `FriendHandler::handle_reject_friend_request`. -/
def handle_reject_friend_request (B : Backend) (w : World)
    (user_id request_id : String) : World × String :=
  let w := w.emit (Event.handler "handle_reject_friend_request" [user_id, request_id])
  let failed := B.serialize (errorEnvelope "Failed to reject friend request")
  match B.begin_txn with
  | none => (w, failed)
  | some _ =>
  let w := w.emit (Event.repo "update_request_rejected" [request_id, user_id])
  match B.update_request_rejected request_id user_id with
  | none => (w, failed)
  | some _ =>
  match B.commit with
  | none => (w, failed)
  | some _ =>
  (w, B.serialize (Json.obj [
    ("type", Json.str "friend_request_rejected"),
    ("request_id", Json.str request_id)]))

/-- One element of the `requests` array of a `friend_requests` response. -/
def requestJson (row : FriendRequestRow) : Json :=
  Json.obj [
    ("request_id", Json.str row.request_id),
    ("sender_id", Json.str row.sender_id),
    ("username", Json.str row.username),
    ("display_name", Json.str row.display_name),
    ("created_at", Json.str row.created_at)]

/-- The method `FriendHandler::handle_get_friend_requests`. -/
def handle_get_friend_requests (B : Backend) (w : World) (user_id : String) :
    World × String :=
  let w := w.emit (Event.handler "handle_get_friend_requests" [user_id])
  let failed := B.serialize (errorEnvelope "Failed to get friend requests")
  match B.begin_txn with
  | none => (w, failed)
  | some _ =>
  let w := w.emit (Event.repo "select_friend_requests" [user_id])
  match B.select_friend_requests user_id with
  | none => (w, failed)
  | some result =>
  match B.commit with
  | none => (w, failed)
  | some _ =>
  (w, B.serialize (Json.obj [
    ("type", Json.str "friend_requests"),
    ("requests", Json.arr (result.map requestJson))]))

/-- One element of the `friends` array of a `friends` response. -/
def friendJson (row : FriendRow) : Json :=
  Json.obj [
    ("user_id", Json.str row.user_id),
    ("username", Json.str row.username),
    ("display_name", Json.str row.display_name),
    ("status", Json.str row.status)]

/-- The method `FriendHandler::handle_get_friends`. -/
def handle_get_friends (B : Backend) (w : World) (user_id : String) : World × String :=
  let w := w.emit (Event.handler "handle_get_friends" [user_id])
  let failed := B.serialize (errorEnvelope "Failed to get friends")
  match B.begin_txn with
  | none => (w, failed)
  | some _ =>
  let w := w.emit (Event.repo "select_friends" [user_id])
  match B.select_friends user_id with
  | none => (w, failed)
  | some result =>
  match B.commit with
  | none => (w, failed)
  | some _ =>
  (w, B.serialize (Json.obj [
    ("type", Json.str "friends"),
    ("friends", Json.arr (result.map friendJson))]))

end FriendHandler

/-! ## Dispatch: SessionManager::handle_client_message -/

namespace SessionManager

/-- The `try` block of `SessionManager::handle_client_message`; `none` when
`json::parse`, `as_object`, `at` or `as_string` throws. -/
def handle_client_message_try (B : Backend) (w : World)
    (user_id message : String) : Option World := do
  let parsed ← B.parse message
  let obj ← parsed.as_object
  let type ← Json.at_string obj "type"
  if type = "send_message" then
    let recipient_id ← Json.at_string obj "recipient_id"
    let content ← Json.at_string obj "content"
    pure (MessageHandler.handle_send_message B w user_id recipient_id content)
  else if type = "send_group_message" then
    let group_id ← Json.at_string obj "group_id"
    let content ← Json.at_string obj "content"
    pure (MessageHandler.handle_send_group_message B w user_id group_id content)
  else if type = "get_conversation" then
    let other_user_id ← Json.at_string obj "user_id"
    let r := MessageHandler.handle_get_conversation B w user_id other_user_id
    pure (send_to_user r.1 user_id r.2)
  else if type = "create_group" then
    let group_name ← Json.at_string obj "group_name"
    let description ← Json.at_string obj "description"
    let r := GroupHandler.handle_create_group B w user_id group_name description
    pure (send_to_user r.1 user_id r.2)
  else if type = "add_group_member" then
    let group_id ← Json.at_string obj "group_id"
    let member_id ← Json.at_string obj "user_id"
    let r := GroupHandler.handle_add_member B w group_id member_id
    pure (send_to_user r.1 user_id r.2)
  else if type = "get_groups" then
    let r := GroupHandler.handle_get_groups B w user_id
    pure (send_to_user r.1 user_id r.2)
  else if type = "send_friend_request" then
    let receiver_username ← Json.at_string obj "username"
    let r := FriendHandler.handle_send_friend_request B w user_id receiver_username
    pure (send_to_user r.1 user_id r.2)
  else if type = "accept_friend_request" then
    let request_id ← Json.at_string obj "request_id"
    let r := FriendHandler.handle_accept_friend_request B w user_id request_id
    pure (send_to_user r.1 user_id r.2)
  else if type = "get_friend_requests" then
    let r := FriendHandler.handle_get_friend_requests B w user_id
    pure (send_to_user r.1 user_id r.2)
  else if type = "get_friends" then
    let r := FriendHandler.handle_get_friends B w user_id
    pure (send_to_user r.1 user_id r.2)
  else
    pure w

/-- The method `SessionManager::handle_client_message`: the `catch` handler
only logs. -/
def handle_client_message (B : Backend) (w : World) (user_id message : String) : World :=
  match handle_client_message_try B w user_id message with
  | some w' => w'
  | none => w

end SessionManager

/-! ## The connection: Session -/

/-- The `beast::error_code` a completion handler receives: success (zero),
`websocket::error::closed`, or any other error code. -/
inductive ErrorCode where
  | success : ErrorCode
  | closed : ErrorCode
  | failure : Nat → ErrorCode
  deriving DecidableEq

namespace Session

/-- The `try` block of `Session::handle_message`; `none` when `json::parse`,
`as_object`, `at` or `as_string` throws. -/
def handle_message_try (B : Backend) (w : World) (self : SessionId)
    (message : String) : Option World := do
  let parsed ← B.parse message
  let obj ← parsed.as_object
  let type ← Json.at_string obj "type"
  if type = "auth" then
    let token ← Json.at_string obj "token"
    if token ≠ "" then
      let user_id ← Json.at_string obj "user_id"
      let w := w.setObj self ⟨user_id, true⟩
      let w := SessionManager.join w self user_id
      let response := authSuccess (w.objs self).user_id_
      pure (send w self (B.serialize response))
    else
      pure w
  else if (w.objs self).authenticated_ then
    pure (SessionManager.handle_client_message B w (w.objs self).user_id_ message)
  else
    pure (send w self (B.serialize (errorEnvelope "Not authenticated")))

/-- The method `Session::handle_message`. -/
def handle_message (B : Backend) (w : World) (self : SessionId) (message : String) : World :=
  match handle_message_try B w self message with
  | some w' => w'
  | none => send w self (B.serialize (errorEnvelope "Invalid message format"))

/-- The method `Session::on_read`, called with the error code of the
completed read and the text of the frame that was read. -/
def on_read (B : Backend) (w : World) (self : SessionId) (ec : ErrorCode)
    (message : String) : World :=
  match ec with
  | ErrorCode.closed =>
    if (w.objs self).authenticated_ then
      SessionManager.leave w (w.objs self).user_id_
    else w
  | ErrorCode.failure _ => w
  | ErrorCode.success => do_read (handle_message B w self message) self

/-- The method `Session::on_write`: an error is logged, nothing else happens. -/
def on_write (w : World) (_self : SessionId) (_ec : ErrorCode) : World := w

/-- The method `Session::on_accept`. -/
def on_accept (w : World) (self : SessionId) (ec : ErrorCode) : World :=
  match ec with
  | ErrorCode.success => do_read w self
  | _ => w

end Session

/-! ## Token validation: JWTHandler -/

namespace JWTHandler

/-- The constant `std::string::npos` on a 64-bit target. -/
def npos : Nat := 2 ^ 64 - 1

/-- The call `std::string::find(c, pos)`: the first index at or after `pos`
holding `c`, or `npos`. The character searched for by the code is ASCII, so
searching the characters finds a match exactly when searching the bytes does. -/
def find (s : String) (c : Char) (pos : Nat) : Nat :=
  let rest := s.data.drop pos
  if c ∈ rest then pos + rest.indexOf c else npos

/-- The method `JWTHandler::validate_token`. The payload substring is
computed and never used; nothing in the inner `try` block throws. -/
def validate_token (token : String) : Option String :=
  let first_dot := find token '.' 0
  let second_dot := find token '.' ((first_dot + 1) % 2 ^ 64)
  if first_dot = npos ∨ second_dot = npos then none
  else some "user_id_from_token"

end JWTHandler

/-- The method `AuthService::validate_token`. -/
def AuthService.validate_token (token : String) : Option String :=
  JWTHandler.validate_token token

/-! ## Sequences of registry calls -/

/-- A call of `SessionManager::join` or `SessionManager::leave`. -/
inductive RegistryCall where
  | join : SessionId → String → RegistryCall
  | leave : String → RegistryCall
  deriving DecidableEq

namespace RegistryCall

/-- The user id a call names. -/
def user : RegistryCall → String
  | join _ u => u
  | leave u => u

/-- Perform one call. -/
def run (w : World) : RegistryCall → World
  | join s u => SessionManager.join w s u
  | leave u => SessionManager.leave w u

/-- Perform the calls of a sequence one after another. -/
def runAll (w : World) (calls : List RegistryCall) : World :=
  calls.foldl run w

/-- The last call of the sequence that names `u`, if there is one. -/
def lastNaming (u : String) (calls : List RegistryCall) : Option RegistryCall :=
  (calls.reverse).find? (fun c => decide (c.user = u))

end RegistryCall

/-! ## Observations on a state -/

/-- The messages passed to `Session::send` on session `s`, in order. -/
def World.sentTo (w : World) (s : SessionId) : List String :=
  w.trace.filterMap (fun e =>
    match e with
    | Event.send s' m => if s' = s then some m else none
    | _ => none)

/-- The state of a server that has just started: nobody is registered, no
session has authenticated, nothing has happened. -/
def World.initial : World := ⟨Registry.empty, fun _ => SessionState.init, []⟩

/-! ## A concrete backend

Used to evaluate the definitions on concrete inputs: inbound frames are
parsed by looking them up in a table, flat objects of strings are rendered
in compact form, and the database refuses every request. -/

/-- Compact rendering of one member of a flat object. -/
def renderMember : String × Json → String
  | (k, Json.str v) => "\"" ++ k ++ "\":\"" ++ v ++ "\""
  | (k, _) => "\"" ++ k ++ "\":null"

/-- Compact rendering of a flat object. -/
def render : Json → String
  | Json.obj kvs => "\x7b" ++ ",".intercalate (kvs.map renderMember) ++ "\x7d"
  | _ => "null"

/-- The backend that parses by the given table. -/
def tableBackend (table : List (String × Json)) : Backend where
  parse := fun s => table.lookup s
  serialize := render
  send_message := fun _ _ _ => none
  send_group_message := fun _ _ _ => none
  get_conversation := fun _ _ => []
  create_group := fun _ _ _ => none
  add_member := fun _ _ => false
  get_user_groups := fun _ => []
  begin_txn := none
  commit := none
  select_user_id := fun _ => none
  select_friendship := fun _ _ => none
  insert_friend_request := fun _ _ => none
  select_pending_request := fun _ _ => none
  update_request_accepted := fun _ => none
  insert_friendship := fun _ _ => none
  update_request_rejected := fun _ _ => none
  select_friend_requests := fun _ => none
  select_friends := fun _ => none

/-- The object `{"type":"auth","token":token,"user_id":user_id}`. -/
def authEnvelope (token user_id : String) : Json :=
  Json.obj [("type", Json.str "auth"), ("token", Json.str token),
    ("user_id", Json.str user_id)]

/-- Five inbound frames: an auth envelope with the one-character token `x`
for user `u`, an auth envelope with an empty token for user `u`, a
`send_message` envelope, an auth envelope with token `x` for user `v`, and
an auth envelope for user `u` whose token `a.b.c` has the shape of a JWT. -/
def frames : List (String × Json) :=
  [("auth-u", authEnvelope "x" "u"),
   ("auth-empty", authEnvelope "" "u"),
   ("send", Json.obj [("type", Json.str "send_message"),
      ("recipient_id", Json.str "v"), ("content", Json.str "hi")]),
   ("auth-v", authEnvelope "x" "v"),
   ("auth-jwt", authEnvelope "a.b.c" "u")]

/-! ## Observations on routing -/

/-- The calls of `Session::send` recorded in the trace, as pairs of the
session and the message, in order. -/
def World.sends (w : World) : List (SessionId × String) :=
  w.trace.filterMap (fun e =>
    match e with
    | Event.send s m => some (s, m)
    | _ => none)

/-- The handler entry points recorded in the trace, as pairs of the name and
the arguments, in order. -/
def World.handlerCalls (w : World) : List (String × List String) :=
  w.trace.filterMap (fun e =>
    match e with
    | Event.handler name args => some (name, args)
    | _ => none)

/-- What an envelope addressed to `user_id` amounts to: one `Session::send`
on the session registered for `user_id`, nothing when there is none. -/
def World.routed (w : World) (user_id message : String) : List (SessionId × String) :=
  match w.sessions_ user_id with
  | some session => [(session, message)]
  | none => []

/-- The `message_sent` envelope of `handle_send_message`. -/
def messageSent (message : Message) (recipient_id content : String) : Json :=
  Json.obj [
    ("type", Json.str "message_sent"),
    ("message_id", Json.str message.message_id),
    ("recipient_id", Json.str recipient_id),
    ("content", Json.str content),
    ("created_at", Json.str message.created_at)]

/-- The `new_message` envelope of `handle_send_message`. -/
def newMessage (message : Message) (sender_id content : String) : Json :=
  Json.obj [
    ("type", Json.str "new_message"),
    ("message_id", Json.str message.message_id),
    ("sender_id", Json.str sender_id),
    ("content", Json.str content),
    ("created_at", Json.str message.created_at)]

/-- The step from `w` to `w'` changes neither the registry nor a session and
only appends events, each of which satisfies `P`. -/
def World.Extends (P : Event → Prop) (w w' : World) : Prop :=
  w'.sessions_ = w.sessions_ ∧ w'.objs = w.objs ∧
    ∃ evs, w'.trace = w.trace ++ evs ∧ ∀ e ∈ evs, P e

/-! ## Outcomes of the friend operations -/

/-- The database carries `handle_send_friend_request(sender_id,
receiver_username)` through: the transaction opens, the user is found with
id `receiver_id`, the two are not friends yet, the insert returns
`request_id` and the commit succeeds. -/
def FriendHandler.send_succeeds (B : Backend)
    (sender_id receiver_username receiver_id request_id : String) : Prop :=
  B.begin_txn = some () ∧
  B.select_user_id receiver_username = some (some receiver_id) ∧
  B.select_friendship
    (if sender_id < receiver_id then sender_id else receiver_id)
    (if sender_id < receiver_id then receiver_id else sender_id) = some false ∧
  B.insert_friend_request sender_id receiver_id = some (some request_id) ∧
  B.commit = some ()

/-- The database carries `handle_accept_friend_request(user_id, request_id)`
through: the transaction opens, a pending request from `sender_id` to
`user_id` is found, the update and the insert succeed and the commit
succeeds. -/
def FriendHandler.accept_succeeds (B : Backend)
    (user_id request_id sender_id : String) : Prop :=
  B.begin_txn = some () ∧
  B.select_pending_request request_id user_id = some (some (sender_id, user_id)) ∧
  B.update_request_accepted request_id = some () ∧
  B.insert_friendship
    (if sender_id < user_id then sender_id else user_id)
    (if sender_id < user_id then user_id else sender_id) = some () ∧
  B.commit = some ()

/-! ## The dispatch table and the error texts, as the specification lists them -/

/-- For each recognized type other than `auth`: the handler it is mapped to,
whether the acting user is the handler's first argument, and the envelope
fields whose values are its further arguments, in order. -/
def dispatchTable : List (String × (String × Bool × List String)) :=
  [("send_message", ("handle_send_message", true, ["recipient_id", "content"])),
   ("send_group_message", ("handle_send_group_message", true, ["group_id", "content"])),
   ("get_conversation", ("handle_get_conversation", true, ["user_id"])),
   ("create_group", ("handle_create_group", true, ["group_name", "description"])),
   ("add_group_member", ("handle_add_member", false, ["group_id", "user_id"])),
   ("get_groups", ("handle_get_groups", true, [])),
   ("send_friend_request", ("handle_send_friend_request", true, ["username"])),
   ("accept_friend_request", ("handle_accept_friend_request", true, ["request_id"])),
   ("get_friend_requests", ("handle_get_friend_requests", true, [])),
   ("get_friends", ("handle_get_friends", true, []))]

/-- The string values of the given fields of an object, when all are there. -/
def fieldValues (kvs : List (String × Json)) : List String → Option (List String)
  | [] => some []
  | field :: fields =>
    match Json.at_string kvs field, fieldValues kvs fields with
    | some v, some vs => some (v :: vs)
    | _, _ => none

/-- The one handler call the dispatch table prescribes for an envelope of
type `ty` with members `kvs` received from `user_id`; `none` when the type is
not in the table or a required field is not there as a string. -/
def expectedCall (user_id ty : String) (kvs : List (String × Json)) :
    Option (String × List String) :=
  match dispatchTable.lookup ty with
  | none => none
  | some (handler, acting, fields) =>
    match fieldValues kvs fields with
    | none => none
    | some args => some (handler, (if acting then [user_id] else []) ++ args)

/-- The types `handle_message` and `handle_client_message` recognize. -/
def recognizedTypes : List String :=
  ["auth", "send_message", "send_group_message", "get_conversation", "create_group",
   "add_group_member", "get_groups", "send_friend_request", "accept_friend_request",
   "get_friend_requests", "get_friends"]

/-- The literal texts of the error envelopes of Session, GroupHandler and
FriendHandler. -/
def errorTexts : List String :=
  ["Not authenticated", "Invalid message format",
   "Failed to create group", "Failed to add member",
   "User not found", "Already friends", "Request already exists",
   "Failed to send friend request", "Friend request not found",
   "Failed to accept friend request", "Failed to reject friend request",
   "Failed to get friend requests", "Failed to get friends"]

/-- The string under `"type"` of an object, if it has one. -/
def Json.typeOf (j : Json) : Option String :=
  j.as_object.bind (fun kvs => Json.at_string kvs "type")

/-- An envelope that, when it is of type `error`, is exactly
`{"type":"error","message":t}` for one of the literal texts `t`. -/
def Json.genericError (j : Json) : Prop :=
  j.typeOf = some "error" → ∃ t, t ∈ errorTexts ∧ j = errorEnvelope t

/-- The message is the serialization of an envelope with a generic error. -/
def genericReply (B : Backend) (message : String) : Prop :=
  ∃ j, message = B.serialize j ∧ j.genericError

/-- Every message sent by the event is the serialization of an envelope
with a generic error. -/
def Event.generic (B : Backend) : Event → Prop
  | Event.send _ m => genericReply B m
  | _ => True

/-- An event other than a handler entry and other than a call of
`SessionManager::join` or `SessionManager::leave`, whose message, if it
sends one, is the serialization of an envelope with a generic error. -/
def Event.quiet (B : Backend) : Event → Prop
  | Event.send _ m => genericReply B m
  | Event.handler _ _ => False
  | Event.join _ _ => False
  | Event.leave _ => False
  | _ => True

/-! ## Collaborators whose exceptions carry a text

The code hands the text of a caught exception (`e.what()`) to the logger and
to nothing else, so all a `catch` handler acts on is that the call threw. -/

/-- The result of a call that may throw a `std::exception` with a text. -/
inductive Attempt (α : Type) where
  | returned : α → Attempt α
  | threw : String → Attempt α

/-- What the code acts on: the value, or the fact that the call threw. -/
def Attempt.caught {α : Type} : Attempt α → Option α
  | Attempt.returned a => some a
  | Attempt.threw _ => none

/-- Two results that differ at most in the text of the exception. -/
def Attempt.sameUpToText {α : Type} : Attempt α → Attempt α → Prop
  | Attempt.returned a, Attempt.returned b => a = b
  | Attempt.threw _, Attempt.threw _ => True
  | _, _ => False

/-- The JSON parser and the database statements with the texts of their
exceptions; `rest` supplies the calls that never throw into the core
(`json::serialize` and the repository methods). -/
structure Collaborators where
  rest : Backend
  parse : String → Attempt Json
  begin_txn : Attempt Unit
  commit : Attempt Unit
  select_user_id : String → Attempt (Option String)
  select_friendship : String → String → Attempt Bool
  insert_friend_request : String → String → Attempt (Option String)
  select_pending_request : String → String → Attempt (Option (String × String))
  update_request_accepted : String → Attempt Unit
  insert_friendship : String → String → Attempt Unit
  update_request_rejected : String → String → Attempt Unit
  select_friend_requests : String → Attempt (List FriendRequestRow)
  select_friends : String → Attempt (List FriendRow)

/-- The backend the code runs against, given the collaborators. -/
def Collaborators.backend (C : Collaborators) : Backend where
  parse := fun s => (C.parse s).caught
  serialize := C.rest.serialize
  send_message := C.rest.send_message
  send_group_message := C.rest.send_group_message
  get_conversation := C.rest.get_conversation
  create_group := C.rest.create_group
  add_member := C.rest.add_member
  get_user_groups := C.rest.get_user_groups
  begin_txn := C.begin_txn.caught
  commit := C.commit.caught
  select_user_id := fun a => (C.select_user_id a).caught
  select_friendship := fun a b => (C.select_friendship a b).caught
  insert_friend_request := fun a b => (C.insert_friend_request a b).caught
  select_pending_request := fun a b => (C.select_pending_request a b).caught
  update_request_accepted := fun a => (C.update_request_accepted a).caught
  insert_friendship := fun a b => (C.insert_friendship a b).caught
  update_request_rejected := fun a b => (C.update_request_rejected a b).caught
  select_friend_requests := fun a => (C.select_friend_requests a).caught
  select_friends := fun a => (C.select_friends a).caught

/-- Two collaborators that differ at most in the texts of the exceptions
they throw. -/
def Collaborators.sameUpToText (C D : Collaborators) : Prop :=
  C.rest.serialize = D.rest.serialize ∧
  C.rest.send_message = D.rest.send_message ∧
  C.rest.send_group_message = D.rest.send_group_message ∧
  C.rest.get_conversation = D.rest.get_conversation ∧
  C.rest.create_group = D.rest.create_group ∧
  C.rest.add_member = D.rest.add_member ∧
  C.rest.get_user_groups = D.rest.get_user_groups ∧
  (∀ s, (C.parse s).sameUpToText (D.parse s)) ∧
  C.begin_txn.sameUpToText D.begin_txn ∧
  C.commit.sameUpToText D.commit ∧
  (∀ a, (C.select_user_id a).sameUpToText (D.select_user_id a)) ∧
  (∀ a b, (C.select_friendship a b).sameUpToText (D.select_friendship a b)) ∧
  (∀ a b, (C.insert_friend_request a b).sameUpToText (D.insert_friend_request a b)) ∧
  (∀ a b, (C.select_pending_request a b).sameUpToText (D.select_pending_request a b)) ∧
  (∀ a, (C.update_request_accepted a).sameUpToText (D.update_request_accepted a)) ∧
  (∀ a b, (C.insert_friendship a b).sameUpToText (D.insert_friendship a b)) ∧
  (∀ a b, (C.update_request_rejected a b).sameUpToText (D.update_request_rejected a b)) ∧
  (∀ a, (C.select_friend_requests a).sameUpToText (D.select_friend_requests a)) ∧
  (∀ a, (C.select_friends a).sameUpToText (D.select_friends a))

/-! ## The server as a whole -/

/-- The server: its state, which session identities have been handed out,
and which sessions are open (have a read pending). -/
structure Server where
  world : World
  accepted : SessionId → Bool
  live : SessionId → Bool

/-- What can happen to the server. -/
inductive Action where
  /-- The acceptor creates the session and its handshake completes with the
  given error code (`WebSocketServer::on_accept`, `Session::on_accept`). -/
  | accept : SessionId → ErrorCode → Action
  /-- A read of the session completes successfully with the given frame. -/
  | frame : SessionId → String → Action
  /-- A read of the session completes with the given error code. -/
  | close : SessionId → ErrorCode → Action

/-- A server that has just started. -/
def Server.initial : Server := ⟨World.initial, fun _ => false, fun _ => false⟩

/-- One action. An identity is handed out once; frames and failures reach
open sessions only; a session whose read fails, or whose handshake fails,
has no read pending any more. -/
def Server.step (B : Backend) (sv : Server) : Action → Server
  | Action.accept s ec =>
    if sv.accepted s then sv
    else
      ⟨Session.on_accept sv.world s ec,
        fun k => if k = s then true else sv.accepted k,
        fun k => if k = s then decide (ec = ErrorCode.success) else sv.live k⟩
  | Action.frame s message =>
    if sv.live s then
      ⟨Session.on_read B sv.world s ErrorCode.success message, sv.accepted, sv.live⟩
    else sv
  | Action.close s ec =>
    if sv.live s ∧ ec ≠ ErrorCode.success then
      ⟨Session.on_read B sv.world s ec "", sv.accepted,
        fun k => if k = s then false else sv.live k⟩
    else sv

/-- The server after a sequence of actions from its start. -/
def Server.run (B : Backend) (actions : List Action) : Server :=
  actions.foldl (Server.step B) Server.initial

/-- The registry invariant as the specification states it: a user id is a
key exactly when some open, authenticated session has that user id, and the
session an entry refers to is open, authenticated and has that user id. -/
def Server.registryExact (sv : Server) : Prop :=
  ∀ u,
    ((sv.world.sessions_ u).isSome = true ↔
      ∃ s, sv.live s = true ∧ (sv.world.objs s).authenticated_ = true ∧
        (sv.world.objs s).user_id_ = u) ∧
    ∀ s, sv.world.sessions_ u = some s →
      sv.live s = true ∧ (sv.world.objs s).authenticated_ = true ∧
        (sv.world.objs s).user_id_ = u

/-- The registry invariant the code keeps: the session an entry for `u`
refers to has been accepted, has authenticated, and joined under `u`. -/
def Server.registrySound (sv : Server) : Prop :=
  ∀ u s, sv.world.sessions_ u = some s →
    sv.accepted s = true ∧ (sv.world.objs s).authenticated_ = true ∧
      Event.join s u ∈ sv.world.trace

/-! ## A backend whose database accepts every request -/

/-- The backend that parses by the given table and whose database stores
every message, adds every member, knows every user name as its own user id,
creates every friend request as `r1` and finds every request pending, sent
by `u`. -/
def acceptingBackend (table : List (String × Json)) : Backend where
  parse := fun s => table.lookup s
  serialize := render
  send_message := fun s r c => some ⟨"m1", s, r, "", c, "text", "t0", false⟩
  send_group_message := fun s g c => some ⟨"m2", s, "", g, c, "text", "t0", false⟩
  get_conversation := fun _ _ => []
  create_group := fun n d c => some ⟨"g1", n, d, c⟩
  add_member := fun _ _ => true
  get_user_groups := fun _ => []
  begin_txn := some ()
  commit := some ()
  select_user_id := fun name => some (some name)
  select_friendship := fun _ _ => some false
  insert_friend_request := fun _ _ => some (some "r1")
  select_pending_request := fun _ receiver => some (some ("u", receiver))
  update_request_accepted := fun _ => some ()
  insert_friendship := fun _ _ => some ()
  update_request_rejected := fun _ _ => some ()
  select_friend_requests := fun _ => some []
  select_friends := fun _ => some []

/-- Further inbound frames: the frames above, then a `send_message` envelope
without `content`, an `add_group_member` envelope, a `send_friend_request`
envelope, an `accept_friend_request` envelope, a `send_group_message`
envelope, an envelope of the unrecognized type `ping`, a JSON array, and an
object without `type`. -/
def moreFrames : List (String × Json) :=
  frames ++
  [("send-nocontent", Json.obj [("type", Json.str "send_message"),
      ("recipient_id", Json.str "v")]),
   ("add", Json.obj [("type", Json.str "add_group_member"),
      ("group_id", Json.str "g"), ("user_id", Json.str "v")]),
   ("friend", Json.obj [("type", Json.str "send_friend_request"),
      ("username", Json.str "u")]),
   ("accept", Json.obj [("type", Json.str "accept_friend_request"),
      ("request_id", Json.str "r1")]),
   ("group", Json.obj [("type", Json.str "send_group_message"),
      ("group_id", Json.str "g"), ("content", Json.str "hi")]),
   ("ping", Json.obj [("type", Json.str "ping")]),
   ("array", Json.arr []),
   ("no-type", Json.obj [("token", Json.str "x")])]

/-- Collaborators that parse by the given table and throw an exception
with the text `what` on every other payload and on every database
statement. -/
def tableCollaborators (what : String) (table : List (String × Json)) : Collaborators where
  rest := tableBackend table
  parse := fun s =>
    match table.lookup s with
    | some j => Attempt.returned j
    | none => Attempt.threw what
  begin_txn := Attempt.threw what
  commit := Attempt.threw what
  select_user_id := fun _ => Attempt.threw what
  select_friendship := fun _ _ => Attempt.threw what
  insert_friend_request := fun _ _ => Attempt.threw what
  select_pending_request := fun _ _ => Attempt.threw what
  update_request_accepted := fun _ => Attempt.threw what
  insert_friendship := fun _ _ => Attempt.threw what
  update_request_rejected := fun _ _ => Attempt.threw what
  select_friend_requests := fun _ => Attempt.threw what
  select_friends := fun _ => Attempt.threw what

/-- Inbound frames whose strings hold a NUL character: an auth envelope
whose token is a NUL followed by `x`, an auth envelope whose user id is `a`,
a NUL, `b`, and a `send_message` envelope whose content is `hi`, a NUL,
`there`. -/
def nulFrames : List (String × Json) :=
  [("auth-nul-token", authEnvelope "\x00x" "u"),
   ("auth-nul-user", authEnvelope "x" "a\x00b"),
   ("send-nul", Json.obj [("type", Json.str "send_message"),
      ("recipient_id", Json.str "v"), ("content", Json.str "hi\x00there")])]

/-! ## Base64: `base64_encode` of `jwt_handler.cpp`

The input is the list of the bytes of the `std::string`; the result is the
list of the characters of the returned string. A byte stored into an
`unsigned char` is taken modulo 256. -/

/-- The table `base64_chars`. -/
def base64_chars : String :=
  "ABCDEFGHIJKLMNOPQRSTUVWXYZabcdefghijklmnopqrstuvwxyz0123456789+/"

/-- The expression `base64_chars[k]`. -/
def base64_char (k : Nat) : Char :=
  base64_chars.data.getD k (Char.ofNat 0)

/-- The locals `i`, `char_array_3` and `ret` of `base64_encode`. -/
structure Base64Loop where
  i : Nat
  char_array_3 : Nat → Nat
  ret : List Char

/-- The values the code assigns to `char_array_4[0..3]` from `char_array_3`. -/
def base64_sextet (char_array_3 : Nat → Nat) : Nat → Nat
  | 0 => ((char_array_3 0 &&& 0xfc) >>> 2) % 256
  | 1 => (((char_array_3 0 &&& 0x03) <<< 4) + ((char_array_3 1 &&& 0xf0) >>> 4)) % 256
  | 2 => (((char_array_3 1 &&& 0x0f) <<< 2) + ((char_array_3 2 &&& 0xc0) >>> 6)) % 256
  | _ => (char_array_3 2 &&& 0x3f) % 256

/-- One iteration of the `for` loop over the input. -/
def base64_step (st : Base64Loop) (byte : Nat) : Base64Loop :=
  let char_array_3 := fun k => if k = st.i then byte % 256 else st.char_array_3 k
  if st.i + 1 = 3 then
    ⟨0, char_array_3,
      st.ret ++ (List.range 4).map (fun j => base64_char (base64_sextet char_array_3 j))⟩
  else ⟨st.i + 1, char_array_3, st.ret⟩

/-- The block `if (i) { ... }` after the loop, and the `return`. -/
def base64_finish (st : Base64Loop) : List Char :=
  if st.i ≠ 0 then
    let char_array_3 := fun k => if st.i ≤ k then 0 else st.char_array_3 k
    st.ret ++ (List.range (st.i + 1)).map (fun j => base64_char (base64_sextet char_array_3 j))
      ++ List.replicate (3 - st.i) '='
  else st.ret

/-- The function `base64_encode`. -/
def base64_encode (input : List Nat) : List Char :=
  base64_finish (input.foldl base64_step ⟨0, fun _ => 0, []⟩)

/-- The value of a character of the Base64 alphabet (RFC 4648, table 1). -/
def base64_value (c : Char) : Option Nat :=
  if c ∈ base64_chars.data then some (base64_chars.data.indexOf c) else none

/-- Standard Base64 decoding of padded text (RFC 4648, section 4): four
characters give three bytes; a final group ending in one or two `=` gives
two bytes or one. -/
def base64_decode : List Char → Option (List Nat)
  | [] => some []
  | a :: b :: c :: d :: rest =>
    if c = '=' ∧ d = '=' ∧ rest = [] then
      match base64_value a, base64_value b with
      | some x, some y => some [(x * 4 + y / 16) % 256]
      | _, _ => none
    else if d = '=' ∧ rest = [] then
      match base64_value a, base64_value b, base64_value c with
      | some x, some y, some z => some [(x * 4 + y / 16) % 256, (y * 16 + z / 4) % 256]
      | _, _, _ => none
    else
      match base64_value a, base64_value b, base64_value c, base64_value d,
        base64_decode rest with
      | some x, some y, some z, some v, some bytes =>
        some ((x * 4 + y / 16) % 256 :: (y * 16 + z / 4) % 256 :: (z * 64 + v) % 256 :: bytes)
      | _, _, _, _, _ => none
  | _ => none

/-- The text Base64 prescribes for a list of bytes, group by group. -/
def base64_groups : List Nat → List Char
  | [] => []
  | [a] => [base64_char (a / 4), base64_char (a % 4 * 16), '=', '=']
  | [a, b] =>
    [base64_char (a / 4), base64_char (a % 4 * 16 + b / 16), base64_char (b % 16 * 4), '=']
  | a :: b :: c :: rest =>
    base64_char (a / 4) :: base64_char (a % 4 * 16 + b / 16) ::
      base64_char (b % 16 * 4 + c / 64) :: base64_char (c % 64) :: base64_groups rest

/-- The accepting backend with another table of friend requests: the pending
request found for the receiver `u` was sent by `v`, the one found for any
other receiver was sent by `u`. -/
def mutualBackend : Backend where
  parse := fun s => moreFrames.lookup s
  serialize := render
  send_message := fun s r c => some ⟨"m1", s, r, "", c, "text", "t0", false⟩
  send_group_message := fun s g c => some ⟨"m2", s, "", g, c, "text", "t0", false⟩
  get_conversation := fun _ _ => []
  create_group := fun n d c => some ⟨"g1", n, d, c⟩
  add_member := fun _ _ => true
  get_user_groups := fun _ => []
  begin_txn := some ()
  commit := some ()
  select_user_id := fun name => some (some name)
  select_friendship := fun _ _ => some false
  insert_friend_request := fun _ _ => some (some "r1")
  select_pending_request := fun _ receiver =>
    some (some (if receiver = "u" then "v" else "u", receiver))
  update_request_accepted := fun _ => some ()
  insert_friendship := fun _ _ => some ()
  update_request_rejected := fun _ _ => some ()
  select_friend_requests := fun _ => some []
  select_friends := fun _ => some []

/-! ## The registry calls of a run -/

/-- The calls of `SessionManager::join` and `SessionManager::leave` recorded
in the trace, in order. -/
def World.registryCalls (w : World) : List RegistryCall :=
  w.trace.filterMap (fun e =>
    match e with
    | Event.join s u => some (RegistryCall.join s u)
    | Event.leave u => some (RegistryCall.leave u)
    | _ => none)

/-- The last call of the sequence that is a join of the session `s`, if
there is one. -/
def RegistryCall.lastJoin (s : SessionId) (calls : List RegistryCall) : Option RegistryCall :=
  (calls.reverse).find? (fun c =>
    match c with
    | RegistryCall.join k _ => decide (k = s)
    | RegistryCall.leave _ => false)

/-- The data members of a session whose joins are those of the sequence: the
user id of its last join and the flag set, or the initial values. -/
def RegistryCall.sessionState (s : SessionId) (calls : List RegistryCall) : SessionState :=
  match RegistryCall.lastJoin s calls with
  | some (RegistryCall.join _ u) => ⟨u, true⟩
  | _ => SessionState.init

/-! ## Writes in flight -/

/-- An auth envelope for user `u` and a `send_message` envelope that `u`
addresses to `u`. -/
def selfFrames : List (String × Json) :=
  [("auth-u", authEnvelope "x" "u"),
   ("send-self", Json.obj [("type", Json.str "send_message"),
      ("recipient_id", Json.str "u"), ("content", Json.str "hi")])]

/-- The server together with the number of writes of each session that have
completed. `Session::send` starts `ws_.async_write`; the write is outstanding
until its completion handler, which calls `Session::on_write`, has run. -/
structure Wire where
  server : Server
  completed : SessionId → Nat

/-- What can happen to the server and its writes. -/
inductive WireAction where
  /-- A connection is accepted, or a read completes. -/
  | act : Action → WireAction
  /-- The oldest outstanding write of the session completes with the given
  error code: `Session::on_write` is called. -/
  | written : SessionId → ErrorCode → WireAction

/-- The number of writes outstanding on a session: started by
`Session::send` and not completed. -/
def Wire.outstanding (wr : Wire) (s : SessionId) : Nat :=
  (wr.server.world.sentTo s).length - wr.completed s

/-- A server that has just started; no write has completed. -/
def Wire.initial : Wire := ⟨Server.initial, fun _ => 0⟩

/-- One action. A write completes only when one is outstanding. -/
def Wire.step (B : Backend) (wr : Wire) : WireAction → Wire
  | WireAction.act a => ⟨Server.step B wr.server a, wr.completed⟩
  | WireAction.written s ec =>
    if 0 < wr.outstanding s then
      ⟨⟨Session.on_write wr.server.world s ec, wr.server.accepted, wr.server.live⟩,
        fun k => if k = s then wr.completed k + 1 else wr.completed k⟩
    else wr

/-- The server and its writes after a sequence of actions from the start. -/
def Wire.run (B : Backend) (actions : List WireAction) : Wire :=
  actions.foldl (Wire.step B) Wire.initial

/-- Serialised delivery as the specification states it: no two writes on one
connection overlap, that is, at most one write is outstanding on a session. -/
def Wire.serialized (wr : Wire) : Prop :=
  ∀ s, wr.outstanding s ≤ 1

/-- Inbound frames whose `type` holds a NUL character: after a plain auth
envelope for `u`, an envelope of type `auth\u0000zz` for `u`, one for `w`,
and an envelope of type `get_groups\u0000zz`. -/
def cutFrames : List (String × Json) :=
  [("auth-u", authEnvelope "x" "u"),
   ("auth-cut", Json.obj [("type", Json.str "auth\x00zz"), ("token", Json.str "x"),
      ("user_id", Json.str "u")]),
   ("auth-cut-w", Json.obj [("type", Json.str "auth\x00zz"), ("token", Json.str "x"),
      ("user_id", Json.str "w")]),
   ("groups-cut", Json.obj [("type", Json.str "get_groups\x00zz")])]

/-- Sessions 1 and 2 are registered as `u` and `v`. -/
def World.twoOnline : World :=
  SessionManager.join (SessionManager.join World.initial 1 "u") 2 "v"

/-! ## Lemmas on the embedding -/

theorem Session.handle_message_auth_eq (B : Backend) (w : World) (self : SessionId)
    (message : String) (kvs : List (String × Json)) (token u : String)
    (hparse : B.parse message = some (Json.obj kvs))
    (htype : Json.at_string kvs "type" = some "auth")
    (htoken : Json.at_string kvs "token" = some token)
    (hvalid : token ≠ "")
    (huser : Json.at_string kvs "user_id" = some u) :
    Session.handle_message B w self message =
      Session.send (SessionManager.join (w.setObj self ⟨u, true⟩) self u) self
        (B.serialize (authSuccess u)) := by
  simp [Session.handle_message, Session.handle_message_try, hparse, Json.as_object, htype,
    htoken, hvalid, huser, authSuccess, SessionManager.join, World.setObj]

theorem Session.handle_message_unauth_eq (B : Backend) (w : World) (self : SessionId)
    (message : String) (kvs : List (String × Json)) (ty : String)
    (hunauth : (w.objs self).authenticated_ = false)
    (hparse : B.parse message = some (Json.obj kvs))
    (htype : Json.at_string kvs "type" = some ty)
    (hty : ty ≠ "auth") :
    Session.handle_message B w self message =
      Session.send w self (B.serialize (errorEnvelope "Not authenticated")) := by
  simp [Session.handle_message, Session.handle_message_try, hparse, Json.as_object, htype,
    hty, hunauth]

theorem JWTHandler.validate_token_accepts_nonempty (token user_id : String)
    (h : JWTHandler.validate_token token = some user_id) : token ≠ "" := by
  intro he
  subst he
  have hnone : JWTHandler.validate_token "" = none := by decide
  rw [hnone] at h
  exact Option.noConfusion h

theorem World.sentTo_emit_send (w : World) (s s' : SessionId) (m : String) :
    (w.emit (Event.send s' m)).sentTo s = w.sentTo s ++ (if s' = s then [m] else []) := by
  by_cases h : s' = s <;> simp [World.sentTo, World.emit, List.filterMap_append, h]

/-! ## Authentication -/

/-- C1 (the code departs from the claim). The validator rejects the token
`x`, yet an unauthenticated session that receives an auth envelope carrying
it ends authenticated and registered; and for the token `a.b.c`, which the
validator resolves to `user_id_from_token`, the session registers under the
user id written in the envelope, not under the resolved one. -/
theorem auth_without_validation :
    AuthService.validate_token "x" = none ∧
    (World.initial.objs 0).authenticated_ = false ∧
    (Session.handle_message (tableBackend frames) World.initial 0 "auth-u").objs 0
      = ⟨"u", true⟩ ∧
    (Session.handle_message (tableBackend frames) World.initial 0 "auth-u").sessions_ "u"
      = some 0 ∧
    AuthService.validate_token "a.b.c" = some "user_id_from_token" ∧
    (Session.handle_message (tableBackend frames) World.initial 0 "auth-jwt").sessions_ "u"
      = some 0 ∧
    (Session.handle_message (tableBackend frames) World.initial 0 "auth-jwt").sessions_
      "user_id_from_token" = none := by
  refine ⟨by decide, by decide, by decide, by decide, by decide, by decide, by decide⟩

/-- C2. A session that receives a well-formed auth envelope with a non-empty
token for user id `u` is registered under `u` (the entry for `u` is this
session and `u` is online), is authenticated with user id `u`, and after
that is sent exactly one envelope, `{"type":"auth_success","user_id":u}`;
no other session is sent anything, and no other registry entry or session
changes. This holds in every session state, in particular for an
unauthenticated session; every token the validator accepts is non-empty. -/
theorem auth_success (B : Backend) (w : World) (self : SessionId)
    (message : String) (kvs : List (String × Json)) (token u : String)
    (hparse : B.parse message = some (Json.obj kvs))
    (htype : Json.at_string kvs "type" = some "auth")
    (htoken : Json.at_string kvs "token" = some token)
    (hvalid : token ≠ "")
    (huser : Json.at_string kvs "user_id" = some u) :
    (Session.handle_message B w self message).sessions_ u = some self ∧
    SessionManager.is_user_online (Session.handle_message B w self message) u = true ∧
    (Session.handle_message B w self message).objs self = ⟨u, true⟩ ∧
    (Session.handle_message B w self message).trace = w.trace ++
      [Event.join self u,
       Event.send self (B.serialize
         (Json.obj [("type", Json.str "auth_success"), ("user_id", Json.str u)]))] ∧
    (Session.handle_message B w self message).sentTo self = w.sentTo self ++
      [B.serialize (Json.obj [("type", Json.str "auth_success"), ("user_id", Json.str u)])] ∧
    (∀ s, s ≠ self → (Session.handle_message B w self message).sentTo s = w.sentTo s) ∧
    (∀ v, v ≠ u → (Session.handle_message B w self message).sessions_ v = w.sessions_ v) ∧
    (∀ s, s ≠ self → (Session.handle_message B w self message).objs s = w.objs s) := by
  rw [Session.handle_message_auth_eq B w self message kvs token u hparse htype htoken hvalid huser]
  refine ⟨?_, ?_, ?_, ?_, ?_, ?_, ?_, ?_⟩
  · simp [Session.send, World.emit, SessionManager.join, World.setObj]
  · simp [SessionManager.is_user_online, Session.send, World.emit, SessionManager.join,
      World.setObj]
  · simp [Session.send, World.emit, SessionManager.join, World.setObj]
  · simp [Session.send, World.emit, SessionManager.join, World.setObj, authSuccess]
  · simp [World.sentTo, Session.send, World.emit, SessionManager.join, World.setObj,
      authSuccess, List.filterMap_append]
  · intro s hs
    have hs' : ¬ self = s := fun h => hs h.symm
    simp [World.sentTo, Session.send, World.emit, SessionManager.join, World.setObj,
      List.filterMap_append, hs']
  · intro v hv
    simp [Session.send, World.emit, SessionManager.join, World.setObj, hv]
  · intro s hs
    simp [Session.send, World.emit, SessionManager.join, World.setObj, hs]

/-- C2 at a concrete input: session 0 of a fresh server receives
`{"type":"auth","token":"x","user_id":"u"}`. -/
theorem auth_success_witness :
    (Session.handle_message (tableBackend frames) World.initial 0 "auth-u").sessions_ "u"
      = some 0 ∧
    (Session.handle_message (tableBackend frames) World.initial 0 "auth-u").trace
      = [Event.join 0 "u",
         Event.send 0 "\x7b\"type\":\"auth_success\",\"user_id\":\"u\"\x7d"] :=
  have h := auth_success (tableBackend frames) World.initial 0 "auth-u"
    [("type", Json.str "auth"), ("token", Json.str "x"), ("user_id", Json.str "u")]
    "x" "u" rfl rfl rfl (by decide) rfl
  ⟨h.1, h.2.2.2.1⟩

/-- An unauthenticated session that receives a JSON object whose `type` is
read as a string other than `auth` is sent exactly one envelope,
`{"type":"error","message":"Not authenticated"}`; its fields, every other
session and the registry are unchanged; the read loop is re-armed (the
connection stays open); and a following auth envelope with a non-empty token
for user id `u` authenticates it and registers it under `u`. -/
theorem not_authenticated_reply (B : Backend) (w : World) (self : SessionId)
    (message : String) (kvs : List (String × Json)) (ty : String)
    (hunauth : (w.objs self).authenticated_ = false)
    (hparse : B.parse message = some (Json.obj kvs))
    (htype : Json.at_string kvs "type" = some ty)
    (hty : ty ≠ "auth") :
    (Session.handle_message B w self message).trace = w.trace ++
      [Event.send self (B.serialize
        (Json.obj [("type", Json.str "error"), ("message", Json.str "Not authenticated")]))] ∧
    (Session.handle_message B w self message).objs = w.objs ∧
    (Session.handle_message B w self message).sessions_ = w.sessions_ ∧
    (Session.on_read B w self ErrorCode.success message).trace = w.trace ++
      [Event.send self (B.serialize
        (Json.obj [("type", Json.str "error"), ("message", Json.str "Not authenticated")])),
       Event.read self] ∧
    (∀ (message2 : String) (kvs2 : List (String × Json)) (token u : String),
      B.parse message2 = some (Json.obj kvs2) →
      Json.at_string kvs2 "type" = some "auth" →
      Json.at_string kvs2 "token" = some token →
      token ≠ "" →
      Json.at_string kvs2 "user_id" = some u →
      (Session.on_read B (Session.on_read B w self ErrorCode.success message) self
          ErrorCode.success message2).objs self = ⟨u, true⟩ ∧
      (Session.on_read B (Session.on_read B w self ErrorCode.success message) self
          ErrorCode.success message2).sessions_ u = some self) := by
  have h := Session.handle_message_unauth_eq B w self message kvs ty hunauth hparse htype hty
  refine ⟨?_, ?_, ?_, ?_, ?_⟩
  · rw [h]; simp [Session.send, World.emit, errorEnvelope]
  · rw [h]; simp [Session.send, World.emit]
  · rw [h]; simp [Session.send, World.emit]
  · simp [Session.on_read, Session.do_read, h, Session.send, World.emit, errorEnvelope]
  · intro message2 kvs2 token u hp2 ht2 htok2 hne2 hu2
    simp only [Session.on_read]
    rw [Session.handle_message_auth_eq B _ self message2 kvs2 token u hp2 ht2 htok2 hne2 hu2]
    simp [Session.do_read, Session.send, World.emit, SessionManager.join, World.setObj]

/-- The reply at a concrete input: session 0 of a fresh server receives a
`send_message` envelope. -/
theorem not_authenticated_reply_witness :
    (Session.handle_message (tableBackend frames) World.initial 0 "send").trace
      = [Event.send 0 "\x7b\"type\":\"error\",\"message\":\"Not authenticated\"\x7d"] ∧
    (Session.on_read (tableBackend frames)
        (Session.on_read (tableBackend frames) World.initial 0 ErrorCode.success "send") 0
        ErrorCode.success "auth-u").objs 0 = ⟨"u", true⟩ :=
  have h := not_authenticated_reply (tableBackend frames) World.initial 0 "send"
    [("type", Json.str "send_message"), ("recipient_id", Json.str "v"),
      ("content", Json.str "hi")]
    "send_message" rfl rfl rfl (by decide)
  ⟨h.1, (h.2.2.2.2 "auth-u"
    [("type", Json.str "auth"), ("token", Json.str "x"), ("user_id", Json.str "u")]
    "x" "u" rfl rfl rfl (by decide) rfl).1⟩

/-- C4 (the code departs from the claim). An unauthenticated session that
receives an auth envelope whose token is the empty string is sent nothing at
all: the trace stays empty, while the session stays unauthenticated and the
registry stays empty. A non-auth envelope in the same state is answered
with an error envelope. -/
theorem empty_token_no_reply :
    (World.initial.objs 0).authenticated_ = false ∧
    (tableBackend frames).parse "auth-empty" = some (authEnvelope "" "u") ∧
    (Session.handle_message (tableBackend frames) World.initial 0 "auth-empty").trace = [] ∧
    (Session.handle_message (tableBackend frames) World.initial 0 "auth-empty").sentTo 0 = [] ∧
    (Session.handle_message (tableBackend frames) World.initial 0 "auth-empty").objs 0
      = ⟨"", false⟩ ∧
    (Session.handle_message (tableBackend frames) World.initial 0 "auth-empty").sessions_ "u"
      = none ∧
    (Session.handle_message (tableBackend frames) World.initial 0 "send").sentTo 0
      = ["\x7b\"type\":\"error\",\"message\":\"Not authenticated\"\x7d"] := by
  refine ⟨by decide, rfl, by decide, by decide, by decide, by decide, by decide⟩

/-! ## The session registry -/

theorem RegistryCall.runAll_append (w : World) (calls : List RegistryCall)
    (c : RegistryCall) :
    RegistryCall.runAll w (calls ++ [c]) = RegistryCall.run (RegistryCall.runAll w calls) c := by
  simp [RegistryCall.runAll, List.foldl_append]

theorem RegistryCall.lastNaming_append (u : String) (calls : List RegistryCall)
    (c : RegistryCall) :
    RegistryCall.lastNaming u (calls ++ [c]) =
      if c.user = u then some c else RegistryCall.lastNaming u calls := by
  by_cases h : c.user = u <;> simp [RegistryCall.lastNaming, List.find?_cons, h]

theorem RegistryCall.online_run (w : World) (u : String) (c : RegistryCall) :
    SessionManager.is_user_online (RegistryCall.run w c) u =
      match c with
      | RegistryCall.join _ v => if u = v then true else SessionManager.is_user_online w u
      | RegistryCall.leave v => if u = v then false else SessionManager.is_user_online w u := by
  cases c with
  | join s v =>
    by_cases h : u = v <;>
      simp [RegistryCall.run, SessionManager.join, SessionManager.is_user_online, h]
  | leave v =>
    by_cases h : u = v <;>
      simp [RegistryCall.run, SessionManager.leave, SessionManager.is_user_online, h]

/-- C5. After any finite sequence of `join` and `leave` calls, on any user
ids and from any initial state, `is_user_online(u)` is true if the last call
that named `u` was a `join`, false if it was a `leave`, and its initial
value if no call named `u`. -/
theorem online_reflects_last_call (w : World) (u : String) (calls : List RegistryCall) :
    SessionManager.is_user_online (RegistryCall.runAll w calls) u =
      match RegistryCall.lastNaming u calls with
      | some (RegistryCall.join _ _) => true
      | some (RegistryCall.leave _) => false
      | none => SessionManager.is_user_online w u := by
  induction calls using List.reverseRecOn with
  | nil => simp [RegistryCall.runAll, RegistryCall.lastNaming]
  | append_singleton calls c ih =>
    rw [RegistryCall.runAll_append, RegistryCall.lastNaming_append, RegistryCall.online_run]
    cases c with
    | join s v =>
      by_cases h : u = v
      · simp [RegistryCall.user, h]
      · have h' : ¬ v = u := fun e => h e.symm
        simp [RegistryCall.user, h, h', ih]
    | leave v =>
      by_cases h : u = v
      · simp [RegistryCall.user, h]
      · have h' : ¬ v = u := fun e => h e.symm
        simp [RegistryCall.user, h, h', ih]

/-- C5 at a concrete input: on a fresh server session 1 joins as `u`, `u`
leaves, session 2 joins as `v`; then `u` is offline and `v` is online. -/
theorem online_reflects_last_call_witness :
    SessionManager.is_user_online
      (RegistryCall.runAll World.initial
        [RegistryCall.join 1 "u", RegistryCall.leave "u", RegistryCall.join 2 "v"]) "u"
      = false ∧
    SessionManager.is_user_online
      (RegistryCall.runAll World.initial
        [RegistryCall.join 1 "u", RegistryCall.leave "u", RegistryCall.join 2 "v"]) "v"
      = true :=
  ⟨online_reflects_last_call World.initial "u"
      [RegistryCall.join 1 "u", RegistryCall.leave "u", RegistryCall.join 2 "v"],
   online_reflects_last_call World.initial "v"
      [RegistryCall.join 1 "u", RegistryCall.leave "u", RegistryCall.join 2 "v"]⟩

/-- C6. After `join(C1, u)` followed by `join(C2, u)` with `C1 ≠ C2`, the
registry maps `u` to `C2` and to no other session, `u` is online,
`send_to_user(u, m)` calls `send(m)` on `C2` exactly once and sends nothing
to `C1`, and the entries of all other user ids are as before. -/
theorem double_join_replaces (w : World) (u : String) (C1 C2 : SessionId) (m : String)
    (hne : C1 ≠ C2) :
    (SessionManager.join (SessionManager.join w C1 u) C2 u).sessions_ u = some C2 ∧
    (∀ s, (SessionManager.join (SessionManager.join w C1 u) C2 u).sessions_ u = some s ↔
      s = C2) ∧
    SessionManager.is_user_online (SessionManager.join (SessionManager.join w C1 u) C2 u) u
      = true ∧
    (SessionManager.send_to_user (SessionManager.join (SessionManager.join w C1 u) C2 u)
        u m).trace
      = (SessionManager.join (SessionManager.join w C1 u) C2 u).trace ++ [Event.send C2 m] ∧
    (SessionManager.send_to_user (SessionManager.join (SessionManager.join w C1 u) C2 u)
        u m).sentTo C2
      = (SessionManager.join (SessionManager.join w C1 u) C2 u).sentTo C2 ++ [m] ∧
    (SessionManager.send_to_user (SessionManager.join (SessionManager.join w C1 u) C2 u)
        u m).sentTo C1
      = (SessionManager.join (SessionManager.join w C1 u) C2 u).sentTo C1 ∧
    (∀ v, v ≠ u →
      (SessionManager.join (SessionManager.join w C1 u) C2 u).sessions_ v = w.sessions_ v) := by
  have hne' : ¬ C2 = C1 := fun e => hne e.symm
  refine ⟨?_, ?_, ?_, ?_, ?_, ?_, ?_⟩
  · simp [SessionManager.join]
  · intro s
    simp [SessionManager.join, eq_comm]
  · simp [SessionManager.join, SessionManager.is_user_online]
  · simp [SessionManager.send_to_user, SessionManager.join, Session.send, World.emit]
  · simp [SessionManager.send_to_user, SessionManager.join, Session.send, World.emit,
      World.sentTo, List.filterMap_append]
  · simp [SessionManager.send_to_user, SessionManager.join, Session.send, World.emit,
      World.sentTo, List.filterMap_append, hne']
  · intro v hv
    simp [SessionManager.join, hv]

/-- C6 at a concrete input: sessions 1 and 2 join a fresh server as `u`. -/
theorem double_join_replaces_witness :
    (SessionManager.join (SessionManager.join World.initial 1 "u") 2 "u").sessions_ "u"
      = some 2 ∧
    (SessionManager.send_to_user
        (SessionManager.join (SessionManager.join World.initial 1 "u") 2 "u") "u" "m").sentTo 1
      = (SessionManager.join (SessionManager.join World.initial 1 "u") 2 "u").sentTo 1 :=
  have h := double_join_replaces World.initial "u" 1 2 "m" (by decide)
  ⟨h.1, h.2.2.2.2.2.1⟩

/-- C7. The call `send_to_user(u, m)` calls `send(m)` exactly once on the
session registered for `u` and on no other session when there is one, does
nothing at all when there is none, always returns, and never changes the
registry or a session. -/
theorem send_to_user_effect (w : World) (u m : String) :
    (SessionManager.send_to_user w u m).trace =
      (match w.sessions_ u with
       | some s => w.trace ++ [Event.send s m]
       | none => w.trace) ∧
    (∀ s, (SessionManager.send_to_user w u m).sentTo s =
      w.sentTo s ++ (if w.sessions_ u = some s then [m] else [])) ∧
    (SessionManager.send_to_user w u m).sessions_ = w.sessions_ ∧
    (SessionManager.send_to_user w u m).objs = w.objs := by
  cases h : w.sessions_ u with
  | none => simp [SessionManager.send_to_user, h]
  | some s0 =>
    refine ⟨?_, ?_, ?_, ?_⟩
    · simp [SessionManager.send_to_user, h, Session.send, World.emit]
    · intro s
      simp only [SessionManager.send_to_user, h, Session.send]
      rw [World.sentTo_emit_send]
      by_cases hs : s0 = s <;> simp [hs]
    · simp [SessionManager.send_to_user, h, Session.send, World.emit]
    · simp [SessionManager.send_to_user, h, Session.send, World.emit]

/-- C7 at a concrete input: with session 1 registered as `u`, a message for
`u` is sent on session 1 and a message for `v` is dropped. -/
theorem send_to_user_effect_witness :
    (SessionManager.send_to_user (SessionManager.join World.initial 1 "u") "u" "m").trace
      = [Event.join 1 "u", Event.send 1 "m"] ∧
    (SessionManager.send_to_user (SessionManager.join World.initial 1 "u") "v" "m").trace
      = [Event.join 1 "u"] :=
  ⟨(send_to_user_effect (SessionManager.join World.initial 1 "u") "u" "m").1,
   (send_to_user_effect (SessionManager.join World.initial 1 "u") "v" "m").1⟩

/-- C8. The call `leave(u)` removes the entry for `u`; when there is none the
registry is exactly as before; the entry of every other user id is
unchanged; no session changes; and a second `leave(u)` changes nothing
more. -/
theorem leave_effect (w : World) (u : String) :
    (SessionManager.leave w u).sessions_ u = none ∧
    (w.sessions_ u = none → (SessionManager.leave w u).sessions_ = w.sessions_) ∧
    (∀ v, v ≠ u → (SessionManager.leave w u).sessions_ v = w.sessions_ v) ∧
    (SessionManager.leave w u).objs = w.objs ∧
    (SessionManager.leave (SessionManager.leave w u) u).sessions_
      = (SessionManager.leave w u).sessions_ ∧
    (SessionManager.leave (SessionManager.leave w u) u).objs
      = (SessionManager.leave w u).objs := by
  refine ⟨?_, ?_, ?_, ?_, ?_, ?_⟩
  · simp [SessionManager.leave]
  · intro h
    funext k
    by_cases hk : k = u
    · simp [SessionManager.leave, hk, h]
    · simp [SessionManager.leave, hk]
  · intro v hv
    simp [SessionManager.leave, hv]
  · simp [SessionManager.leave]
  · funext k
    by_cases hk : k = u <;> simp [SessionManager.leave, hk]
  · simp [SessionManager.leave]

/-- C8 at a concrete input: with session 1 registered as `u` and session 2
as `v`, `leave("u")` removes `u` and keeps `v`; on a fresh server it leaves
the registry as it was. -/
theorem leave_effect_witness :
    (SessionManager.leave
      (SessionManager.join (SessionManager.join World.initial 1 "u") 2 "v") "u").sessions_ "u"
      = none ∧
    (SessionManager.leave
      (SessionManager.join (SessionManager.join World.initial 1 "u") 2 "v") "u").sessions_ "v"
      = some 2 ∧
    (SessionManager.leave World.initial "u").sessions_ = World.initial.sessions_ :=
  ⟨(leave_effect (SessionManager.join (SessionManager.join World.initial 1 "u") 2 "v") "u").1,
   (leave_effect (SessionManager.join (SessionManager.join World.initial 1 "u") 2 "v") "u").2.2.1
     "v" (by decide),
   (leave_effect World.initial "u").2.1 rfl⟩

/-! ## Closing a connection -/

/-- C9, the claim as stated fails. Session 1 authenticates as `u`, then
session 2 authenticates as `u` and replaces the entry, then session 1 is
closed gracefully: the registry no longer maps `u` to session 2 and `u` is
no longer online. -/
theorem close_evicts_newer_session :
    (Session.on_read (tableBackend frames)
        (Session.on_read (tableBackend frames) World.initial 1 ErrorCode.success "auth-u")
        2 ErrorCode.success "auth-u").objs 1 = ⟨"u", true⟩ ∧
    (Session.on_read (tableBackend frames)
        (Session.on_read (tableBackend frames) World.initial 1 ErrorCode.success "auth-u")
        2 ErrorCode.success "auth-u").sessions_ "u" = some 2 ∧
    ¬ ((Session.on_read (tableBackend frames)
        (Session.on_read (tableBackend frames)
          (Session.on_read (tableBackend frames) World.initial 1 ErrorCode.success "auth-u")
          2 ErrorCode.success "auth-u")
        1 ErrorCode.closed "").sessions_ "u" = some 2 ∧
      SessionManager.is_user_online
        (Session.on_read (tableBackend frames)
          (Session.on_read (tableBackend frames)
            (Session.on_read (tableBackend frames) World.initial 1 ErrorCode.success "auth-u")
            2 ErrorCode.success "auth-u")
          1 ErrorCode.closed "") "u" = true) := by
  refine ⟨by decide, by decide, by decide⟩

/-- C9 as amended. Deregistration on a graceful close is unconditional: an
authenticated session whose read completes with `websocket::error::closed`
removes the registry entry for its user id, whichever session that entry
refers to, and touches no other entry. So when `C1` authenticates as `u`,
a different session `C2` then authenticates as `u`, and `C1` is then closed
gracefully, the registry has no entry for `u` and `u` is not online. -/
theorem close_removes_entry_unconditionally (B : Backend) (w : World) (C1 C2 : SessionId)
    (m1 m2 last : String) (kvs1 kvs2 : List (String × Json)) (t1 t2 u : String)
    (hne : C1 ≠ C2)
    (hparse1 : B.parse m1 = some (Json.obj kvs1))
    (htype1 : Json.at_string kvs1 "type" = some "auth")
    (htoken1 : Json.at_string kvs1 "token" = some t1)
    (hvalid1 : t1 ≠ "")
    (huser1 : Json.at_string kvs1 "user_id" = some u)
    (hparse2 : B.parse m2 = some (Json.obj kvs2))
    (htype2 : Json.at_string kvs2 "type" = some "auth")
    (htoken2 : Json.at_string kvs2 "token" = some t2)
    (hvalid2 : t2 ≠ "")
    (huser2 : Json.at_string kvs2 "user_id" = some u) :
    (Session.handle_message B (Session.handle_message B w C1 m1) C2 m2).sessions_ u
      = some C2 ∧
    (Session.on_read B (Session.handle_message B (Session.handle_message B w C1 m1) C2 m2)
        C1 ErrorCode.closed last).sessions_ u = none ∧
    SessionManager.is_user_online
      (Session.on_read B (Session.handle_message B (Session.handle_message B w C1 m1) C2 m2)
        C1 ErrorCode.closed last) u = false ∧
    (∀ v, v ≠ u →
      (Session.on_read B (Session.handle_message B (Session.handle_message B w C1 m1) C2 m2)
        C1 ErrorCode.closed last).sessions_ v
      = (Session.handle_message B (Session.handle_message B w C1 m1) C2 m2).sessions_ v) ∧
    (∀ (w0 : World) (s : SessionId) (x : String), (w0.objs s).authenticated_ = true →
      (Session.on_read B w0 s ErrorCode.closed x).sessions_ (w0.objs s).user_id_ = none ∧
      ∀ v, v ≠ (w0.objs s).user_id_ →
        (Session.on_read B w0 s ErrorCode.closed x).sessions_ v = w0.sessions_ v) := by
  rw [Session.handle_message_auth_eq B w C1 m1 kvs1 t1 u hparse1 htype1 htoken1 hvalid1 huser1,
    Session.handle_message_auth_eq B _ C2 m2 kvs2 t2 u hparse2 htype2 htoken2 hvalid2 huser2]
  refine ⟨?_, ?_, ?_, ?_, ?_⟩
  · simp [Session.send, World.emit, SessionManager.join, World.setObj]
  · simp [Session.on_read, Session.send, World.emit, SessionManager.join, World.setObj,
      SessionManager.leave, hne]
  · simp [Session.on_read, Session.send, World.emit, SessionManager.join, World.setObj,
      SessionManager.leave, SessionManager.is_user_online, hne]
  · intro v hv
    simp [Session.on_read, Session.send, World.emit, SessionManager.join, World.setObj,
      SessionManager.leave, hne, hv]
  · intro w0 s x hauth
    refine ⟨?_, ?_⟩
    · simp [Session.on_read, hauth, SessionManager.leave]
    · intro v hv
      simp [Session.on_read, hauth, SessionManager.leave, hv]

/-- C9 as amended, at a concrete input: sessions 1 and 2 authenticate as `u`
on a fresh server, then session 1 is closed gracefully. -/
theorem close_removes_entry_unconditionally_witness :
    (Session.on_read (tableBackend frames)
        (Session.handle_message (tableBackend frames)
          (Session.handle_message (tableBackend frames) World.initial 1 "auth-u") 2 "auth-u")
        1 ErrorCode.closed "").sessions_ "u" = none :=
  (close_removes_entry_unconditionally (tableBackend frames) World.initial 1 2
    "auth-u" "auth-u" ""
    [("type", Json.str "auth"), ("token", Json.str "x"), ("user_id", Json.str "u")]
    [("type", Json.str "auth"), ("token", Json.str "x"), ("user_id", Json.str "u")]
    "x" "x" "u" (by decide) rfl rfl rfl (by decide) rfl rfl rfl rfl (by decide) rfl).2.1

/-- C10 (the code departs from the claim). Session 0 authenticates as `u` and
is registered under `u`; its next read completes with an error code other
than `websocket::error::closed` (here 104): the registry still maps `u` to
session 0. Had the read completed with `websocket::error::closed`, the entry
would be gone. -/
theorem read_failure_keeps_entry :
    (Session.on_read (tableBackend frames) World.initial 0 ErrorCode.success
        "auth-u").objs 0 = ⟨"u", true⟩ ∧
    (Session.on_read (tableBackend frames) World.initial 0 ErrorCode.success
        "auth-u").sessions_ "u" = some 0 ∧
    (Session.on_read (tableBackend frames)
        (Session.on_read (tableBackend frames) World.initial 0 ErrorCode.success "auth-u")
        0 (ErrorCode.failure 104) "").sessions_ "u" = some 0 ∧
    (Session.on_read (tableBackend frames)
        (Session.on_read (tableBackend frames) World.initial 0 ErrorCode.success "auth-u")
        0 (ErrorCode.failure 104) "").trace
      = (Session.on_read (tableBackend frames) World.initial 0 ErrorCode.success
          "auth-u").trace ∧
    (Session.on_read (tableBackend frames)
        (Session.on_read (tableBackend frames) World.initial 0 ErrorCode.success "auth-u")
        0 ErrorCode.closed "").sessions_ "u" = none := by
  refine ⟨by decide, by decide, by decide, by decide, by decide⟩

/-! ## Lemmas on the handlers -/

theorem World.Extends.refl (P : Event → Prop) (w : World) : World.Extends P w w :=
  ⟨rfl, rfl, [], by simp, by simp⟩

theorem World.Extends.emit {P : Event → Prop} {w w' : World} (e : Event)
    (h : World.Extends P w w') (he : P e) : World.Extends P w (w'.emit e) := by
  obtain ⟨h1, h2, evs, h3, h4⟩ := h
  refine ⟨h1, h2, evs ++ [e], by simp [World.emit, h3], ?_⟩
  intro x hx
  rcases List.mem_append.mp hx with hx | hx
  · exact h4 x hx
  · simp at hx; subst hx; exact he

theorem World.Extends.send_to_user {B : Backend} {w w' : World} (u m : String)
    (h : World.Extends (Event.quiet B) w w') (hm : genericReply B m) :
    World.Extends (Event.quiet B) w (SessionManager.send_to_user w' u m) := by
  unfold SessionManager.send_to_user
  split
  · exact World.Extends.emit _ h hm
  · exact h

theorem genericReply_error (B : Backend) (t : String) (ht : t ∈ errorTexts) :
    genericReply B (B.serialize (errorEnvelope t)) :=
  ⟨errorEnvelope t, rfl, fun _ => ⟨t, ht, rfl⟩⟩

theorem genericReply_typed (B : Backend) (ty : String) (rest : List (String × Json))
    (hty : Json.c_str ty ≠ "error") :
    genericReply B (B.serialize (Json.obj (("type", Json.str ty) :: rest))) := by
  refine ⟨_, rfl, ?_⟩
  intro h
  simp [Json.typeOf, Json.as_object, Json.at_string, Json.at_, List.lookup, Json.as_string] at h
  exact absurd h hty

theorem MessageHandler.handle_send_message_quiet (B : Backend) (w : World)
    (s r c : String) :
    World.Extends (Event.quiet B) (w.emit (Event.handler "handle_send_message" [s, r, c]))
      (MessageHandler.handle_send_message B w s r c) := by
  unfold MessageHandler.handle_send_message
  simp only []
  repeat' split
  all_goals
    repeat (first
      | exact World.Extends.refl _ _
      | apply World.Extends.emit
      | apply World.Extends.send_to_user
      | exact genericReply_typed B _ _ (by decide)
      | exact trivial)

theorem MessageHandler.handle_send_group_message_quiet (B : Backend) (w : World)
    (s g c : String) :
    World.Extends (Event.quiet B)
      (w.emit (Event.handler "handle_send_group_message" [s, g, c]))
      (MessageHandler.handle_send_group_message B w s g c) := by
  unfold MessageHandler.handle_send_group_message
  simp only []
  repeat' split
  all_goals
    repeat (first
      | exact World.Extends.refl _ _
      | apply World.Extends.emit
      | exact trivial)

theorem MessageHandler.handle_get_conversation_quiet (B : Backend) (w : World)
    (a b : String) :
    World.Extends (Event.quiet B) (w.emit (Event.handler "handle_get_conversation" [a, b]))
      (MessageHandler.handle_get_conversation B w a b).1 ∧
    genericReply B (MessageHandler.handle_get_conversation B w a b).2 := by
  unfold MessageHandler.handle_get_conversation
  simp only []
  refine ⟨?_, genericReply_typed B _ _ (by decide)⟩
  repeat (first
    | exact World.Extends.refl _ _
    | apply World.Extends.emit
    | exact trivial)

theorem GroupHandler.handle_create_group_quiet (B : Backend) (w : World)
    (a n d : String) :
    World.Extends (Event.quiet B) (w.emit (Event.handler "handle_create_group" [a, n, d]))
      (GroupHandler.handle_create_group B w a n d).1 ∧
    genericReply B (GroupHandler.handle_create_group B w a n d).2 := by
  unfold GroupHandler.handle_create_group
  simp only []
  repeat' split
  all_goals
    refine ⟨?_, ?_⟩
  all_goals
    first
    | exact genericReply_error B _ (by simp [errorTexts])
    | exact genericReply_typed B _ _ (by decide)
    | skip
  all_goals
    repeat (first
      | exact World.Extends.refl _ _
      | apply World.Extends.emit
      | exact trivial)

theorem GroupHandler.handle_add_member_quiet (B : Backend) (w : World) (g m : String) :
    World.Extends (Event.quiet B) (w.emit (Event.handler "handle_add_member" [g, m]))
      (GroupHandler.handle_add_member B w g m).1 ∧
    genericReply B (GroupHandler.handle_add_member B w g m).2 := by
  unfold GroupHandler.handle_add_member
  simp only []
  repeat' split
  all_goals
    refine ⟨?_, ?_⟩
  all_goals
    first
    | exact genericReply_error B _ (by simp [errorTexts])
    | exact genericReply_typed B _ _ (by decide)
    | skip
  all_goals
    repeat (first
      | exact World.Extends.refl _ _
      | apply World.Extends.emit
      | apply World.Extends.send_to_user
      | exact genericReply_typed B _ _ (by decide)
      | exact trivial)

theorem GroupHandler.handle_get_groups_quiet (B : Backend) (w : World) (a : String) :
    World.Extends (Event.quiet B) (w.emit (Event.handler "handle_get_groups" [a]))
      (GroupHandler.handle_get_groups B w a).1 ∧
    genericReply B (GroupHandler.handle_get_groups B w a).2 := by
  unfold GroupHandler.handle_get_groups
  simp only []
  refine ⟨?_, genericReply_typed B _ _ (by decide)⟩
  repeat (first
    | exact World.Extends.refl _ _
    | apply World.Extends.emit
    | exact trivial)

theorem FriendHandler.handle_send_friend_request_quiet (B : Backend) (w : World)
    (a username : String) :
    World.Extends (Event.quiet B)
      (w.emit (Event.handler "handle_send_friend_request" [a, username]))
      (FriendHandler.handle_send_friend_request B w a username).1 ∧
    genericReply B (FriendHandler.handle_send_friend_request B w a username).2 := by
  unfold FriendHandler.handle_send_friend_request
  simp only []
  repeat' split
  all_goals
    refine ⟨?_, ?_⟩
  all_goals
    first
    | exact genericReply_error B _ (by simp [errorTexts])
    | exact genericReply_typed B _ _ (by decide)
    | skip
  all_goals
    repeat (first
      | exact World.Extends.refl _ _
      | apply World.Extends.emit
      | apply World.Extends.send_to_user
      | exact genericReply_typed B _ _ (by decide)
      | exact trivial)

theorem FriendHandler.handle_accept_friend_request_quiet (B : Backend) (w : World)
    (a request_id : String) :
    World.Extends (Event.quiet B)
      (w.emit (Event.handler "handle_accept_friend_request" [a, request_id]))
      (FriendHandler.handle_accept_friend_request B w a request_id).1 ∧
    genericReply B (FriendHandler.handle_accept_friend_request B w a request_id).2 := by
  unfold FriendHandler.handle_accept_friend_request
  simp only []
  repeat' split
  all_goals
    refine ⟨?_, ?_⟩
  all_goals
    first
    | exact genericReply_error B _ (by simp [errorTexts])
    | exact genericReply_typed B _ _ (by decide)
    | skip
  all_goals
    repeat (first
      | exact World.Extends.refl _ _
      | apply World.Extends.emit
      | apply World.Extends.send_to_user
      | exact genericReply_typed B _ _ (by decide)
      | exact trivial)

theorem FriendHandler.handle_reject_friend_request_quiet (B : Backend) (w : World)
    (a request_id : String) :
    World.Extends (Event.quiet B)
      (w.emit (Event.handler "handle_reject_friend_request" [a, request_id]))
      (FriendHandler.handle_reject_friend_request B w a request_id).1 ∧
    genericReply B (FriendHandler.handle_reject_friend_request B w a request_id).2 := by
  unfold FriendHandler.handle_reject_friend_request
  simp only []
  repeat' split
  all_goals
    refine ⟨?_, ?_⟩
  all_goals
    first
    | exact genericReply_error B _ (by simp [errorTexts])
    | exact genericReply_typed B _ _ (by decide)
    | skip
  all_goals
    repeat (first
      | exact World.Extends.refl _ _
      | apply World.Extends.emit
      | exact trivial)

theorem FriendHandler.handle_get_friend_requests_quiet (B : Backend) (w : World)
    (a : String) :
    World.Extends (Event.quiet B)
      (w.emit (Event.handler "handle_get_friend_requests" [a]))
      (FriendHandler.handle_get_friend_requests B w a).1 ∧
    genericReply B (FriendHandler.handle_get_friend_requests B w a).2 := by
  unfold FriendHandler.handle_get_friend_requests
  simp only []
  repeat' split
  all_goals
    refine ⟨?_, ?_⟩
  all_goals
    first
    | exact genericReply_error B _ (by simp [errorTexts])
    | exact genericReply_typed B _ _ (by decide)
    | skip
  all_goals
    repeat (first
      | exact World.Extends.refl _ _
      | apply World.Extends.emit
      | exact trivial)

theorem FriendHandler.handle_get_friends_quiet (B : Backend) (w : World) (a : String) :
    World.Extends (Event.quiet B) (w.emit (Event.handler "handle_get_friends" [a]))
      (FriendHandler.handle_get_friends B w a).1 ∧
    genericReply B (FriendHandler.handle_get_friends B w a).2 := by
  unfold FriendHandler.handle_get_friends
  simp only []
  repeat' split
  all_goals
    refine ⟨?_, ?_⟩
  all_goals
    first
    | exact genericReply_error B _ (by simp [errorTexts])
    | exact genericReply_typed B _ _ (by decide)
    | skip
  all_goals
    repeat (first
      | exact World.Extends.refl _ _
      | apply World.Extends.emit
      | exact trivial)

/-! ## Lemmas on the dispatch -/

theorem expectedCall_send_message (user_id : String) (kvs : List (String × Json)) :
    expectedCall user_id "send_message" kvs =
      match fieldValues kvs ["recipient_id", "content"] with
      | none => none
      | some args => some ("handle_send_message", [user_id] ++ args) := by
  rfl

theorem SessionManager.dispatch_send_message (B : Backend) (w : World)
    (user_id message : String) (kvs : List (String × Json))
    (hparse : B.parse message = some (Json.obj kvs))
    (htype : Json.at_string kvs "type" = some "send_message") :
    match expectedCall user_id "send_message" kvs with
    | none => SessionManager.handle_client_message B w user_id message = w
    | some call =>
      World.Extends (Event.quiet B) (w.emit (Event.handler call.1 call.2))
        (SessionManager.handle_client_message B w user_id message) := by
  rw [expectedCall_send_message]
  rcases hf1 : Json.at_string kvs "recipient_id" with _ | v1 <;>
    rcases hf2 : Json.at_string kvs "content" with _ | v2 <;>
    simp [fieldValues, hf1, hf2,
      SessionManager.handle_client_message, SessionManager.handle_client_message_try,
      hparse, Json.as_object, htype]
  exact MessageHandler.handle_send_message_quiet B w user_id v1 v2

theorem expectedCall_send_group_message (user_id : String) (kvs : List (String × Json)) :
    expectedCall user_id "send_group_message" kvs =
      match fieldValues kvs ["group_id", "content"] with
      | none => none
      | some args => some ("handle_send_group_message", [user_id] ++ args) := by
  rfl

theorem SessionManager.dispatch_send_group_message (B : Backend) (w : World)
    (user_id message : String) (kvs : List (String × Json))
    (hparse : B.parse message = some (Json.obj kvs))
    (htype : Json.at_string kvs "type" = some "send_group_message") :
    match expectedCall user_id "send_group_message" kvs with
    | none => SessionManager.handle_client_message B w user_id message = w
    | some call =>
      World.Extends (Event.quiet B) (w.emit (Event.handler call.1 call.2))
        (SessionManager.handle_client_message B w user_id message) := by
  rw [expectedCall_send_group_message]
  rcases hf1 : Json.at_string kvs "group_id" with _ | v1 <;>
    rcases hf2 : Json.at_string kvs "content" with _ | v2 <;>
    simp [fieldValues, hf1, hf2,
      SessionManager.handle_client_message, SessionManager.handle_client_message_try,
      hparse, Json.as_object, htype]
  exact MessageHandler.handle_send_group_message_quiet B w user_id v1 v2

theorem expectedCall_get_conversation (user_id : String) (kvs : List (String × Json)) :
    expectedCall user_id "get_conversation" kvs =
      match fieldValues kvs ["user_id"] with
      | none => none
      | some args => some ("handle_get_conversation", [user_id] ++ args) := by
  rfl

theorem SessionManager.dispatch_get_conversation (B : Backend) (w : World)
    (user_id message : String) (kvs : List (String × Json))
    (hparse : B.parse message = some (Json.obj kvs))
    (htype : Json.at_string kvs "type" = some "get_conversation") :
    match expectedCall user_id "get_conversation" kvs with
    | none => SessionManager.handle_client_message B w user_id message = w
    | some call =>
      World.Extends (Event.quiet B) (w.emit (Event.handler call.1 call.2))
        (SessionManager.handle_client_message B w user_id message) := by
  rw [expectedCall_get_conversation]
  rcases hf1 : Json.at_string kvs "user_id" with _ | v1 <;>
    simp [fieldValues, hf1,
      SessionManager.handle_client_message, SessionManager.handle_client_message_try,
      hparse, Json.as_object, htype]
  exact World.Extends.send_to_user _ _
    (MessageHandler.handle_get_conversation_quiet B w user_id v1).1
    (MessageHandler.handle_get_conversation_quiet B w user_id v1).2

theorem expectedCall_create_group (user_id : String) (kvs : List (String × Json)) :
    expectedCall user_id "create_group" kvs =
      match fieldValues kvs ["group_name", "description"] with
      | none => none
      | some args => some ("handle_create_group", [user_id] ++ args) := by
  rfl

theorem SessionManager.dispatch_create_group (B : Backend) (w : World)
    (user_id message : String) (kvs : List (String × Json))
    (hparse : B.parse message = some (Json.obj kvs))
    (htype : Json.at_string kvs "type" = some "create_group") :
    match expectedCall user_id "create_group" kvs with
    | none => SessionManager.handle_client_message B w user_id message = w
    | some call =>
      World.Extends (Event.quiet B) (w.emit (Event.handler call.1 call.2))
        (SessionManager.handle_client_message B w user_id message) := by
  rw [expectedCall_create_group]
  rcases hf1 : Json.at_string kvs "group_name" with _ | v1 <;>
    rcases hf2 : Json.at_string kvs "description" with _ | v2 <;>
    simp [fieldValues, hf1, hf2,
      SessionManager.handle_client_message, SessionManager.handle_client_message_try,
      hparse, Json.as_object, htype]
  exact World.Extends.send_to_user _ _
    (GroupHandler.handle_create_group_quiet B w user_id v1 v2).1
    (GroupHandler.handle_create_group_quiet B w user_id v1 v2).2

theorem expectedCall_add_group_member (user_id : String) (kvs : List (String × Json)) :
    expectedCall user_id "add_group_member" kvs =
      match fieldValues kvs ["group_id", "user_id"] with
      | none => none
      | some args => some ("handle_add_member", args) := by
  rfl

theorem SessionManager.dispatch_add_group_member (B : Backend) (w : World)
    (user_id message : String) (kvs : List (String × Json))
    (hparse : B.parse message = some (Json.obj kvs))
    (htype : Json.at_string kvs "type" = some "add_group_member") :
    match expectedCall user_id "add_group_member" kvs with
    | none => SessionManager.handle_client_message B w user_id message = w
    | some call =>
      World.Extends (Event.quiet B) (w.emit (Event.handler call.1 call.2))
        (SessionManager.handle_client_message B w user_id message) := by
  rw [expectedCall_add_group_member]
  rcases hf1 : Json.at_string kvs "group_id" with _ | v1 <;>
    rcases hf2 : Json.at_string kvs "user_id" with _ | v2 <;>
    simp [fieldValues, hf1, hf2,
      SessionManager.handle_client_message, SessionManager.handle_client_message_try,
      hparse, Json.as_object, htype]
  exact World.Extends.send_to_user _ _
    (GroupHandler.handle_add_member_quiet B w v1 v2).1
    (GroupHandler.handle_add_member_quiet B w v1 v2).2

theorem expectedCall_get_groups (user_id : String) (kvs : List (String × Json)) :
    expectedCall user_id "get_groups" kvs =
      match fieldValues kvs [] with
      | none => none
      | some args => some ("handle_get_groups", [user_id] ++ args) := by
  rfl

theorem SessionManager.dispatch_get_groups (B : Backend) (w : World)
    (user_id message : String) (kvs : List (String × Json))
    (hparse : B.parse message = some (Json.obj kvs))
    (htype : Json.at_string kvs "type" = some "get_groups") :
    match expectedCall user_id "get_groups" kvs with
    | none => SessionManager.handle_client_message B w user_id message = w
    | some call =>
      World.Extends (Event.quiet B) (w.emit (Event.handler call.1 call.2))
        (SessionManager.handle_client_message B w user_id message) := by
  rw [expectedCall_get_groups]
  simp [fieldValues,
    SessionManager.handle_client_message, SessionManager.handle_client_message_try,
    hparse, Json.as_object, htype]
  exact World.Extends.send_to_user _ _
    (GroupHandler.handle_get_groups_quiet B w user_id).1
    (GroupHandler.handle_get_groups_quiet B w user_id).2

theorem expectedCall_send_friend_request (user_id : String) (kvs : List (String × Json)) :
    expectedCall user_id "send_friend_request" kvs =
      match fieldValues kvs ["username"] with
      | none => none
      | some args => some ("handle_send_friend_request", [user_id] ++ args) := by
  rfl

theorem SessionManager.dispatch_send_friend_request (B : Backend) (w : World)
    (user_id message : String) (kvs : List (String × Json))
    (hparse : B.parse message = some (Json.obj kvs))
    (htype : Json.at_string kvs "type" = some "send_friend_request") :
    match expectedCall user_id "send_friend_request" kvs with
    | none => SessionManager.handle_client_message B w user_id message = w
    | some call =>
      World.Extends (Event.quiet B) (w.emit (Event.handler call.1 call.2))
        (SessionManager.handle_client_message B w user_id message) := by
  rw [expectedCall_send_friend_request]
  rcases hf1 : Json.at_string kvs "username" with _ | v1 <;>
    simp [fieldValues, hf1,
      SessionManager.handle_client_message, SessionManager.handle_client_message_try,
      hparse, Json.as_object, htype]
  exact World.Extends.send_to_user _ _
    (FriendHandler.handle_send_friend_request_quiet B w user_id v1).1
    (FriendHandler.handle_send_friend_request_quiet B w user_id v1).2

theorem expectedCall_accept_friend_request (user_id : String) (kvs : List (String × Json)) :
    expectedCall user_id "accept_friend_request" kvs =
      match fieldValues kvs ["request_id"] with
      | none => none
      | some args => some ("handle_accept_friend_request", [user_id] ++ args) := by
  rfl

theorem SessionManager.dispatch_accept_friend_request (B : Backend) (w : World)
    (user_id message : String) (kvs : List (String × Json))
    (hparse : B.parse message = some (Json.obj kvs))
    (htype : Json.at_string kvs "type" = some "accept_friend_request") :
    match expectedCall user_id "accept_friend_request" kvs with
    | none => SessionManager.handle_client_message B w user_id message = w
    | some call =>
      World.Extends (Event.quiet B) (w.emit (Event.handler call.1 call.2))
        (SessionManager.handle_client_message B w user_id message) := by
  rw [expectedCall_accept_friend_request]
  rcases hf1 : Json.at_string kvs "request_id" with _ | v1 <;>
    simp [fieldValues, hf1,
      SessionManager.handle_client_message, SessionManager.handle_client_message_try,
      hparse, Json.as_object, htype]
  exact World.Extends.send_to_user _ _
    (FriendHandler.handle_accept_friend_request_quiet B w user_id v1).1
    (FriendHandler.handle_accept_friend_request_quiet B w user_id v1).2

theorem expectedCall_get_friend_requests (user_id : String) (kvs : List (String × Json)) :
    expectedCall user_id "get_friend_requests" kvs =
      match fieldValues kvs [] with
      | none => none
      | some args => some ("handle_get_friend_requests", [user_id] ++ args) := by
  rfl

theorem SessionManager.dispatch_get_friend_requests (B : Backend) (w : World)
    (user_id message : String) (kvs : List (String × Json))
    (hparse : B.parse message = some (Json.obj kvs))
    (htype : Json.at_string kvs "type" = some "get_friend_requests") :
    match expectedCall user_id "get_friend_requests" kvs with
    | none => SessionManager.handle_client_message B w user_id message = w
    | some call =>
      World.Extends (Event.quiet B) (w.emit (Event.handler call.1 call.2))
        (SessionManager.handle_client_message B w user_id message) := by
  rw [expectedCall_get_friend_requests]
  simp [fieldValues,
    SessionManager.handle_client_message, SessionManager.handle_client_message_try,
    hparse, Json.as_object, htype]
  exact World.Extends.send_to_user _ _
    (FriendHandler.handle_get_friend_requests_quiet B w user_id).1
    (FriendHandler.handle_get_friend_requests_quiet B w user_id).2

theorem expectedCall_get_friends (user_id : String) (kvs : List (String × Json)) :
    expectedCall user_id "get_friends" kvs =
      match fieldValues kvs [] with
      | none => none
      | some args => some ("handle_get_friends", [user_id] ++ args) := by
  rfl

theorem SessionManager.dispatch_get_friends (B : Backend) (w : World)
    (user_id message : String) (kvs : List (String × Json))
    (hparse : B.parse message = some (Json.obj kvs))
    (htype : Json.at_string kvs "type" = some "get_friends") :
    match expectedCall user_id "get_friends" kvs with
    | none => SessionManager.handle_client_message B w user_id message = w
    | some call =>
      World.Extends (Event.quiet B) (w.emit (Event.handler call.1 call.2))
        (SessionManager.handle_client_message B w user_id message) := by
  rw [expectedCall_get_friends]
  simp [fieldValues,
    SessionManager.handle_client_message, SessionManager.handle_client_message_try,
    hparse, Json.as_object, htype]
  exact World.Extends.send_to_user _ _
    (FriendHandler.handle_get_friends_quiet B w user_id).1
    (FriendHandler.handle_get_friends_quiet B w user_id).2

theorem SessionManager.handle_client_message_dispatch (B : Backend) (w : World)
    (user_id message : String) (kvs : List (String × Json)) (ty : String)
    (hparse : B.parse message = some (Json.obj kvs))
    (htype : Json.at_string kvs "type" = some ty) :
    match expectedCall user_id ty kvs with
    | none => SessionManager.handle_client_message B w user_id message = w
    | some call =>
      World.Extends (Event.quiet B) (w.emit (Event.handler call.1 call.2))
        (SessionManager.handle_client_message B w user_id message) := by
  by_cases h1 : ty = "send_message"
  · subst h1
    exact SessionManager.dispatch_send_message B w user_id message kvs hparse htype
  by_cases h2 : ty = "send_group_message"
  · subst h2
    exact SessionManager.dispatch_send_group_message B w user_id message kvs hparse htype
  by_cases h3 : ty = "get_conversation"
  · subst h3
    exact SessionManager.dispatch_get_conversation B w user_id message kvs hparse htype
  by_cases h4 : ty = "create_group"
  · subst h4
    exact SessionManager.dispatch_create_group B w user_id message kvs hparse htype
  by_cases h5 : ty = "add_group_member"
  · subst h5
    exact SessionManager.dispatch_add_group_member B w user_id message kvs hparse htype
  by_cases h6 : ty = "get_groups"
  · subst h6
    exact SessionManager.dispatch_get_groups B w user_id message kvs hparse htype
  by_cases h7 : ty = "send_friend_request"
  · subst h7
    exact SessionManager.dispatch_send_friend_request B w user_id message kvs hparse htype
  by_cases h8 : ty = "accept_friend_request"
  · subst h8
    exact SessionManager.dispatch_accept_friend_request B w user_id message kvs hparse htype
  by_cases h9 : ty = "get_friend_requests"
  · subst h9
    exact SessionManager.dispatch_get_friend_requests B w user_id message kvs hparse htype
  by_cases h10 : ty = "get_friends"
  · subst h10
    exact SessionManager.dispatch_get_friends B w user_id message kvs hparse htype
  have hnone : expectedCall user_id ty kvs = none := by
    simp only [expectedCall, dispatchTable, List.lookup, beq_false_of_ne h1,
      beq_false_of_ne h2, beq_false_of_ne h3, beq_false_of_ne h4, beq_false_of_ne h5,
      beq_false_of_ne h6, beq_false_of_ne h7, beq_false_of_ne h8, beq_false_of_ne h9,
      beq_false_of_ne h10]
  rw [hnone]
  simp [SessionManager.handle_client_message, SessionManager.handle_client_message_try,
    hparse, Json.as_object, htype, h1, h2, h3, h4, h5, h6, h7, h8, h9, h10]

theorem World.Extends.handlerCalls_eq {B : Backend} {w w' : World}
    (h : World.Extends (Event.quiet B) w w') : w'.handlerCalls = w.handlerCalls := by
  obtain ⟨_, _, evs, h3, h4⟩ := h
  have hnone : evs.filterMap (fun e =>
      match e with
      | Event.handler name args => some (name, args)
      | _ => none) = [] := by
    rw [List.filterMap_eq_nil_iff]
    intro e he
    have hq := h4 e he
    cases e <;> simp_all [Event.quiet]
  simp [World.handlerCalls, h3, List.filterMap_append, hnone]

theorem World.Extends.generic_of_quiet {B : Backend} {w w' : World}
    (h : World.Extends (Event.quiet B) w w') : World.Extends (Event.generic B) w w' := by
  obtain ⟨h1, h2, evs, h3, h4⟩ := h
  refine ⟨h1, h2, evs, h3, ?_⟩
  intro e he
  have hq := h4 e he
  cases e <;> simp_all [Event.quiet, Event.generic]

theorem World.Extends.of_emit {P : Event → Prop} {w w' : World} (e : Event)
    (h : World.Extends P (w.emit e) w') (he : P e) : World.Extends P w w' := by
  obtain ⟨h1, h2, evs, h3, h4⟩ := h
  refine ⟨h1, h2, e :: evs, by simp [h3, World.emit], ?_⟩
  intro x hx
  rcases List.mem_cons.mp hx with hx | hx
  · subst hx; exact he
  · exact h4 x hx

theorem SessionManager.handle_client_message_generic (B : Backend) (w : World)
    (user_id message : String) :
    World.Extends (Event.generic B) w
      (SessionManager.handle_client_message B w user_id message) := by
  rcases hparse : B.parse message with _ | parsed
  · simp [SessionManager.handle_client_message, SessionManager.handle_client_message_try,
      hparse, World.Extends.refl]
  rcases hobj : parsed.as_object with _ | kvs
  · simp [SessionManager.handle_client_message, SessionManager.handle_client_message_try,
      hparse, hobj, World.Extends.refl]
  have hparsed : parsed = Json.obj kvs := by
    cases parsed <;> simp_all [Json.as_object]
  subst hparsed
  rcases htype : Json.at_string kvs "type" with _ | ty
  · simp [SessionManager.handle_client_message, SessionManager.handle_client_message_try,
      hparse, Json.as_object, htype, World.Extends.refl]
  have h := SessionManager.handle_client_message_dispatch B w user_id message kvs ty hparse htype
  rcases hcall : expectedCall user_id ty kvs with _ | call
  · rw [hcall] at h
    simp only [] at h
    rw [h]
    exact World.Extends.refl _ _
  · rw [hcall] at h
    simp only [] at h
    exact World.Extends.of_emit _ (World.Extends.generic_of_quiet h) trivial

theorem Session.handle_message_authed_eq (B : Backend) (w : World) (self : SessionId)
    (message : String) (kvs : List (String × Json)) (ty : String)
    (hauth : (w.objs self).authenticated_ = true)
    (hparse : B.parse message = some (Json.obj kvs))
    (htype : Json.at_string kvs "type" = some ty)
    (hty : ty ≠ "auth") :
    Session.handle_message B w self message =
      SessionManager.handle_client_message B w (w.objs self).user_id_ message := by
  simp [Session.handle_message, Session.handle_message_try, hparse, Json.as_object, htype,
    hty, hauth]

/-! ## Routing of the operations -/

/-- C11. For a `send_message` envelope from sender `s` with string fields
`recipient_id = r` and `content = c` that the repository stores, the core
addresses exactly one `message_sent` envelope to `s` and then, if and only if
`r` is online, exactly one `new_message` envelope with `sender_id = s` and
`content = c` to `r`; it sends nothing else. An envelope addressed to a user
is one `Session::send` on the session registered for that user. The handler
is entered once, and neither the registry nor a session changes. -/
theorem direct_message_fanout (B : Backend) (w : World) (s message : String)
    (kvs : List (String × Json)) (r c : String) (stored : Message)
    (hparse : B.parse message = some (Json.obj kvs))
    (htype : Json.at_string kvs "type" = some "send_message")
    (hr : Json.at_string kvs "recipient_id" = some r)
    (hc : Json.at_string kvs "content" = some c)
    (hstored : B.send_message s r c = some stored) :
    (SessionManager.handle_client_message B w s message).sends = w.sends ++
      w.routed s (B.serialize (messageSent stored r c)) ++
      w.routed r (B.serialize (newMessage stored s c)) ∧
    (∀ ks, w.sessions_ s = some ks →
      (∀ kr, w.sessions_ r = some kr →
        (SessionManager.handle_client_message B w s message).sends = w.sends ++
          [(ks, B.serialize (messageSent stored r c)),
           (kr, B.serialize (newMessage stored s c))]) ∧
      (w.sessions_ r = none →
        (SessionManager.handle_client_message B w s message).sends = w.sends ++
          [(ks, B.serialize (messageSent stored r c))])) ∧
    (SessionManager.handle_client_message B w s message).handlerCalls = w.handlerCalls ++
      [("handle_send_message", [s, r, c])] ∧
    (SessionManager.handle_client_message B w s message).sessions_ = w.sessions_ ∧
    (SessionManager.handle_client_message B w s message).objs = w.objs := by
  have h : SessionManager.handle_client_message B w s message =
      MessageHandler.handle_send_message B w s r c := by
    simp [SessionManager.handle_client_message, SessionManager.handle_client_message_try,
      hparse, Json.as_object, htype, hr, hc]
  rw [h]
  cases hs : w.sessions_ s <;> cases hr' : w.sessions_ r <;>
    simp [MessageHandler.handle_send_message, hstored, World.emit, SessionManager.send_to_user,
      SessionManager.is_user_online, Session.send, World.routed, World.sends, World.handlerCalls,
      messageSent, newMessage, List.filterMap_append, hs, hr']

/-- C11 at a concrete input: with `u` online on session 1 and `v` on session
2, `u` sends `hi` to `v`; with only `u` online, only the confirmation is
sent. -/
theorem direct_message_fanout_witness :
    (SessionManager.handle_client_message (acceptingBackend moreFrames) World.twoOnline
        "u" "send").sends =
      World.twoOnline.sends ++
      [(1, "\x7b\"type\":\"message_sent\",\"message_id\":\"m1\",\"recipient_id\":\"v\",\"content\":\"hi\",\"created_at\":\"t0\"\x7d"),
       (2, "\x7b\"type\":\"new_message\",\"message_id\":\"m1\",\"sender_id\":\"u\",\"content\":\"hi\",\"created_at\":\"t0\"\x7d")] ∧
    (SessionManager.handle_client_message (acceptingBackend moreFrames)
        (SessionManager.join World.initial 1 "u") "u" "send").sends =
      (SessionManager.join World.initial 1 "u").sends ++
      [(1, "\x7b\"type\":\"message_sent\",\"message_id\":\"m1\",\"recipient_id\":\"v\",\"content\":\"hi\",\"created_at\":\"t0\"\x7d")] :=
  ⟨((direct_message_fanout (acceptingBackend moreFrames) World.twoOnline "u" "send"
      [("type", Json.str "send_message"), ("recipient_id", Json.str "v"),
        ("content", Json.str "hi")]
      "v" "hi" ⟨"m1", "u", "v", "", "hi", "text", "t0", false⟩ rfl rfl rfl rfl rfl).2.1
      1 rfl).1 2 rfl,
   ((direct_message_fanout (acceptingBackend moreFrames)
      (SessionManager.join World.initial 1 "u") "u" "send"
      [("type", Json.str "send_message"), ("recipient_id", Json.str "v"),
        ("content", Json.str "hi")]
      "v" "hi" ⟨"m1", "u", "v", "", "hi", "text", "t0", false⟩ rfl rfl rfl rfl rfl).2.1
      1 rfl).2 rfl⟩

/-- C12. For an `add_group_member` envelope from acting user `a` with string
fields `group_id = g` and `user_id = m`: when the repository reports success,
the core addresses exactly one `added_to_group` notification carrying `g` to
`m`, delivered if and only if `m` is online, and exactly one `member_added`
result carrying `g` and `m` to `a`; when it reports failure, the core
addresses one error envelope to `a` and nothing to `m`. Neither the registry
nor a session changes. -/
theorem add_member_fanout (B : Backend) (w : World) (a message : String)
    (kvs : List (String × Json)) (g m : String)
    (hparse : B.parse message = some (Json.obj kvs))
    (htype : Json.at_string kvs "type" = some "add_group_member")
    (hg : Json.at_string kvs "group_id" = some g)
    (hm : Json.at_string kvs "user_id" = some m) :
    (SessionManager.handle_client_message B w a message).sends = w.sends ++
      (if B.add_member g m = true then
        w.routed m (B.serialize (Json.obj [
          ("type", Json.str "added_to_group"), ("group_id", Json.str g)])) ++
        w.routed a (B.serialize (Json.obj [
          ("type", Json.str "member_added"), ("group_id", Json.str g),
          ("user_id", Json.str m)]))
      else
        w.routed a (B.serialize (Json.obj [
          ("type", Json.str "error"), ("message", Json.str "Failed to add member")]))) ∧
    (SessionManager.handle_client_message B w a message).handlerCalls = w.handlerCalls ++
      [("handle_add_member", [g, m])] ∧
    (SessionManager.handle_client_message B w a message).sessions_ = w.sessions_ ∧
    (SessionManager.handle_client_message B w a message).objs = w.objs := by
  have h : SessionManager.handle_client_message B w a message =
      SessionManager.send_to_user (GroupHandler.handle_add_member B w g m).1 a
        (GroupHandler.handle_add_member B w g m).2 := by
    simp [SessionManager.handle_client_message, SessionManager.handle_client_message_try,
      hparse, Json.as_object, htype, hg, hm]
  rw [h]
  cases hadd : B.add_member g m <;> cases ha : w.sessions_ a <;> cases hm' : w.sessions_ m <;>
    simp [GroupHandler.handle_add_member, hadd, World.emit, SessionManager.send_to_user,
      SessionManager.is_user_online, Session.send, World.routed, World.sends,
      World.handlerCalls, errorEnvelope, List.filterMap_append, ha, hm']

/-- C12 at a concrete input: with `u` online on session 1 and `v` on session
2, `u` adds `v` to group `g`; once the repository accepts, once it refuses. -/
theorem add_member_fanout_witness :
    (SessionManager.handle_client_message (acceptingBackend moreFrames) World.twoOnline
        "u" "add").sends =
      World.twoOnline.sends ++
      [(2, "\x7b\"type\":\"added_to_group\",\"group_id\":\"g\"\x7d"),
       (1, "\x7b\"type\":\"member_added\",\"group_id\":\"g\",\"user_id\":\"v\"\x7d")] ∧
    (SessionManager.handle_client_message (tableBackend moreFrames) World.twoOnline
        "u" "add").sends =
      World.twoOnline.sends ++
      [(1, "\x7b\"type\":\"error\",\"message\":\"Failed to add member\"\x7d")] :=
  ⟨(add_member_fanout (acceptingBackend moreFrames) World.twoOnline "u" "add"
      [("type", Json.str "add_group_member"), ("group_id", Json.str "g"),
        ("user_id", Json.str "v")]
      "g" "v" rfl rfl rfl rfl).1,
   (add_member_fanout (tableBackend moreFrames) World.twoOnline "u" "add"
      [("type", Json.str "add_group_member"), ("group_id", Json.str "g"),
        ("user_id", Json.str "v")]
      "g" "v" rfl rfl rfl rfl).1⟩

/-! ## Lemmas on the friend operations -/

theorem FriendHandler.send_sends_ok (B : Backend) (w : World) (a username rid req : String)
    (h : FriendHandler.send_succeeds B a username rid req) :
    (SessionManager.send_to_user (FriendHandler.handle_send_friend_request B w a username).1 a
      (FriendHandler.handle_send_friend_request B w a username).2).sends = w.sends ++
      w.routed rid (B.serialize (Json.obj [
        ("type", Json.str "friend_request_received"),
        ("request_id", Json.str req),
        ("sender_id", Json.str a)])) ++
      w.routed a (B.serialize (Json.obj [
        ("type", Json.str "friend_request_sent"),
        ("request_id", Json.str req),
        ("receiver_id", Json.str rid)])) := by
  obtain ⟨h1, h2, h3, h4, h5⟩ := h
  cases ha : w.sessions_ a <;> cases hr : w.sessions_ rid <;>
    simp [FriendHandler.handle_send_friend_request, h1, h2, h3, h4, h5, World.emit,
      SessionManager.send_to_user, SessionManager.is_user_online, Session.send, World.routed,
      World.sends, List.filterMap_append, ha, hr, -String.lt_iff_toList_lt]

theorem FriendHandler.send_sends_failed (B : Backend) (w : World) (a username : String)
    (h : ∀ rid req, ¬ FriendHandler.send_succeeds B a username rid req) :
    ∃ text, text ∈ ["User not found", "Already friends", "Request already exists",
        "Failed to send friend request"] ∧
    (SessionManager.send_to_user (FriendHandler.handle_send_friend_request B w a username).1 a
      (FriendHandler.handle_send_friend_request B w a username).2).sends = w.sends ++
      w.routed a (B.serialize (errorEnvelope text)) := by
  unfold FriendHandler.send_succeeds at h
  cases h1 : B.begin_txn with
  | none =>
    refine ⟨"Failed to send friend request", by simp, ?_⟩
    cases ha : w.sessions_ a <;>
      simp [FriendHandler.handle_send_friend_request, h1, World.emit,
        SessionManager.send_to_user, Session.send, World.routed, World.sends,
        List.filterMap_append, ha, -String.lt_iff_toList_lt]
  | some u1 =>
    cases h2 : B.select_user_id username with
    | none =>
      refine ⟨"Failed to send friend request", by simp, ?_⟩
      cases ha : w.sessions_ a <;>
        simp [FriendHandler.handle_send_friend_request, h1, h2, World.emit,
          SessionManager.send_to_user, Session.send, World.routed, World.sends,
          List.filterMap_append, ha, -String.lt_iff_toList_lt]
    | some o2 =>
      cases o2 with
      | none =>
        refine ⟨"User not found", by simp, ?_⟩
        cases ha : w.sessions_ a <;>
          simp [FriendHandler.handle_send_friend_request, h1, h2, World.emit,
            SessionManager.send_to_user, Session.send, World.routed, World.sends,
            List.filterMap_append, ha, -String.lt_iff_toList_lt]
      | some rid =>
        cases h3 : B.select_friendship
            (if a < rid then a else rid) (if a < rid then rid else a) with
        | none =>
          refine ⟨"Failed to send friend request", by simp, ?_⟩
          cases ha : w.sessions_ a <;>
            simp [FriendHandler.handle_send_friend_request, h1, h2, h3, World.emit,
              SessionManager.send_to_user, Session.send, World.routed, World.sends,
              List.filterMap_append, ha, -String.lt_iff_toList_lt]
        | some b3 =>
          cases b3 with
          | true =>
            refine ⟨"Already friends", by simp, ?_⟩
            cases ha : w.sessions_ a <;>
              simp [FriendHandler.handle_send_friend_request, h1, h2, h3, World.emit,
                SessionManager.send_to_user, Session.send, World.routed, World.sends,
                List.filterMap_append, ha, -String.lt_iff_toList_lt]
          | false =>
            cases h4 : B.insert_friend_request a rid with
            | none =>
              refine ⟨"Failed to send friend request", by simp, ?_⟩
              cases ha : w.sessions_ a <;>
                simp [FriendHandler.handle_send_friend_request, h1, h2, h3, h4, World.emit,
                  SessionManager.send_to_user, Session.send, World.routed, World.sends,
                  List.filterMap_append, ha, -String.lt_iff_toList_lt]
            | some o4 =>
              cases h5 : B.commit with
              | none =>
                refine ⟨"Failed to send friend request", by simp, ?_⟩
                cases ha : w.sessions_ a <;>
                  simp [FriendHandler.handle_send_friend_request, h1, h2, h3, h4, h5, World.emit,
                    SessionManager.send_to_user, Session.send, World.routed, World.sends,
                    List.filterMap_append, ha, -String.lt_iff_toList_lt]
              | some u5 =>
                cases o4 with
                | none =>
                  refine ⟨"Request already exists", by simp, ?_⟩
                  cases ha : w.sessions_ a <;>
                    simp [FriendHandler.handle_send_friend_request, h1, h2, h3, h4, h5,
                      World.emit, SessionManager.send_to_user, Session.send, World.routed,
                      World.sends, List.filterMap_append, ha, -String.lt_iff_toList_lt]
                | some req =>
                  exact absurd ⟨h1, h2, h3, h4, h5⟩ (h rid req)

theorem FriendHandler.accept_sends_ok (B : Backend) (w : World) (a request_id sid : String)
    (h : FriendHandler.accept_succeeds B a request_id sid) :
    (SessionManager.send_to_user
      (FriendHandler.handle_accept_friend_request B w a request_id).1 a
      (FriendHandler.handle_accept_friend_request B w a request_id).2).sends = w.sends ++
      w.routed sid (B.serialize (Json.obj [
        ("type", Json.str "friend_request_accepted"),
        ("friend_id", Json.str a)])) ++
      w.routed a (B.serialize (Json.obj [
        ("type", Json.str "friend_request_accepted"),
        ("request_id", Json.str request_id),
        ("friend_id", Json.str sid)])) := by
  obtain ⟨h1, h2, h3, h4, h5⟩ := h
  cases ha : w.sessions_ a <;> cases hr : w.sessions_ sid <;>
    simp [FriendHandler.handle_accept_friend_request, h1, h2, h3, h4, h5, World.emit,
      SessionManager.send_to_user, SessionManager.is_user_online, Session.send, World.routed,
      World.sends, List.filterMap_append, ha, hr, -String.lt_iff_toList_lt]

theorem FriendHandler.accept_sends_failed (B : Backend) (w : World) (a request_id : String)
    (hrow : ∀ sid rid, B.select_pending_request request_id a = some (some (sid, rid)) →
      rid = a)
    (h : ∀ sid, ¬ FriendHandler.accept_succeeds B a request_id sid) :
    ∃ text, text ∈ ["Friend request not found", "Failed to accept friend request"] ∧
    (SessionManager.send_to_user
      (FriendHandler.handle_accept_friend_request B w a request_id).1 a
      (FriendHandler.handle_accept_friend_request B w a request_id).2).sends = w.sends ++
      w.routed a (B.serialize (errorEnvelope text)) := by
  unfold FriendHandler.accept_succeeds at h
  cases h1 : B.begin_txn with
  | none =>
    refine ⟨"Failed to accept friend request", by simp, ?_⟩
    cases ha : w.sessions_ a <;>
      simp [FriendHandler.handle_accept_friend_request, h1, World.emit,
        SessionManager.send_to_user, Session.send, World.routed, World.sends,
        List.filterMap_append, ha, -String.lt_iff_toList_lt]
  | some u1 =>
    cases h2 : B.select_pending_request request_id a with
    | none =>
      refine ⟨"Failed to accept friend request", by simp, ?_⟩
      cases ha : w.sessions_ a <;>
        simp [FriendHandler.handle_accept_friend_request, h1, h2, World.emit,
          SessionManager.send_to_user, Session.send, World.routed, World.sends,
          List.filterMap_append, ha, -String.lt_iff_toList_lt]
    | some o2 =>
      cases o2 with
      | none =>
        refine ⟨"Friend request not found", by simp, ?_⟩
        cases ha : w.sessions_ a <;>
          simp [FriendHandler.handle_accept_friend_request, h1, h2, World.emit,
            SessionManager.send_to_user, Session.send, World.routed, World.sends,
            List.filterMap_append, ha, -String.lt_iff_toList_lt]
      | some row =>
        obtain ⟨sid, rid⟩ := row
        have hrid : rid = a := hrow sid rid h2
        subst hrid
        cases h3 : B.update_request_accepted request_id with
        | none =>
          refine ⟨"Failed to accept friend request", by simp, ?_⟩
          cases ha : w.sessions_ rid <;>
            simp [FriendHandler.handle_accept_friend_request, h1, h2, h3, World.emit,
              SessionManager.send_to_user, Session.send, World.routed, World.sends,
              List.filterMap_append, ha, -String.lt_iff_toList_lt]
        | some u3 =>
          cases h4 : B.insert_friendship
              (if sid < rid then sid else rid) (if sid < rid then rid else sid) with
          | none =>
            refine ⟨"Failed to accept friend request", by simp, ?_⟩
            cases ha : w.sessions_ rid <;>
              simp [FriendHandler.handle_accept_friend_request, h1, h2, h3, h4, World.emit,
                SessionManager.send_to_user, Session.send, World.routed, World.sends,
                List.filterMap_append, ha, -String.lt_iff_toList_lt]
          | some u4 =>
            cases h5 : B.commit with
            | none =>
              refine ⟨"Failed to accept friend request", by simp, ?_⟩
              cases ha : w.sessions_ rid <;>
                simp [FriendHandler.handle_accept_friend_request, h1, h2, h3, h4, h5,
                  World.emit, SessionManager.send_to_user, Session.send, World.routed,
                  World.sends, List.filterMap_append, ha, -String.lt_iff_toList_lt]
            | some u5 =>
              exact absurd ⟨h1, h2, h3, h4, h5⟩ (h sid)

/-- C13. For `send_friend_request` and `accept_friend_request` issued by
acting user `a`: the core addresses exactly one result envelope to `a`,
`friend_request_sent` respectively `friend_request_accepted` when the
database carries the operation through and an error envelope otherwise; when
the operation succeeds it addresses exactly one notification to the affected
party, delivered if and only if that party is online (`friend_request_received`
with `sender_id = a` to the receiver; `friend_request_accepted` with
`friend_id = a` to the original sender); on every failure no notification is
sent. The pending request the database returns for receiver `a` is taken to
have `a` as its receiver, as the query asks. -/
theorem friend_operations_fanout (B : Backend) (w : World) (a : String)
    (msgS : String) (kvsS : List (String × Json)) (username : String)
    (msgA : String) (kvsA : List (String × Json)) (request_id : String)
    (hparseS : B.parse msgS = some (Json.obj kvsS))
    (htypeS : Json.at_string kvsS "type" = some "send_friend_request")
    (hname : Json.at_string kvsS "username" = some username)
    (hparseA : B.parse msgA = some (Json.obj kvsA))
    (htypeA : Json.at_string kvsA "type" = some "accept_friend_request")
    (hreq : Json.at_string kvsA "request_id" = some request_id)
    (hrow : ∀ sid rid, B.select_pending_request request_id a = some (some (sid, rid)) →
      rid = a) :
    (∀ rid req, FriendHandler.send_succeeds B a username rid req →
      (SessionManager.handle_client_message B w a msgS).sends = w.sends ++
        w.routed rid (B.serialize (Json.obj [
          ("type", Json.str "friend_request_received"),
          ("request_id", Json.str req),
          ("sender_id", Json.str a)])) ++
        w.routed a (B.serialize (Json.obj [
          ("type", Json.str "friend_request_sent"),
          ("request_id", Json.str req),
          ("receiver_id", Json.str rid)]))) ∧
    ((∀ rid req, ¬ FriendHandler.send_succeeds B a username rid req) →
      ∃ text, text ∈ ["User not found", "Already friends", "Request already exists",
          "Failed to send friend request"] ∧
        (SessionManager.handle_client_message B w a msgS).sends = w.sends ++
          w.routed a (B.serialize (errorEnvelope text))) ∧
    (∀ sid, FriendHandler.accept_succeeds B a request_id sid →
      (SessionManager.handle_client_message B w a msgA).sends = w.sends ++
        w.routed sid (B.serialize (Json.obj [
          ("type", Json.str "friend_request_accepted"),
          ("friend_id", Json.str a)])) ++
        w.routed a (B.serialize (Json.obj [
          ("type", Json.str "friend_request_accepted"),
          ("request_id", Json.str request_id),
          ("friend_id", Json.str sid)]))) ∧
    ((∀ sid, ¬ FriendHandler.accept_succeeds B a request_id sid) →
      ∃ text, text ∈ ["Friend request not found", "Failed to accept friend request"] ∧
        (SessionManager.handle_client_message B w a msgA).sends = w.sends ++
          w.routed a (B.serialize (errorEnvelope text))) := by
  have hS : SessionManager.handle_client_message B w a msgS =
      SessionManager.send_to_user (FriendHandler.handle_send_friend_request B w a username).1 a
        (FriendHandler.handle_send_friend_request B w a username).2 := by
    simp [SessionManager.handle_client_message, SessionManager.handle_client_message_try,
      hparseS, Json.as_object, htypeS, hname]
  have hA : SessionManager.handle_client_message B w a msgA =
      SessionManager.send_to_user
        (FriendHandler.handle_accept_friend_request B w a request_id).1 a
        (FriendHandler.handle_accept_friend_request B w a request_id).2 := by
    simp [SessionManager.handle_client_message, SessionManager.handle_client_message_try,
      hparseA, Json.as_object, htypeA, hreq]
  rw [hS, hA]
  exact ⟨fun rid req h => FriendHandler.send_sends_ok B w a username rid req h,
    fun h => FriendHandler.send_sends_failed B w a username h,
    fun sid h => FriendHandler.accept_sends_ok B w a request_id sid h,
    fun h => FriendHandler.accept_sends_failed B w a request_id hrow h⟩

/-- C13 at a concrete input: with `u` online on session 1 and `v` on session
2, `v` sends a friend request to the user named `u`, and `v` accepts the
request `r1` that `u` sent; then the same request against a database that
refuses everything. -/
theorem friend_operations_fanout_witness :
    (SessionManager.handle_client_message (acceptingBackend moreFrames) World.twoOnline
        "v" "friend").sends =
      World.twoOnline.sends ++
      [(1, "\x7b\"type\":\"friend_request_received\",\"request_id\":\"r1\",\"sender_id\":\"v\"\x7d"),
       (2, "\x7b\"type\":\"friend_request_sent\",\"request_id\":\"r1\",\"receiver_id\":\"u\"\x7d")] ∧
    (SessionManager.handle_client_message (acceptingBackend moreFrames) World.twoOnline
        "v" "accept").sends =
      World.twoOnline.sends ++
      [(1, "\x7b\"type\":\"friend_request_accepted\",\"friend_id\":\"v\"\x7d"),
       (2, "\x7b\"type\":\"friend_request_accepted\",\"request_id\":\"r1\",\"friend_id\":\"u\"\x7d")] ∧
    (∃ text, text ∈ ["User not found", "Already friends", "Request already exists",
        "Failed to send friend request"] ∧
      (SessionManager.handle_client_message (tableBackend moreFrames) World.twoOnline
        "v" "friend").sends =
      World.twoOnline.sends ++
        World.twoOnline.routed "v" (render (errorEnvelope text))) :=
  ⟨(friend_operations_fanout (acceptingBackend moreFrames) World.twoOnline "v"
      "friend" [("type", Json.str "send_friend_request"), ("username", Json.str "u")] "u"
      "accept" [("type", Json.str "accept_friend_request"), ("request_id", Json.str "r1")] "r1"
      rfl rfl rfl rfl rfl rfl
      (fun _ _ h => (Prod.mk.inj (Option.some.inj (Option.some.inj h))).2.symm)).1
      "u" "r1" ⟨rfl, rfl, rfl, rfl, rfl⟩,
   (friend_operations_fanout (acceptingBackend moreFrames) World.twoOnline "v"
      "friend" [("type", Json.str "send_friend_request"), ("username", Json.str "u")] "u"
      "accept" [("type", Json.str "accept_friend_request"), ("request_id", Json.str "r1")] "r1"
      rfl rfl rfl rfl rfl rfl
      (fun _ _ h => (Prod.mk.inj (Option.some.inj (Option.some.inj h))).2.symm)).2.2.1
      "u" ⟨rfl, rfl, rfl, rfl, rfl⟩,
   (friend_operations_fanout (tableBackend moreFrames) World.twoOnline "v"
      "friend" [("type", Json.str "send_friend_request"), ("username", Json.str "u")] "u"
      "accept" [("type", Json.str "accept_friend_request"), ("request_id", Json.str "r1")] "r1"
      rfl rfl rfl rfl rfl rfl
      (fun _ _ h => Option.noConfusion h)).2.1
      (fun _ _ h => Option.noConfusion h.1)⟩

/-! ## Decoding and dispatch -/

/-- C14. For every session, authenticated or not, and every payload that is
not valid JSON, is not a JSON object, or has no string-valued `type`:
`handle_message` sends exactly one error envelope,
`{"type":"error","message":"Invalid message format"}`, to that session and
nothing to any other, enters no handler, changes neither a session nor the
registry, and the read loop is re-armed. -/
theorem malformed_payload_reply (B : Backend) (w : World) (self : SessionId)
    (message : String)
    (hbad : B.parse message = none ∨
      (∃ j, B.parse message = some j ∧ j.as_object = none) ∨
      (∃ kvs, B.parse message = some (Json.obj kvs) ∧ Json.at_string kvs "type" = none)) :
    (Session.handle_message B w self message).trace = w.trace ++
      [Event.send self (B.serialize
        (Json.obj [("type", Json.str "error"),
          ("message", Json.str "Invalid message format")]))] ∧
    (Session.handle_message B w self message).sends = w.sends ++
      [(self, B.serialize
        (Json.obj [("type", Json.str "error"),
          ("message", Json.str "Invalid message format")]))] ∧
    (Session.handle_message B w self message).handlerCalls = w.handlerCalls ∧
    (Session.handle_message B w self message).objs = w.objs ∧
    (Session.handle_message B w self message).sessions_ = w.sessions_ ∧
    (Session.on_read B w self ErrorCode.success message).trace = w.trace ++
      [Event.send self (B.serialize
        (Json.obj [("type", Json.str "error"),
          ("message", Json.str "Invalid message format")])),
       Event.read self] := by
  have h : Session.handle_message B w self message =
      Session.send w self (B.serialize (errorEnvelope "Invalid message format")) := by
    rcases hbad with h | ⟨j, h, hj⟩ | ⟨kvs, h, hk⟩
    · simp [Session.handle_message, Session.handle_message_try, h]
    · simp [Session.handle_message, Session.handle_message_try, h, hj]
    · simp [Session.handle_message, Session.handle_message_try, h, Json.as_object, hk]
  simp [Session.on_read, Session.do_read, h, Session.send, World.emit, errorEnvelope,
    World.sends, World.handlerCalls, List.filterMap_append]

/-- C14 at a concrete input: session 0 of a fresh server receives a payload
that does not parse, a JSON array, and an object without `type`. -/
theorem malformed_payload_reply_witness :
    (Session.handle_message (tableBackend moreFrames) World.initial 0 "junk").sends =
      [(0, "\x7b\"type\":\"error\",\"message\":\"Invalid message format\"\x7d")] ∧
    (Session.handle_message (tableBackend moreFrames) World.initial 0 "array").sends =
      [(0, "\x7b\"type\":\"error\",\"message\":\"Invalid message format\"\x7d")] ∧
    (Session.handle_message (tableBackend moreFrames) World.initial 0 "no-type").sends =
      [(0, "\x7b\"type\":\"error\",\"message\":\"Invalid message format\"\x7d")] :=
  ⟨(malformed_payload_reply (tableBackend moreFrames) World.initial 0 "junk"
      (Or.inl rfl)).2.1,
   (malformed_payload_reply (tableBackend moreFrames) World.initial 0 "array"
      (Or.inr (Or.inl ⟨Json.arr [], rfl, rfl⟩))).2.1,
   (malformed_payload_reply (tableBackend moreFrames) World.initial 0 "no-type"
      (Or.inr (Or.inr ⟨[("token", Json.str "x")], rfl, rfl⟩))).2.1⟩

/-- C15 (the code departs from the claim). Session 0 authenticates as `u`
and then receives a `send_message` envelope without `content`: nothing is
sent and nothing else happens, because the `catch` handler of
`handle_client_message` only logs. A payload that is not an object, caught
by `handle_message` itself, is answered with an error envelope in the same
state. -/
theorem missing_field_no_reply :
    ((Session.handle_message (acceptingBackend moreFrames) World.initial 0 "auth-u").objs
      0).authenticated_ = true ∧
    (acceptingBackend moreFrames).parse "send-nocontent" =
      some (Json.obj [("type", Json.str "send_message"), ("recipient_id", Json.str "v")]) ∧
    (Session.handle_message (acceptingBackend moreFrames)
        (Session.handle_message (acceptingBackend moreFrames) World.initial 0 "auth-u")
        0 "send-nocontent").trace =
      (Session.handle_message (acceptingBackend moreFrames) World.initial 0 "auth-u").trace ∧
    (Session.handle_message (acceptingBackend moreFrames)
        (Session.handle_message (acceptingBackend moreFrames) World.initial 0 "auth-u")
        0 "send-nocontent").sends =
      [(0, "\x7b\"type\":\"auth_success\",\"user_id\":\"u\"\x7d")] ∧
    (Session.handle_message (acceptingBackend moreFrames)
        (Session.handle_message (acceptingBackend moreFrames) World.initial 0 "auth-u")
        0 "array").sends =
      [(0, "\x7b\"type\":\"auth_success\",\"user_id\":\"u\"\x7d"),
       (0, "\x7b\"type\":\"error\",\"message\":\"Invalid message format\"\x7d")] := by
  refine ⟨by decide, rfl, by decide, by decide, by decide⟩

/-- An authenticated session that receives a JSON object whose `type` is
read as a string outside the recognized types is left exactly as it was, and so
is everything else: no handler is entered, nothing is sent to any session,
the registry is unchanged; only the read loop is re-armed. -/
theorem unrecognized_type_ignored (B : Backend) (w : World) (self : SessionId)
    (message : String) (kvs : List (String × Json)) (ty : String)
    (hauth : (w.objs self).authenticated_ = true)
    (hparse : B.parse message = some (Json.obj kvs))
    (htype : Json.at_string kvs "type" = some ty)
    (hty : ty ∉ recognizedTypes) :
    Session.handle_message B w self message = w ∧
    (Session.on_read B w self ErrorCode.success message).trace = w.trace ++ [Event.read self] := by
  have hne : ty ≠ "auth" := by
    intro h; apply hty; simp [recognizedTypes, h]
  have hcall : expectedCall (w.objs self).user_id_ ty kvs = none := by
    simp only [recognizedTypes, List.mem_cons, List.mem_singleton, not_or, List.not_mem_nil,
      or_false] at hty
    obtain ⟨_, h1, h2, h3, h4, h5, h6, h7, h8, h9, h10⟩ := hty
    simp only [expectedCall, dispatchTable, List.lookup, beq_false_of_ne h1,
      beq_false_of_ne h2, beq_false_of_ne h3, beq_false_of_ne h4, beq_false_of_ne h5,
      beq_false_of_ne h6, beq_false_of_ne h7, beq_false_of_ne h8, beq_false_of_ne h9,
      beq_false_of_ne h10]
  have h := SessionManager.handle_client_message_dispatch B w (w.objs self).user_id_ message
    kvs ty hparse htype
  rw [hcall] at h
  simp only [] at h
  have hm := Session.handle_message_authed_eq B w self message kvs ty hauth hparse htype hne
  rw [h] at hm
  exact ⟨hm, by simp [Session.on_read, hm, Session.do_read, World.emit]⟩

/-- At a concrete input: session 0, authenticated as `u`, receives an
envelope of type `ping`. -/
theorem unrecognized_type_ignored_witness :
    Session.handle_message (tableBackend moreFrames)
        (Session.handle_message (tableBackend moreFrames) World.initial 0 "auth-u") 0 "ping" =
      Session.handle_message (tableBackend moreFrames) World.initial 0 "auth-u" :=
  (unrecognized_type_ignored (tableBackend moreFrames)
    (Session.handle_message (tableBackend moreFrames) World.initial 0 "auth-u") 0 "ping"
    [("type", Json.str "ping")] "ping" rfl rfl rfl (by decide)).1

/-- C17. For an envelope whose type is one of the ten recognized types other
than `auth` and whose required fields are there as strings,
`handle_client_message` enters exactly one handler, exactly once: the one the
dispatch table maps the type to, with the acting user (where the handler
takes one) and the values of the envelope's fields as arguments. -/
theorem dispatch_exactly_one (B : Backend) (w : World) (user_id message : String)
    (kvs : List (String × Json)) (ty : String) (call : String × List String)
    (hparse : B.parse message = some (Json.obj kvs))
    (htype : Json.at_string kvs "type" = some ty)
    (hcall : expectedCall user_id ty kvs = some call) :
    (SessionManager.handle_client_message B w user_id message).handlerCalls =
      w.handlerCalls ++ [call] := by
  have h := SessionManager.handle_client_message_dispatch B w user_id message kvs ty
    hparse htype
  rw [hcall] at h
  simp only [] at h
  rw [World.Extends.handlerCalls_eq h]
  simp [World.handlerCalls, World.emit, List.filterMap_append]

/-- C17 at a concrete input: `add_group_member` from `u` for group `g` and
user `v` enters `handle_add_member("g", "v")` once, and `send_friend_request`
from `v` for the user named `u` enters `handle_send_friend_request("v", "u")`
once. -/
theorem dispatch_exactly_one_witness :
    (SessionManager.handle_client_message (acceptingBackend moreFrames) World.twoOnline
        "u" "add").handlerCalls = [("handle_add_member", ["g", "v"])] ∧
    (SessionManager.handle_client_message (tableBackend moreFrames) World.twoOnline
        "v" "friend").handlerCalls = [("handle_send_friend_request", ["v", "u"])] :=
  ⟨dispatch_exactly_one (acceptingBackend moreFrames) World.twoOnline "u" "add"
      [("type", Json.str "add_group_member"), ("group_id", Json.str "g"),
        ("user_id", Json.str "v")]
      "add_group_member" ("handle_add_member", ["g", "v"]) rfl rfl rfl,
   dispatch_exactly_one (tableBackend moreFrames) World.twoOnline "v" "friend"
      [("type", Json.str "send_friend_request"), ("username", Json.str "u")]
      "send_friend_request" ("handle_send_friend_request", ["v", "u"]) rfl rfl rfl⟩

/-- C18 (the code departs from the claim). Session 0 authenticates as `u`
and sends a `send_message` envelope, then a `send_group_message` envelope,
while the repository stores nothing: the handlers are entered and the
repository is asked, but nothing is sent to `u`. A failed `add_group_member`
in the same state is answered with an error envelope. -/
theorem collaborator_failure_no_reply :
    (tableBackend moreFrames).send_message "u" "v" "hi" = none ∧
    (tableBackend moreFrames).send_group_message "u" "g" "hi" = none ∧
    (Session.handle_message (tableBackend moreFrames)
        (Session.handle_message (tableBackend moreFrames) World.initial 0 "auth-u")
        0 "send").trace =
      (Session.handle_message (tableBackend moreFrames) World.initial 0 "auth-u").trace ++
      [Event.handler "handle_send_message" ["u", "v", "hi"],
       Event.repo "send_message" ["u", "v", "hi"]] ∧
    (Session.handle_message (tableBackend moreFrames)
        (Session.handle_message (tableBackend moreFrames) World.initial 0 "auth-u")
        0 "send").sends =
      [(0, "\x7b\"type\":\"auth_success\",\"user_id\":\"u\"\x7d")] ∧
    (Session.handle_message (tableBackend moreFrames)
        (Session.handle_message (tableBackend moreFrames) World.initial 0 "auth-u")
        0 "group").sends =
      [(0, "\x7b\"type\":\"auth_success\",\"user_id\":\"u\"\x7d")] ∧
    (Session.handle_message (tableBackend moreFrames)
        (Session.handle_message (tableBackend moreFrames) World.initial 0 "auth-u")
        0 "add").sends =
      [(0, "\x7b\"type\":\"auth_success\",\"user_id\":\"u\"\x7d"),
       (0, "\x7b\"type\":\"error\",\"message\":\"Failed to add member\"\x7d")] := by
  refine ⟨rfl, rfl, by decide, by decide, by decide, by decide⟩

/-! ## Error envelopes -/

theorem Attempt.caught_eq {α : Type} (x y : Attempt α) (h : x.sameUpToText y) :
    x.caught = y.caught := by
  cases x <;> cases y <;> simp_all [Attempt.sameUpToText, Attempt.caught]

theorem Collaborators.backend_eq (C D : Collaborators) (h : C.sameUpToText D) :
    C.backend = D.backend := by
  obtain ⟨h1, h2, h3, h4, h5, h6, h7, h8, h9, h10, h11, h12, h13, h14, h15, h16, h17, h18,
    h19⟩ := h
  have e8 : (fun s => (C.parse s).caught) = fun s => (D.parse s).caught :=
    funext fun s => Attempt.caught_eq _ _ (h8 s)
  have e11 : (fun a => (C.select_user_id a).caught) = fun a => (D.select_user_id a).caught :=
    funext fun a => Attempt.caught_eq _ _ (h11 a)
  have e12 : (fun a b => (C.select_friendship a b).caught) =
      fun a b => (D.select_friendship a b).caught :=
    funext fun a => funext fun b => Attempt.caught_eq _ _ (h12 a b)
  have e13 : (fun a b => (C.insert_friend_request a b).caught) =
      fun a b => (D.insert_friend_request a b).caught :=
    funext fun a => funext fun b => Attempt.caught_eq _ _ (h13 a b)
  have e14 : (fun a b => (C.select_pending_request a b).caught) =
      fun a b => (D.select_pending_request a b).caught :=
    funext fun a => funext fun b => Attempt.caught_eq _ _ (h14 a b)
  have e15 : (fun a => (C.update_request_accepted a).caught) =
      fun a => (D.update_request_accepted a).caught :=
    funext fun a => Attempt.caught_eq _ _ (h15 a)
  have e16 : (fun a b => (C.insert_friendship a b).caught) =
      fun a b => (D.insert_friendship a b).caught :=
    funext fun a => funext fun b => Attempt.caught_eq _ _ (h16 a b)
  have e17 : (fun a b => (C.update_request_rejected a b).caught) =
      fun a b => (D.update_request_rejected a b).caught :=
    funext fun a => funext fun b => Attempt.caught_eq _ _ (h17 a b)
  have e18 : (fun a => (C.select_friend_requests a).caught) =
      fun a => (D.select_friend_requests a).caught :=
    funext fun a => Attempt.caught_eq _ _ (h18 a)
  have e19 : (fun a => (C.select_friends a).caught) = fun a => (D.select_friends a).caught :=
    funext fun a => Attempt.caught_eq _ _ (h19 a)
  simp only [Collaborators.backend, h1, h2, h3, h4, h5, h6, h7, e8,
    Attempt.caught_eq _ _ h9, Attempt.caught_eq _ _ h10, e11, e12, e13, e14, e15, e16, e17,
    e18, e19]

theorem Session.handle_message_cases (B : Backend) (w : World) (self : SessionId)
    (message : String) :
    World.Extends (Event.generic B) w (Session.handle_message B w self message) ∨
    ∃ u, Session.handle_message B w self message =
      Session.send (SessionManager.join (w.setObj self ⟨u, true⟩) self u) self
        (B.serialize (authSuccess u)) := by
  have hinvalid : World.Extends (Event.generic B) w
      (Session.send w self (B.serialize (errorEnvelope "Invalid message format"))) :=
    World.Extends.emit _ (World.Extends.refl _ _)
      (genericReply_error B _ (by simp [errorTexts]))
  rcases hparse : B.parse message with _ | parsed
  · left
    simpa [Session.handle_message, Session.handle_message_try, hparse] using hinvalid
  rcases hobj : parsed.as_object with _ | kvs
  · left
    simpa [Session.handle_message, Session.handle_message_try, hparse, hobj] using hinvalid
  have hparsed : parsed = Json.obj kvs := by
    cases parsed <;> simp_all [Json.as_object]
  subst hparsed
  rcases htype : Json.at_string kvs "type" with _ | ty
  · left
    simpa [Session.handle_message, Session.handle_message_try, hparse, Json.as_object, htype]
      using hinvalid
  by_cases hty : ty = "auth"
  · subst hty
    rcases htoken : Json.at_string kvs "token" with _ | token
    · left
      simpa [Session.handle_message, Session.handle_message_try, hparse, Json.as_object,
        htype, htoken] using hinvalid
    by_cases hempty : token = ""
    · left
      simpa [Session.handle_message, Session.handle_message_try, hparse, Json.as_object,
        htype, htoken, hempty] using World.Extends.refl (Event.generic B) w
    rcases huser : Json.at_string kvs "user_id" with _ | u
    · left
      simpa [Session.handle_message, Session.handle_message_try, hparse, Json.as_object,
        htype, htoken, hempty, huser] using hinvalid
    · right
      exact ⟨u, Session.handle_message_auth_eq B w self message kvs token u hparse htype
        htoken hempty huser⟩
  · left
    by_cases hauth : (w.objs self).authenticated_ = true
    · rw [Session.handle_message_authed_eq B w self message kvs ty hauth hparse htype hty]
      exact SessionManager.handle_client_message_generic B w _ message
    · have hauth' : (w.objs self).authenticated_ = false := by simpa using hauth
      rw [Session.handle_message_unauth_eq B w self message kvs ty hauth' hparse htype hty]
      exact World.Extends.emit _ (World.Extends.refl _ _)
        (genericReply_error B _ (by simp [errorTexts]))

theorem tableCollaborators_sameUpToText (a b : String) (table : List (String × Json)) :
    (tableCollaborators a table).sameUpToText (tableCollaborators b table) := by
  refine ⟨rfl, rfl, rfl, rfl, rfl, rfl, rfl, ?_, ?_, ?_, ?_, ?_, ?_, ?_, ?_, ?_, ?_, ?_, ?_⟩
  · intro s
    cases h : table.lookup s <;> simp [tableCollaborators, Attempt.sameUpToText, h]
  all_goals simp [tableCollaborators, Attempt.sameUpToText]

/-- C19. Every envelope `handle_message` sends, whatever the session, the
payload and the collaborators, is the serialization of an object that, when
its type is `error`, is exactly `{"type":"error","message":t}` with `t` one
of thirteen literal texts; so is every reply GroupHandler and FriendHandler
return, sent or not. And for two collaborators that differ only
in the texts of the exceptions the JSON parser and the database throw, the
run of `handle_message` is the same: the same envelopes go to the same
sessions and the same state results. -/
theorem error_envelopes_generic (B : Backend) (C D : Collaborators) (w : World)
    (self : SessionId) (message : String)
    (hsame : C.sameUpToText D) :
    (∃ evs, (Session.handle_message B w self message).trace = w.trace ++ evs ∧
      ∀ e, e ∈ evs → Event.generic B e) ∧
    (∀ (w0 : World) (a b c : String),
      genericReply B (GroupHandler.handle_create_group B w0 a b c).2 ∧
      genericReply B (GroupHandler.handle_add_member B w0 a b).2 ∧
      genericReply B (GroupHandler.handle_get_groups B w0 a).2 ∧
      genericReply B (FriendHandler.handle_send_friend_request B w0 a b).2 ∧
      genericReply B (FriendHandler.handle_accept_friend_request B w0 a b).2 ∧
      genericReply B (FriendHandler.handle_reject_friend_request B w0 a b).2 ∧
      genericReply B (FriendHandler.handle_get_friend_requests B w0 a).2 ∧
      genericReply B (FriendHandler.handle_get_friends B w0 a).2) ∧
    Session.handle_message C.backend w self message =
      Session.handle_message D.backend w self message := by
  refine ⟨?_, fun w0 a b c =>
    ⟨(GroupHandler.handle_create_group_quiet B w0 a b c).2,
     (GroupHandler.handle_add_member_quiet B w0 a b).2,
     (GroupHandler.handle_get_groups_quiet B w0 a).2,
     (FriendHandler.handle_send_friend_request_quiet B w0 a b).2,
     (FriendHandler.handle_accept_friend_request_quiet B w0 a b).2,
     (FriendHandler.handle_reject_friend_request_quiet B w0 a b).2,
     (FriendHandler.handle_get_friend_requests_quiet B w0 a).2,
     (FriendHandler.handle_get_friends_quiet B w0 a).2⟩, ?_⟩
  · rcases Session.handle_message_cases B w self message with h | ⟨u, h⟩
    · obtain ⟨_, _, evs, h3, h4⟩ := h
      exact ⟨evs, h3, h4⟩
    · refine ⟨[Event.join self u, Event.send self (B.serialize (authSuccess u))], ?_, ?_⟩
      · rw [h]
        simp [Session.send, World.emit, SessionManager.join, World.setObj]
      · intro e he
        simp at he
        rcases he with he | he
        · subst he; trivial
        · subst he
          exact genericReply_typed B _ _ (by decide)
  · rw [Collaborators.backend_eq C D hsame]

/-- C19 at a concrete input: a payload that does not parse, once with a
parser whose exception reads `syntax error at offset 3`, once with one whose
exception reads `unexpected token`. -/
theorem error_envelopes_generic_witness :
    Session.handle_message
        (tableCollaborators "syntax error at offset 3" moreFrames).backend World.initial 0
        "junk" =
      Session.handle_message
        (tableCollaborators "unexpected token" moreFrames).backend World.initial 0 "junk" ∧
    (Session.handle_message
        (tableCollaborators "syntax error at offset 3" moreFrames).backend World.initial 0
        "junk").sends =
      [(0, "\x7b\"type\":\"error\",\"message\":\"Invalid message format\"\x7d")] :=
  ⟨(error_envelopes_generic (tableBackend moreFrames)
      (tableCollaborators "syntax error at offset 3" moreFrames)
      (tableCollaborators "unexpected token" moreFrames) World.initial 0 "junk"
      (tableCollaborators_sameUpToText _ _ _)).2.2,
   by decide⟩

/-! ## The registry over a run of the server -/

theorem Server.sound_of_extends {P : Event → Prop} (sv : Server) (w' : World)
    (acc' live' : SessionId → Bool)
    (hacc : ∀ s, sv.accepted s = true → acc' s = true)
    (h : sv.registrySound) (hext : World.Extends P sv.world w') :
    (⟨w', acc', live'⟩ : Server).registrySound := by
  obtain ⟨h1, h2, evs, h3, _⟩ := hext
  intro u s hus
  simp only [h1] at hus
  obtain ⟨ha, hb, hc⟩ := h u s hus
  refine ⟨hacc s ha, by simpa [h2] using hb, ?_⟩
  simp [h3, hc]

theorem Server.step_sound (B : Backend) (sv : Server) (a : Action)
    (hlive : ∀ s, sv.live s = true → sv.accepted s = true)
    (h : sv.registrySound) :
    (∀ s, (Server.step B sv a).live s = true → (Server.step B sv a).accepted s = true) ∧
    (Server.step B sv a).registrySound := by
  cases a with
  | accept s ec =>
    by_cases hacc : sv.accepted s = true
    · have e : Server.step B sv (Action.accept s ec) = sv := by simp [Server.step, hacc]
      rw [e]
      exact ⟨hlive, h⟩
    · simp only [Server.step, hacc]
      refine ⟨?_, ?_⟩
      · intro k hk
        by_cases hks : k = s
        · simp [hks]
        · simp [hks] at hk ⊢
          exact hlive k hk
      · apply Server.sound_of_extends (P := fun _ => True) sv _ _ _ ?_ h
        · cases ec <;>
            simp [Session.on_accept, Session.do_read,
              World.Extends.emit _ (World.Extends.refl _ _), World.Extends.refl]
        · intro k hk
          by_cases hks : k = s <;> simp [hks, hk]
  | frame s message =>
    by_cases hl : sv.live s = true
    · simp only [Server.step, hl, if_true]
      refine ⟨hlive, ?_⟩
      rcases Session.handle_message_cases B sv.world s message with hext | ⟨u, hu⟩
      · apply Server.sound_of_extends (P := Event.generic B) sv _ _ _ (fun _ hk => hk) h
        simp only [Session.on_read, Session.do_read]
        exact World.Extends.emit _ hext trivial
      · intro v k hvk
        simp only [Session.on_read, Session.do_read, hu, Session.send, World.emit,
          SessionManager.join, World.setObj] at hvk ⊢
        by_cases hv : v = u
        · subst hv
          simp at hvk
          subst hvk
          simp [hlive s hl]
        · simp [hv] at hvk
          obtain ⟨ha, hb, hc⟩ := h v k hvk
          refine ⟨ha, ?_, ?_⟩
          · by_cases hks : k = s <;> simp [hks, hb]
          · simp [hc]
    · have e : Server.step B sv (Action.frame s message) = sv := by simp [Server.step, hl]
      rw [e]
      exact ⟨hlive, h⟩
  | close s ec =>
    by_cases hc : sv.live s = true ∧ ec ≠ ErrorCode.success
    · have e : Server.step B sv (Action.close s ec) =
          ⟨Session.on_read B sv.world s ec "", sv.accepted,
            fun k => if k = s then false else sv.live k⟩ := by
        simp only [Server.step]
        rw [if_pos hc]
      rw [e]
      refine ⟨?_, ?_⟩
      · intro k hk
        by_cases hks : k = s
        · simp [hks] at hk
        · simp [hks] at hk
          exact hlive k hk
      · cases ec with
        | success => exact absurd rfl hc.2
        | failure n =>
          intro v k hvk
          simp only [Session.on_read] at hvk ⊢
          exact h v k hvk
        | closed =>
          by_cases hauth : (sv.world.objs s).authenticated_ = true
          · intro v k hvk
            simp only [Session.on_read, hauth, if_true, SessionManager.leave] at hvk ⊢
            by_cases hv : v = (sv.world.objs s).user_id_
            · simp [hv] at hvk
            · simp [hv] at hvk
              obtain ⟨ha, hb, hc'⟩ := h v k hvk
              exact ⟨ha, hb, by simp [hc']⟩
          · intro v k hvk
            simp only [Session.on_read, hauth] at hvk ⊢
            exact h v k hvk
    · have e : Server.step B sv (Action.close s ec) = sv := by
        simp only [Server.step]
        rw [if_neg hc]
      rw [e]
      exact ⟨hlive, h⟩

theorem Server.run_sound (B : Backend) (actions : List Action) :
    (∀ s, (Server.run B actions).live s = true → (Server.run B actions).accepted s = true) ∧
    (Server.run B actions).registrySound := by
  induction actions using List.reverseRecOn with
  | nil =>
    refine ⟨?_, ?_⟩
    · intro s hs
      simp [Server.run, Server.initial] at hs
    · intro u s hus
      simp [Server.run, Server.initial, World.initial, Registry.empty] at hus
  | append_singleton actions a ih =>
    have hrun : Server.run B (actions ++ [a]) = Server.step B (Server.run B actions) a := by
      simp [Server.run, List.foldl_append]
    rw [hrun]
    exact Server.step_sound B _ a ih.1 ih.2

/-! ## Field values with a NUL character -/

/-- C21, the claim fails at a field value that contains a NUL character. The
envelope `{"type":"auth","token":"x","user_id":"a\u0000b"}` is answered with
`auth_success` carrying `user_id = "a"`, and the session is named `a`; a
`send_message` envelope with `content = "hi\u0000there"` is confirmed and
delivered with `content = "hi"`. -/
theorem lossy_field_copy :
    (acceptingBackend nulFrames).parse "auth-nul-user" = some (authEnvelope "x" "a\x00b") ∧
    (Session.handle_message (acceptingBackend nulFrames) World.initial 0
      "auth-nul-user").objs 0 = ⟨"a", true⟩ ∧
    (Session.handle_message (acceptingBackend nulFrames) World.initial 0
      "auth-nul-user").sends =
      [(0, "\x7b\"type\":\"auth_success\",\"user_id\":\"a\"\x7d")] ∧
    "a" ≠ "a\x00b" ∧
    (SessionManager.handle_client_message (acceptingBackend nulFrames) World.twoOnline
      "u" "send-nul").sends =
      World.twoOnline.sends ++
      [(1, "\x7b\"type\":\"message_sent\",\"message_id\":\"m1\",\"recipient_id\":\"v\",\"content\":\"hi\",\"created_at\":\"t0\"\x7d"),
       (2, "\x7b\"type\":\"new_message\",\"message_id\":\"m1\",\"sender_id\":\"u\",\"content\":\"hi\",\"created_at\":\"t0\"\x7d")] ∧
    "hi" ≠ "hi\x00there" := by
  refine ⟨rfl, by decide, by decide, by decide, by decide, by decide⟩

/-- C25, the claim fails at a token that starts with a NUL character. The
token of `{"type":"auth","token":"\u0000x","user_id":"u"}` is not empty, yet
nothing is sent, the session stays unauthenticated and the registry has no
entry for `u`. With the token `x` and `user_id = "a\u0000b"` the session ends
with the user id `a`, and the registry has no entry for the user id of the
envelope. -/
theorem nul_token_rejected :
    (tableBackend nulFrames).parse "auth-nul-token" = some (authEnvelope "\x00x" "u") ∧
    "\x00x" ≠ "" ∧
    (Session.handle_message (tableBackend nulFrames) World.initial 0 "auth-nul-token").trace
      = [] ∧
    (Session.handle_message (tableBackend nulFrames) World.initial 0 "auth-nul-token").objs 0
      = ⟨"", false⟩ ∧
    (Session.handle_message (tableBackend nulFrames) World.initial 0
      "auth-nul-token").sessions_ "u" = none ∧
    (Session.handle_message (tableBackend nulFrames) World.initial 0 "auth-nul-user").objs 0
      = ⟨"a", true⟩ ∧
    (Session.handle_message (tableBackend nulFrames) World.initial 0
      "auth-nul-user").sessions_ "a\x00b" = none := by
  refine ⟨rfl, by decide, by decide, by decide, by decide, by decide, by decide⟩

/-! ## Failures of a read and of a write -/

/-- C23, the claim as stated fails for a send failure. Session 0
authenticates as `u`; `on_write` is then called with the error code 32 and
changes nothing; the next inbound frame, a `send_message` envelope, is handled
as before and the read is issued again. -/
theorem write_failure_keeps_reading :
    Session.on_write
        (Session.on_read (tableBackend frames) World.initial 0 ErrorCode.success "auth-u")
        0 (ErrorCode.failure 32) =
      Session.on_read (tableBackend frames) World.initial 0 ErrorCode.success "auth-u" ∧
    (Session.on_read (tableBackend frames)
        (Session.on_write
          (Session.on_read (tableBackend frames) World.initial 0 ErrorCode.success "auth-u")
          0 (ErrorCode.failure 32))
        0 ErrorCode.success "send").trace =
      (Session.on_read (tableBackend frames) World.initial 0 ErrorCode.success "auth-u").trace
      ++ [Event.handler "handle_send_message" ["u", "v", "hi"],
          Event.repo "send_message" ["u", "v", "hi"],
          Event.read 0] := by
  refine ⟨rfl, by decide⟩

/-- C23 as amended. When `on_read` is called with an error code it issues no
read, sends nothing, calls no handler and changes no session; its only
possible effect is the `leave` of a graceful close. A session whose read has
failed handles no further frame. `on_write` changes nothing, whatever its
error code, and a frame read after it is handled and followed by the next
read. -/
theorem read_failure_stops_session (B : Backend) (w : World) (sv : Server)
    (self : SessionId) (ec : ErrorCode) (message : String)
    (hec : ec ≠ ErrorCode.success) :
    ((Session.on_read B w self ec message).trace = w.trace ∨
      (Session.on_read B w self ec message).trace =
        w.trace ++ [Event.leave (w.objs self).user_id_]) ∧
    (Session.on_read B w self ec message).sends = w.sends ∧
    (Session.on_read B w self ec message).handlerCalls = w.handlerCalls ∧
    (Session.on_read B w self ec message).objs = w.objs ∧
    (sv.live self = true →
      (Server.step B sv (Action.close self ec)).live self = false ∧
      ∀ frame, Server.step B (Server.step B sv (Action.close self ec))
          (Action.frame self frame) = Server.step B sv (Action.close self ec)) ∧
    (∀ ec', Session.on_write w self ec' = w) ∧
    (∀ ec', (Session.on_read B (Session.on_write w self ec') self ErrorCode.success
        message).trace =
      (Session.handle_message B w self message).trace ++ [Event.read self]) := by
  refine ⟨?_, ?_, ?_, ?_, ?_, fun _ => rfl, fun _ => ?_⟩
  · cases ec with
    | success => exact absurd rfl hec
    | failure n => left; rfl
    | closed =>
      by_cases hauth : (w.objs self).authenticated_ = true
      · right; simp [Session.on_read, hauth, SessionManager.leave]
      · left; simp [Session.on_read, hauth]
  · cases ec with
    | success => exact absurd rfl hec
    | failure n => rfl
    | closed =>
      by_cases hauth : (w.objs self).authenticated_ = true <;>
        simp [Session.on_read, hauth, SessionManager.leave, World.sends, List.filterMap_append]
  · cases ec with
    | success => exact absurd rfl hec
    | failure n => rfl
    | closed =>
      by_cases hauth : (w.objs self).authenticated_ = true <;>
        simp [Session.on_read, hauth, SessionManager.leave, World.handlerCalls,
          List.filterMap_append]
  · cases ec with
    | success => exact absurd rfl hec
    | failure n => rfl
    | closed =>
      by_cases hauth : (w.objs self).authenticated_ = true <;>
        simp [Session.on_read, hauth, SessionManager.leave]
  · intro hlive
    have e : Server.step B sv (Action.close self ec) =
        ⟨Session.on_read B sv.world self ec "", sv.accepted,
          fun k => if k = self then false else sv.live k⟩ := by
      simp only [Server.step]
      rw [if_pos ⟨hlive, hec⟩]
    rw [e]
    refine ⟨by simp, fun frame => ?_⟩
    simp [Server.step]
  · simp [Session.on_write, Session.on_read, Session.do_read, World.emit]

/-- C23 as amended, at a concrete input: session 0 is accepted and
authenticates as `u`, then its read fails with the error code 104; the
following `send_message` frame is not handled. -/
theorem read_failure_stops_session_witness :
    ErrorCode.failure 104 ≠ ErrorCode.success ∧
    (Server.step (tableBackend frames)
      (Server.run (tableBackend frames)
        [Action.accept 0 ErrorCode.success, Action.frame 0 "auth-u"])
      (Action.close 0 (ErrorCode.failure 104))).live 0 = false ∧
    Server.step (tableBackend frames)
      (Server.step (tableBackend frames)
        (Server.run (tableBackend frames)
          [Action.accept 0 ErrorCode.success, Action.frame 0 "auth-u"])
        (Action.close 0 (ErrorCode.failure 104)))
      (Action.frame 0 "send") =
    Server.step (tableBackend frames)
      (Server.run (tableBackend frames)
        [Action.accept 0 ErrorCode.success, Action.frame 0 "auth-u"])
      (Action.close 0 (ErrorCode.failure 104)) :=
  ⟨by simp,
   ((read_failure_stops_session (tableBackend frames) World.initial
      (Server.run (tableBackend frames)
        [Action.accept 0 ErrorCode.success, Action.frame 0 "auth-u"])
      0 (ErrorCode.failure 104) "send" (by simp)).2.2.2.2.1 (by decide)).1,
   ((read_failure_stops_session (tableBackend frames) World.initial
      (Server.run (tableBackend frames)
        [Action.accept 0 ErrorCode.success, Action.frame 0 "auth-u"])
      0 (ErrorCode.failure 104) "send" (by simp)).2.2.2.2.1 (by decide)).2 "send"⟩

/-! ## Group messages -/

/-- C24. For an authenticated session and a `send_group_message` envelope
with string fields `group_id = g` and `content = c`, the core enters
`handle_send_group_message` and calls `MessageRepository::send_group_message`
exactly once, with the session's user id, `g` and `c`; whatever the
repository returns it sends no envelope to any session, and the registry and
the sessions are unchanged. -/
theorem group_message_no_fanout (B : Backend) (w : World) (self : SessionId)
    (message : String) (kvs : List (String × Json)) (g c : String)
    (hauth : (w.objs self).authenticated_ = true)
    (hparse : B.parse message = some (Json.obj kvs))
    (htype : Json.at_string kvs "type" = some "send_group_message")
    (hg : Json.at_string kvs "group_id" = some g)
    (hc : Json.at_string kvs "content" = some c) :
    (Session.handle_message B w self message).trace = w.trace ++
      [Event.handler "handle_send_group_message" [(w.objs self).user_id_, g, c],
       Event.repo "send_group_message" [(w.objs self).user_id_, g, c]] ∧
    (Session.handle_message B w self message).sends = w.sends ∧
    (Session.handle_message B w self message).sessions_ = w.sessions_ ∧
    (Session.handle_message B w self message).objs = w.objs := by
  rw [Session.handle_message_authed_eq B w self message kvs "send_group_message" hauth hparse
    htype (by decide)]
  have h : SessionManager.handle_client_message B w (w.objs self).user_id_ message =
      MessageHandler.handle_send_group_message B w (w.objs self).user_id_ g c := by
    simp [SessionManager.handle_client_message, SessionManager.handle_client_message_try,
      hparse, Json.as_object, htype, hg, hc]
  rw [h]
  cases hs : B.send_group_message (w.objs self).user_id_ g c <;>
    simp [MessageHandler.handle_send_group_message, hs, World.emit, World.sends,
      List.filterMap_append]

/-- C24 at a concrete input: session 0 authenticates as `u` and sends `hi` to
the group `g`; with a repository that stores the message, and with one that
fails, nothing is sent after the `auth_success`. -/
theorem group_message_no_fanout_witness :
    (Session.handle_message (acceptingBackend moreFrames)
      (Session.handle_message (acceptingBackend moreFrames) World.initial 0 "auth-u")
      0 "group").sends =
      [(0, "\x7b\"type\":\"auth_success\",\"user_id\":\"u\"\x7d")] ∧
    (Session.handle_message (tableBackend moreFrames)
      (Session.handle_message (tableBackend moreFrames) World.initial 0 "auth-u")
      0 "group").trace =
      (Session.handle_message (tableBackend moreFrames) World.initial 0 "auth-u").trace ++
      [Event.handler "handle_send_group_message" ["u", "g", "hi"],
       Event.repo "send_group_message" ["u", "g", "hi"]] :=
  ⟨(group_message_no_fanout (acceptingBackend moreFrames)
      (Session.handle_message (acceptingBackend moreFrames) World.initial 0 "auth-u")
      0 "group"
      [("type", Json.str "send_group_message"), ("group_id", Json.str "g"),
        ("content", Json.str "hi")]
      "g" "hi" (by decide) rfl rfl rfl rfl).2.1.trans (by decide),
   (group_message_no_fanout (tableBackend moreFrames)
      (Session.handle_message (tableBackend moreFrames) World.initial 0 "auth-u")
      0 "group"
      [("type", Json.str "send_group_message"), ("group_id", Json.str "g"),
        ("content", Json.str "hi")]
      "g" "hi" (by decide) rfl rfl rfl rfl).1⟩

/-! ## Sessions that are not authenticated -/

theorem Session.handle_message_shape (B : Backend) (w : World) (self : SessionId)
    (message : String) :
    (∃ text, Session.handle_message B w self message =
      Session.send w self (B.serialize (errorEnvelope text))) ∨
    ((∃ kvs, B.parse message = some (Json.obj kvs) ∧
        Json.at_string kvs "type" = some "auth") ∧
      Session.handle_message B w self message = w) ∨
    (∃ kvs u, B.parse message = some (Json.obj kvs) ∧
      Json.at_string kvs "type" = some "auth" ∧
      Session.handle_message B w self message =
        Session.send (SessionManager.join (w.setObj self ⟨u, true⟩) self u) self
          (B.serialize (authSuccess u))) ∨
    ((w.objs self).authenticated_ = true ∧
      Session.handle_message B w self message =
        SessionManager.handle_client_message B w (w.objs self).user_id_ message) := by
  rcases hparse : B.parse message with _ | parsed
  · left
    exact ⟨"Invalid message format", by simp [Session.handle_message, Session.handle_message_try, hparse]⟩
  rcases hobj : parsed.as_object with _ | kvs
  · left
    exact ⟨"Invalid message format", by simp [Session.handle_message, Session.handle_message_try, hparse, hobj]⟩
  have hparsed : parsed = Json.obj kvs := by
    cases parsed <;> simp_all [Json.as_object]
  subst hparsed
  rcases htype : Json.at_string kvs "type" with _ | ty
  · left
    exact ⟨"Invalid message format", by simp [Session.handle_message, Session.handle_message_try, hparse,
      Json.as_object, htype]⟩
  by_cases hty : ty = "auth"
  · subst hty
    rcases htoken : Json.at_string kvs "token" with _ | token
    · left
      exact ⟨"Invalid message format", by simp [Session.handle_message, Session.handle_message_try, hparse,
        Json.as_object, htype, htoken]⟩
    by_cases hempty : token = ""
    · right; left
      exact ⟨⟨kvs, rfl, htype⟩, by simp [Session.handle_message, Session.handle_message_try,
        hparse, Json.as_object, htype, htoken, hempty]⟩
    rcases huser : Json.at_string kvs "user_id" with _ | u
    · left
      exact ⟨"Invalid message format", by simp [Session.handle_message, Session.handle_message_try, hparse,
        Json.as_object, htype, htoken, hempty, huser]⟩
    · right; right; left
      exact ⟨kvs, u, rfl, htype, Session.handle_message_auth_eq B w self message kvs token u
        hparse htype htoken hempty huser⟩
  · by_cases hauth : (w.objs self).authenticated_ = true
    · right; right; right
      exact ⟨hauth, Session.handle_message_authed_eq B w self message kvs ty hauth hparse
        htype hty⟩
    · left
      have hauth' : (w.objs self).authenticated_ = false := by simpa using hauth
      exact ⟨"Not authenticated", Session.handle_message_unauth_eq B w self message kvs ty hauth' hparse
        htype hty⟩

/-- A payload handled by a session whose authenticated flag is false enters
no handler and calls no repository: the new events are sends to this session
and joins of this session only, and the registry is either unchanged or
changed by the join of a successful auth, which sets the session
authenticated and sends `auth_success`. A payload that is not read as an
object of type `auth` leaves the registry of every session state unchanged. -/
theorem unauthenticated_runs_nothing (B : Backend) (w : World) (self : SessionId)
    (message : String) :
    ((w.objs self).authenticated_ = false →
      (Session.handle_message B w self message).handlerCalls = w.handlerCalls ∧
      (∃ evs, (Session.handle_message B w self message).trace = w.trace ++ evs ∧
        ∀ e, e ∈ evs → (∃ m, e = Event.send self m) ∨ (∃ u, e = Event.join self u)) ∧
      ((Session.handle_message B w self message).sessions_ = w.sessions_ ∨
        ∃ u, (Session.handle_message B w self message).sessions_ =
            (SessionManager.join w self u).sessions_ ∧
          (Session.handle_message B w self message).objs self = ⟨u, true⟩ ∧
          Event.send self (B.serialize (authSuccess u)) ∈
            (Session.handle_message B w self message).trace)) ∧
    ((¬ ∃ kvs, B.parse message = some (Json.obj kvs) ∧
        Json.at_string kvs "type" = some "auth") →
      (Session.handle_message B w self message).sessions_ = w.sessions_) := by
  refine ⟨?_, ?_⟩
  · intro hunauth
    rcases Session.handle_message_shape B w self message with
      ⟨text, h⟩ | ⟨_, h⟩ | ⟨kvs, u, _, _, h⟩ | ⟨hauth, _⟩
    · rw [h]
      refine ⟨by simp [Session.send, World.emit, World.handlerCalls, List.filterMap_append],
        ⟨[Event.send self (B.serialize (errorEnvelope text))],
          by simp [Session.send, World.emit], ?_⟩, Or.inl (by simp [Session.send, World.emit])⟩
      intro e he
      simp at he
      exact Or.inl ⟨_, he⟩
    · rw [h]
      exact ⟨rfl, ⟨[], by simp, by simp⟩, Or.inl rfl⟩
    · rw [h]
      refine ⟨by simp [Session.send, World.emit, SessionManager.join, World.setObj,
          World.handlerCalls, List.filterMap_append],
        ⟨[Event.join self u, Event.send self (B.serialize (authSuccess u))],
          by simp [Session.send, World.emit, SessionManager.join, World.setObj], ?_⟩,
        Or.inr ⟨u, by simp [Session.send, World.emit, SessionManager.join, World.setObj],
          by simp [Session.send, World.emit, SessionManager.join, World.setObj],
          by simp [Session.send, World.emit, SessionManager.join, World.setObj]⟩⟩
      intro e he
      simp at he
      rcases he with he | he
      · exact Or.inr ⟨_, he⟩
      · exact Or.inl ⟨_, he⟩
    · rw [hunauth] at hauth
      exact absurd hauth (by simp)
  · intro hnot
    rcases Session.handle_message_shape B w self message with
      ⟨text, h⟩ | ⟨_, h⟩ | ⟨kvs, u, hp, ht, _⟩ | ⟨_, h⟩
    · rw [h]; simp [Session.send, World.emit]
    · rw [h]
    · exact absurd ⟨kvs, hp, ht⟩ hnot
    · rw [h]
      exact (SessionManager.handle_client_message_generic B w _ message).1

/-! ## The acting identity -/

theorem List.count_after_first (c : Char) (cs : List Char) (h : c ∈ cs) :
    cs.count c = 1 + (cs.drop (cs.indexOf c + 1)).count c := by
  induction cs with
  | nil => simp at h
  | cons x xs ih =>
    by_cases hx : x = c
    · subst hx
      simp [List.indexOf_cons_self, Nat.add_comm]
    · have hmem : c ∈ xs := by
        rcases List.mem_cons.mp h with h | h
        · exact absurd h.symm hx
        · exact h
      rw [List.indexOf_cons_ne _ hx, List.count_cons_of_ne (Ne.symm hx)]
      simpa using ih hmem

theorem JWTHandler.find_lt (s : String) (c : Char) (pos : Nat) (h : c ∈ s.data.drop pos) :
    JWTHandler.find s c pos = pos + (s.data.drop pos).indexOf c ∧
    JWTHandler.find s c pos < s.length := by
  have hlt : (s.data.drop pos).indexOf c < (s.data.drop pos).length :=
    List.indexOf_lt_length.mpr h
  have hpos : pos < s.data.length := by
    by_contra hge
    rw [List.drop_eq_nil_of_le (by omega)] at h
    simp at h
  refine ⟨by simp [JWTHandler.find, h], ?_⟩
  simp only [JWTHandler.find, h, if_true, String.length]
  rw [List.length_drop] at hlt
  omega

/-- C28. For a token shorter than `npos`, `validate_token` returns no value
if and only if the token has fewer than two `.` characters, and returns
`user_id_from_token` for every token with at least two; when it returns a
value, the first dot lies before the second and the second inside the token,
so `substr(first_dot + 1, second_dot - first_dot - 1)` stays within the
token. -/
theorem validate_token_counts_dots (token : String) (hlen : token.length < JWTHandler.npos) :
    (JWTHandler.validate_token token = none ↔ token.data.count '.' < 2) ∧
    (2 ≤ token.data.count '.' →
      JWTHandler.validate_token token = some "user_id_from_token") ∧
    (JWTHandler.validate_token token ≠ none →
      JWTHandler.find token '.' 0 <
        JWTHandler.find token '.' ((JWTHandler.find token '.' 0 + 1) % 2 ^ 64) ∧
      JWTHandler.find token '.' ((JWTHandler.find token '.' 0 + 1) % 2 ^ 64)
        < token.length) := by
  have hnpos : JWTHandler.npos = 2 ^ 64 - 1 := rfl
  by_cases h1 : '.' ∈ token.data
  · have hf1 := JWTHandler.find_lt token '.' 0 (by simpa using h1)
    simp only [List.drop_zero, Nat.zero_add] at hf1
    have hcount := List.count_after_first '.' token.data h1
    have hmod : (JWTHandler.find token '.' 0 + 1) % 2 ^ 64 = token.data.indexOf '.' + 1 := by
      rw [hf1.1]
      apply Nat.mod_eq_of_lt
      have := hf1.2
      rw [hf1.1] at this
      omega
    by_cases h2 : '.' ∈ token.data.drop (token.data.indexOf '.' + 1)
    · have hf2 := JWTHandler.find_lt token '.' (token.data.indexOf '.' + 1) h2
      have hpos : 0 < (token.data.drop (token.data.indexOf '.' + 1)).count '.' :=
        List.count_pos_iff.mpr h2
      have hv : JWTHandler.validate_token token = some "user_id_from_token" := by
        have a1 : JWTHandler.find token '.' 0 ≠ JWTHandler.npos := by omega
        have a2 : JWTHandler.find token '.' (token.data.indexOf '.' + 1) ≠
            JWTHandler.npos := by omega
        unfold JWTHandler.validate_token
        simp only [hmod]
        simp [a1, a2]
      refine ⟨?_, fun _ => hv, fun _ => ?_⟩
      · rw [hv]
        constructor
        · intro h; exact absurd h (by simp)
        · intro h; omega
      · rw [hmod]
        refine ⟨?_, hf2.2⟩
        rw [hf1.1, hf2.1]
        omega
    · have hzero : (token.data.drop (token.data.indexOf '.' + 1)).count '.' = 0 :=
        List.count_eq_zero.mpr h2
      have hv : JWTHandler.validate_token token = none := by
        have a2 : JWTHandler.find token '.' (token.data.indexOf '.' + 1) =
            JWTHandler.npos := by simp [JWTHandler.find, h2]
        unfold JWTHandler.validate_token
        simp only [hmod]
        simp [a2]
      refine ⟨?_, fun h => ?_, fun h => absurd hv h⟩
      · rw [hv]
        constructor
        · intro _; omega
        · intro _; rfl
      · omega
  · have hzero : token.data.count '.' = 0 := List.count_eq_zero.mpr h1
    have hv : JWTHandler.validate_token token = none := by
      have a1 : JWTHandler.find token '.' 0 = JWTHandler.npos := by
        simp [JWTHandler.find, h1]
      simp [JWTHandler.validate_token, a1]
    refine ⟨?_, fun h => ?_, fun h => absurd hv h⟩
    · rw [hv]
      constructor
      · intro _; omega
      · intro _; rfl
    · omega

/-- C28 at concrete inputs: the token `a.b.c` is resolved to
`user_id_from_token`; the token `a.`, whose only dot is its last character,
and the empty token are rejected. -/
theorem validate_token_counts_dots_witness :
    "a.b.c".length < JWTHandler.npos ∧
    JWTHandler.validate_token "a.b.c" = some "user_id_from_token" ∧
    JWTHandler.validate_token "a." = none ∧
    JWTHandler.validate_token "" = none :=
  ⟨by decide,
   (validate_token_counts_dots "a.b.c" (by decide)).2.1 (by decide),
   (validate_token_counts_dots "a." (by decide)).1.mpr (by decide),
   (validate_token_counts_dots "" (by decide)).1.mpr (by decide)⟩

/-! ## Friendship pairs -/

theorem normalised_pair (s r : String) :
    (if s < r then s else r) = min s r ∧ (if s < r then r else s) = max s r := by
  by_cases h : s < r
  · simp [h, min_eq_left (le_of_lt h), max_eq_right (le_of_lt h)]
  · have h' : r ≤ s := not_lt.mp h
    simp only [h, if_false]
    exact ⟨(min_eq_right h').symm, (max_eq_left h').symm⟩

theorem FriendHandler.accept_inserts_pair (B : Backend) (w : World)
    (a request_id sid rid : String)
    (hbegin : B.begin_txn = some ())
    (hrow : B.select_pending_request request_id a = some (some (sid, rid)))
    (hupdate : B.update_request_accepted request_id = some ()) :
    Event.repo "insert_friendship" [min sid rid, max sid rid] ∈
      (FriendHandler.handle_accept_friend_request B w a request_id).1.trace ∧
    ∀ args, Event.repo "insert_friendship" args ∈
        (FriendHandler.handle_accept_friend_request B w a request_id).1.trace →
      Event.repo "insert_friendship" args ∈ w.trace ∨ args = [min sid rid, max sid rid] := by
  have hp := normalised_pair sid rid
  refine ⟨?_, ?_⟩
  · cases h4 : B.insert_friendship (min sid rid) (max sid rid) <;>
      cases h5 : B.commit <;>
      cases h6 : w.sessions_ sid <;>
      simp [FriendHandler.handle_accept_friend_request, hbegin, hrow, hupdate, hp.1, hp.2, h4,
        h5, h6, World.emit, SessionManager.send_to_user, SessionManager.is_user_online,
        Session.send, -String.lt_iff_toList_lt]
  · intro args
    cases h4 : B.insert_friendship (min sid rid) (max sid rid) <;>
      cases h5 : B.commit <;>
      cases h6 : w.sessions_ sid <;>
      simp [FriendHandler.handle_accept_friend_request, hbegin, hrow, hupdate, hp.1, hp.2, h4,
        h5, h6, World.emit, SessionManager.send_to_user, SessionManager.is_user_online,
        Session.send, -String.lt_iff_toList_lt]

theorem FriendHandler.send_checks_pair (B : Backend) (w : World)
    (a username receiver : String)
    (hbegin : B.begin_txn = some ())
    (huser : B.select_user_id username = some (some receiver)) :
    Event.repo "select_friendship" [min a receiver, max a receiver] ∈
      (FriendHandler.handle_send_friend_request B w a username).1.trace := by
  have hq := normalised_pair a receiver
  cases h3 : B.select_friendship (min a receiver) (max a receiver) with
  | none =>
    simp [FriendHandler.handle_send_friend_request, hbegin, huser, hq.1, hq.2, h3,
      World.emit, -String.lt_iff_toList_lt]
  | some b =>
    cases b <;>
    cases h4 : B.insert_friend_request a receiver with
    | none =>
      simp [FriendHandler.handle_send_friend_request, hbegin, huser, hq.1, hq.2, h3, h4,
        World.emit, -String.lt_iff_toList_lt]
    | some o =>
      cases o <;> cases h5 : B.commit <;> cases h6 : w.sessions_ receiver <;>
      simp [FriendHandler.handle_send_friend_request, hbegin, huser, hq.1, hq.2, h3, h4, h5,
        h6, World.emit, SessionManager.send_to_user, SessionManager.is_user_online,
        Session.send, -String.lt_iff_toList_lt]

/-- C29. When `y` accepts a pending request sent by `x`, and when `x` accepts
a pending request sent by `y`, the pair `handle_accept_friend_request`
inserts into `friendships` is the same: (min, max) of the two user ids under
the ordering of strings, so its first component is at most its second; the
handler inserts no other pair. `handle_send_friend_request` looks up the
friendship of the acting user and the receiver under the pair normalised in
the same way. -/
theorem friendship_pair_normalised (B : Backend) (w : World)
    (x y r1 r2 a username receiver : String)
    (hbegin : B.begin_txn = some ())
    (hrow1 : B.select_pending_request r1 y = some (some (x, y)))
    (hrow2 : B.select_pending_request r2 x = some (some (y, x)))
    (hupdate1 : B.update_request_accepted r1 = some ())
    (hupdate2 : B.update_request_accepted r2 = some ())
    (huser : B.select_user_id username = some (some receiver)) :
    Event.repo "insert_friendship" [min x y, max x y] ∈
      (FriendHandler.handle_accept_friend_request B w y r1).1.trace ∧
    Event.repo "insert_friendship" [min x y, max x y] ∈
      (FriendHandler.handle_accept_friend_request B w x r2).1.trace ∧
    (∀ args, Event.repo "insert_friendship" args ∈
        (FriendHandler.handle_accept_friend_request B w y r1).1.trace ∨
      Event.repo "insert_friendship" args ∈
        (FriendHandler.handle_accept_friend_request B w x r2).1.trace →
      Event.repo "insert_friendship" args ∈ w.trace ∨ args = [min x y, max x y]) ∧
    min x y ≤ max x y ∧
    Event.repo "select_friendship" [min a receiver, max a receiver] ∈
      (FriendHandler.handle_send_friend_request B w a username).1.trace := by
  have h1 := FriendHandler.accept_inserts_pair B w y r1 x y hbegin hrow1 hupdate1
  have h2 := FriendHandler.accept_inserts_pair B w x r2 y x hbegin hrow2 hupdate2
  rw [min_comm y x, max_comm y x] at h2
  refine ⟨h1.1, h2.1, ?_, min_le_max, FriendHandler.send_checks_pair B w a username receiver
    hbegin huser⟩
  intro args hargs
  rcases hargs with h | h
  · exact h1.2 args h
  · exact h2.2 args h

/-- C29 at a concrete input: `v` accepts the request of `u`, `u` accepts the
request of `v`, and `v` sends a request to `u`; each time the pair is
`(u, v)`. -/
theorem friendship_pair_normalised_witness :
    (min "u" "v" = "u" ∧ max "u" "v" = "v") ∧
    Event.repo "insert_friendship" [min "u" "v", max "u" "v"] ∈
      (FriendHandler.handle_accept_friend_request mutualBackend World.initial
        "v" "r1").1.trace ∧
    Event.repo "insert_friendship" [min "u" "v", max "u" "v"] ∈
      (FriendHandler.handle_accept_friend_request mutualBackend World.initial
        "u" "r2").1.trace ∧
    Event.repo "select_friendship" [min "v" "u", max "v" "u"] ∈
      (FriendHandler.handle_send_friend_request mutualBackend World.initial
        "v" "u").1.trace :=
  ⟨⟨min_eq_left (le_of_lt (String.lt_iff_toList_lt.mpr (by decide))),
    max_eq_right (le_of_lt (String.lt_iff_toList_lt.mpr (by decide)))⟩,
   (friendship_pair_normalised mutualBackend World.initial "u" "v" "r1" "r2" "v" "u" "u"
      rfl rfl rfl rfl rfl rfl).1,
   (friendship_pair_normalised mutualBackend World.initial "u" "v" "r1" "r2" "v" "u" "u"
      rfl rfl rfl rfl rfl rfl).2.1,
   (friendship_pair_normalised mutualBackend World.initial "u" "v" "r1" "r2" "v" "u" "u"
      rfl rfl rfl rfl rfl rfl).2.2.2.2⟩

/-! ## Base64 -/

set_option maxRecDepth 100000 in
theorem base64_bits (a : Nat) (h : a < 256) :
    (a &&& 0xfc) >>> 2 = a / 4 ∧ (a &&& 0x03) <<< 4 = a % 4 * 16 ∧
    (a &&& 0xf0) >>> 4 = a / 16 ∧ (a &&& 0x0f) <<< 2 = a % 16 * 4 ∧
    (a &&& 0xc0) >>> 6 = a / 64 ∧ a &&& 0x3f = a % 64 := by
  revert a
  decide

theorem base64_sextet_eq (arr : Nat → Nat) (h0 : arr 0 < 256) (h1 : arr 1 < 256)
    (h2 : arr 2 < 256) :
    base64_sextet arr 0 = arr 0 / 4 ∧
    base64_sextet arr 1 = arr 0 % 4 * 16 + arr 1 / 16 ∧
    base64_sextet arr 2 = arr 1 % 16 * 4 + arr 2 / 64 ∧
    base64_sextet arr 3 = arr 2 % 64 := by
  obtain ⟨a1, a2, _, _, _, _⟩ := base64_bits (arr 0) h0
  obtain ⟨_, _, b3, b4, _, _⟩ := base64_bits (arr 1) h1
  obtain ⟨_, _, _, _, c5, c6⟩ := base64_bits (arr 2) h2
  simp only [base64_sextet, a1, a2, b3, b4, c5, c6]
  refine ⟨?_, ?_, ?_, ?_⟩ <;> omega

set_option maxRecDepth 100000 in
theorem base64_alphabet (k : Nat) (h : k < 64) :
    base64_char k ∈ base64_chars.data ∧ base64_char k ≠ '=' ∧ base64_char k ≠ '.' ∧
    base64_value (base64_char k) = some k := by
  revert k
  decide


theorem base64_loop (input : List Nat) :
    ∀ (arr : Nat → Nat) (ret : List Char), (∀ b ∈ input, b < 256) →
      base64_finish (input.foldl base64_step ⟨0, arr, ret⟩) = ret ++ base64_groups input := by
  induction input using base64_groups.induct with
  | case1 => intro arr ret _; simp [base64_finish, base64_groups]
  | case2 a =>
    intro arr ret h
    have ha : a < 256 := h a (by simp)
    obtain ⟨e0, e1, _, _⟩ := base64_sextet_eq
      (fun k => if 1 ≤ k then 0 else if k = 0 then a % 256 else arr k)
      (by simp; omega) (by simp) (by simp)
    simp only [Nat.mod_eq_of_lt ha] at e0 e1
    simp [base64_finish, base64_step, base64_groups, List.range_succ, e0, e1,
      Nat.mod_eq_of_lt ha, List.replicate]
  | case3 a b =>
    intro arr ret h
    have ha : a < 256 := h a (by simp)
    have hb : b < 256 := h b (by simp)
    obtain ⟨e0, e1, e2, _⟩ := base64_sextet_eq
      (fun k => if 2 ≤ k then 0 else if k = 1 then b % 256 else if k = 0 then a % 256 else arr k)
      (by simp; omega) (by simp; omega) (by simp)
    simp only [Nat.mod_eq_of_lt ha, Nat.mod_eq_of_lt hb] at e0 e1 e2
    simp [base64_finish, base64_step, base64_groups, List.range_succ, e0, e1, e2,
      Nat.mod_eq_of_lt ha, Nat.mod_eq_of_lt hb, List.replicate]
  | case4 a b c rest ih =>
    intro arr ret h
    have ha : a < 256 := h a (by simp)
    have hb : b < 256 := h b (by simp)
    have hc : c < 256 := h c (by simp)
    have hrest : ∀ x ∈ rest, x < 256 := fun x hx => h x (by simp [hx])
    obtain ⟨e0, e1, e2, e3⟩ := base64_sextet_eq
      (fun k => if k = 2 then c % 256 else if k = 1 then b % 256 else
        if k = 0 then a % 256 else arr k)
      (by simp; omega) (by simp; omega) (by simp; omega)
    simp only [Nat.mod_eq_of_lt ha, Nat.mod_eq_of_lt hb, Nat.mod_eq_of_lt hc] at e0 e1 e2 e3
    simp only [List.foldl_cons, base64_step]
    simp only [Nat.zero_add, Nat.reduceAdd, Nat.reduceEqDiff, if_false, if_true]
    rw [ih _ _ hrest]
    simp [base64_groups, List.range_succ, e0, e1, e2, e3,
      Nat.mod_eq_of_lt ha, Nat.mod_eq_of_lt hb, Nat.mod_eq_of_lt hc]


theorem base64_groups_length (input : List Nat) :
    (base64_groups input).length = 4 * ((input.length + 2) / 3) := by
  induction input using base64_groups.induct with
  | case1 => simp [base64_groups]
  | case2 a => simp [base64_groups]
  | case3 a b => simp [base64_groups]
  | case4 a b c rest ih =>
    simp only [base64_groups, List.length_cons, ih]
    omega

theorem base64_groups_shape (input : List Nat) (h : ∀ b ∈ input, b < 256) :
    ∃ body, base64_groups input = body ++ List.replicate ((3 - input.length % 3) % 3) '=' ∧
      ∀ c ∈ body, c ∈ base64_chars.data ∧ c ≠ '=' ∧ c ≠ '.' := by
  induction input using base64_groups.induct with
  | case1 => exact ⟨[], by simp [base64_groups], by simp⟩
  | case2 a =>
    have ha : a < 256 := h a (by simp)
    have k0 := base64_alphabet (a / 4) (by omega)
    have k1 := base64_alphabet (a % 4 * 16) (by omega)
    refine ⟨[base64_char (a / 4), base64_char (a % 4 * 16)], by simp [base64_groups, List.replicate], ?_⟩
    intro c hc
    simp only [List.mem_cons, List.mem_singleton, List.not_mem_nil, or_false] at hc
    rcases hc with rfl | rfl
    · exact ⟨k0.1, k0.2.1, k0.2.2.1⟩
    · exact ⟨k1.1, k1.2.1, k1.2.2.1⟩
  | case3 a b =>
    have ha : a < 256 := h a (by simp)
    have hb : b < 256 := h b (by simp)
    have k0 := base64_alphabet (a / 4) (by omega)
    have k1 := base64_alphabet (a % 4 * 16 + b / 16) (by omega)
    have k2 := base64_alphabet (b % 16 * 4) (by omega)
    refine ⟨[base64_char (a / 4), base64_char (a % 4 * 16 + b / 16), base64_char (b % 16 * 4)],
      by simp [base64_groups, List.replicate], ?_⟩
    intro c hc
    simp only [List.mem_cons, List.mem_singleton, List.not_mem_nil, or_false] at hc
    rcases hc with rfl | rfl | rfl
    · exact ⟨k0.1, k0.2.1, k0.2.2.1⟩
    · exact ⟨k1.1, k1.2.1, k1.2.2.1⟩
    · exact ⟨k2.1, k2.2.1, k2.2.2.1⟩
  | case4 a b c rest ih =>
    have ha : a < 256 := h a (by simp)
    have hb : b < 256 := h b (by simp)
    have hc : c < 256 := h c (by simp)
    have hrest : ∀ x ∈ rest, x < 256 := fun x hx => h x (by simp [hx])
    have k0 := base64_alphabet (a / 4) (by omega)
    have k1 := base64_alphabet (a % 4 * 16 + b / 16) (by omega)
    have k2 := base64_alphabet (b % 16 * 4 + c / 64) (by omega)
    have k3 := base64_alphabet (c % 64) (by omega)
    obtain ⟨body, hbody, hall⟩ := ih hrest
    refine ⟨base64_char (a / 4) :: base64_char (a % 4 * 16 + b / 16) ::
      base64_char (b % 16 * 4 + c / 64) :: base64_char (c % 64) :: body, ?_, ?_⟩
    · have : (rest.length + 1 + 1 + 1) % 3 = rest.length % 3 := by omega
      simp only [base64_groups, hbody, List.length_cons, this, List.cons_append]
    · intro x hx
      simp only [List.mem_cons] at hx
      rcases hx with rfl | rfl | rfl | rfl | hx
      · exact ⟨k0.1, k0.2.1, k0.2.2.1⟩
      · exact ⟨k1.1, k1.2.1, k1.2.2.1⟩
      · exact ⟨k2.1, k2.2.1, k2.2.2.1⟩
      · exact ⟨k3.1, k3.2.1, k3.2.2.1⟩
      · exact hall x hx

theorem base64_groups_decode (input : List Nat) (h : ∀ b ∈ input, b < 256) :
    base64_decode (base64_groups input) = some input := by
  induction input using base64_groups.induct with
  | case1 => simp [base64_groups, base64_decode]
  | case2 a =>
    have ha : a < 256 := h a (by simp)
    have k0 := base64_alphabet (a / 4) (by omega)
    have k1 := base64_alphabet (a % 4 * 16) (by omega)
    simp only [base64_groups, base64_decode, k0.2.2.2, k1.2.2.2, and_self, if_true]
    simp
    omega
  | case3 a b =>
    have ha : a < 256 := h a (by simp)
    have hb : b < 256 := h b (by simp)
    have k0 := base64_alphabet (a / 4) (by omega)
    have k1 := base64_alphabet (a % 4 * 16 + b / 16) (by omega)
    have k2 := base64_alphabet (b % 16 * 4) (by omega)
    simp only [base64_groups, base64_decode, k0.2.2.2, k1.2.2.2, k2.2.2.2, k2.2.1, and_self,
      if_true, false_and, if_false]
    simp
    omega
  | case4 a b c rest ih =>
    have ha : a < 256 := h a (by simp)
    have hb : b < 256 := h b (by simp)
    have hc : c < 256 := h c (by simp)
    have hrest : ∀ x ∈ rest, x < 256 := fun x hx => h x (by simp [hx])
    have k0 := base64_alphabet (a / 4) (by omega)
    have k1 := base64_alphabet (a % 4 * 16 + b / 16) (by omega)
    have k2 := base64_alphabet (b % 16 * 4 + c / 64) (by omega)
    have k3 := base64_alphabet (c % 64) (by omega)
    simp only [base64_groups, base64_decode, k0.2.2.2, k1.2.2.2, k2.2.2.2, k3.2.2.2, k2.2.1,
      k3.2.1, ih hrest, false_and, if_false]
    simp
    omega

/-- C30. For every list of bytes of length `n`, `base64_encode` returns
`4 * ⌈n / 3⌉` characters: characters of the Base64 alphabet followed by
exactly `(3 - n mod 3) mod 3` characters `=`; the text has no `.`, and
standard Base64 decoding of it gives back the bytes. -/
theorem base64_encode_standard (input : List Nat) (hbytes : ∀ b ∈ input, b < 256) :
    (base64_encode input).length = 4 * ((input.length + 2) / 3) ∧
    (∃ body, base64_encode input =
        body ++ List.replicate ((3 - input.length % 3) % 3) '=' ∧
      ∀ c ∈ body, c ∈ base64_chars.data ∧ c ≠ '=') ∧
    '.' ∉ base64_encode input ∧
    base64_decode (base64_encode input) = some input := by
  have e : base64_encode input = base64_groups input := by
    unfold base64_encode
    rw [base64_loop input _ _ hbytes]
    simp
  rw [e]
  obtain ⟨body, hbody, hall⟩ := base64_groups_shape input hbytes
  refine ⟨base64_groups_length input, ⟨body, hbody, fun c hc => ⟨(hall c hc).1, (hall c hc).2.1⟩⟩,
    ?_, base64_groups_decode input hbytes⟩
  rw [hbody]
  intro hmem
  rcases List.mem_append.mp hmem with hm | hm
  · exact (hall _ hm).2.2 rfl
  · have := List.eq_of_mem_replicate hm
    exact absurd this (by decide)

/-- C30 at a concrete input: the bytes `77, 97, 110, 255` are encoded as
`TWFu/w==`, eight characters, and decoded back. -/
theorem base64_encode_standard_witness :
    (∀ b ∈ [77, 97, 110, 255], b < 256) ∧
    base64_encode [77, 97, 110, 255] = "TWFu/w==".data ∧
    (base64_encode [77, 97, 110, 255]).length = 8 ∧
    base64_decode (base64_encode [77, 97, 110, 255]) = some [77, 97, 110, 255] :=
  ⟨by decide, by decide, (base64_encode_standard [77, 97, 110, 255] (by decide)).1,
    (base64_encode_standard [77, 97, 110, 255] (by decide)).2.2.2⟩

/-! ## A type with a NUL character -/

/-- C3, the claim fails at a type that a NUL character cuts to `auth`. The
type of `{"type":"auth\u0000zz","token":"x","user_id":"u"}` is a string other
than `auth`, yet an unauthenticated session that receives it is not answered
`Not authenticated`: it is registered under `u`, set authenticated and sent
`auth_success`. -/
theorem cut_type_authenticates :
    (tableBackend cutFrames).parse "auth-cut" =
      some (Json.obj [("type", Json.str "auth\x00zz"), ("token", Json.str "x"),
        ("user_id", Json.str "u")]) ∧
    "auth\x00zz" ≠ "auth" ∧
    (World.initial.objs 0).authenticated_ = false ∧
    (Session.handle_message (tableBackend cutFrames) World.initial 0 "auth-cut").trace =
      [Event.join 0 "u",
       Event.send 0 "\x7b\"type\":\"auth_success\",\"user_id\":\"u\"\x7d"] ∧
    (Session.handle_message (tableBackend cutFrames) World.initial 0 "auth-cut").objs 0 =
      ⟨"u", true⟩ ∧
    (Session.handle_message (tableBackend cutFrames) World.initial 0
      "auth-cut").sessions_ "u" = some 0 := by
  refine ⟨rfl, by decide, by decide, by decide, by decide, by decide⟩

/-- C16, the claim fails at a type that a NUL character cuts to a recognized
one. The type `get_groups\u0000zz` is not one of the recognized types, yet an
authenticated session that receives `{"type":"get_groups\u0000zz"}` enters
`handle_get_groups` and is sent a `groups` envelope. -/
theorem cut_type_dispatched :
    (tableBackend cutFrames).parse "groups-cut" =
      some (Json.obj [("type", Json.str "get_groups\x00zz")]) ∧
    "get_groups\x00zz" ∉ recognizedTypes ∧
    ((Session.handle_message (tableBackend cutFrames) World.initial 0 "auth-u").objs
      0).authenticated_ = true ∧
    (Session.handle_message (tableBackend cutFrames)
      (Session.handle_message (tableBackend cutFrames) World.initial 0 "auth-u")
      0 "groups-cut").trace =
      (Session.handle_message (tableBackend cutFrames) World.initial 0 "auth-u").trace ++
      [Event.handler "handle_get_groups" ["u"],
       Event.repo "get_user_groups" ["u"],
       Event.send 0 ((tableBackend cutFrames).serialize
         (Json.obj [("type", Json.str "groups"), ("groups", Json.arr [])]))] := by
  refine ⟨rfl, by decide, by decide, by decide⟩

/-- C26, the claim fails at a type that a NUL character cuts to `auth`. The
payload `{"type":"auth\u0000zz","token":"x","user_id":"w"}` is not an auth
payload, yet handled by a session authenticated as `u` it adds a registry
entry for `w`. -/
theorem cut_type_joins :
    (tableBackend cutFrames).parse "auth-cut-w" =
      some (Json.obj [("type", Json.str "auth\x00zz"), ("token", Json.str "x"),
        ("user_id", Json.str "w")]) ∧
    "auth\x00zz" ≠ "auth" ∧
    (Session.handle_message (tableBackend cutFrames) World.initial 0 "auth-u").sessions_ "w"
      = none ∧
    (Session.handle_message (tableBackend cutFrames)
      (Session.handle_message (tableBackend cutFrames) World.initial 0 "auth-u")
      0 "auth-cut-w").sessions_ "w" = some 0 ∧
    (Session.handle_message (tableBackend cutFrames)
      (Session.handle_message (tableBackend cutFrames) World.initial 0 "auth-u")
      0 "auth-cut-w").trace =
      (Session.handle_message (tableBackend cutFrames) World.initial 0 "auth-u").trace ++
      [Event.join 0 "w",
       Event.send 0 "\x7b\"type\":\"auth_success\",\"user_id\":\"w\"\x7d"] := by
  refine ⟨rfl, by decide, by decide, by decide, by decide⟩

/-! ## The registry as the joins and leaves determine it -/

theorem World.Extends.registryCalls_eq {B : Backend} {w w' : World}
    (h : World.Extends (Event.quiet B) w w') : w'.registryCalls = w.registryCalls := by
  obtain ⟨_, _, evs, h3, h4⟩ := h
  have hnone : evs.filterMap (fun e =>
      match e with
      | Event.join s u => some (RegistryCall.join s u)
      | Event.leave u => some (RegistryCall.leave u)
      | _ => none) = [] := by
    rw [List.filterMap_eq_nil_iff]
    intro e he
    have hq := h4 e he
    cases e <;> simp_all [Event.quiet]
  simp [World.registryCalls, h3, List.filterMap_append, hnone]

theorem SessionManager.handle_client_message_calls (B : Backend) (w : World)
    (user_id message : String) :
    (SessionManager.handle_client_message B w user_id message).sessions_ = w.sessions_ ∧
    (SessionManager.handle_client_message B w user_id message).objs = w.objs ∧
    (SessionManager.handle_client_message B w user_id message).registryCalls =
      w.registryCalls := by
  have hg := SessionManager.handle_client_message_generic B w user_id message
  refine ⟨hg.1, hg.2.1, ?_⟩
  rcases hparse : B.parse message with _ | parsed
  · simp [SessionManager.handle_client_message, SessionManager.handle_client_message_try,
      hparse]
  rcases hobj : parsed.as_object with _ | kvs
  · simp [SessionManager.handle_client_message, SessionManager.handle_client_message_try,
      hparse, hobj]
  have hparsed : parsed = Json.obj kvs := by
    cases parsed <;> simp_all [Json.as_object]
  subst hparsed
  rcases htype : Json.at_string kvs "type" with _ | ty
  · simp [SessionManager.handle_client_message, SessionManager.handle_client_message_try,
      hparse, Json.as_object, htype]
  have h := SessionManager.handle_client_message_dispatch B w user_id message kvs ty hparse htype
  rcases hcall : expectedCall user_id ty kvs with _ | call
  · rw [hcall] at h
    simp only [] at h
    rw [h]
  · rw [hcall] at h
    simp only [] at h
    rw [World.Extends.registryCalls_eq h]
    simp [World.registryCalls, World.emit, List.filterMap_append]

theorem Session.handle_message_calls (B : Backend) (w : World) (self : SessionId)
    (message : String) :
    ((Session.handle_message B w self message).sessions_ = w.sessions_ ∧
      (Session.handle_message B w self message).objs = w.objs ∧
      (Session.handle_message B w self message).registryCalls = w.registryCalls) ∨
    ∃ u, Session.handle_message B w self message =
      Session.send (SessionManager.join (w.setObj self ⟨u, true⟩) self u) self
        (B.serialize (authSuccess u)) := by
  rcases Session.handle_message_shape B w self message with
    ⟨text, h⟩ | ⟨_, h⟩ | ⟨kvs, u, _, _, h⟩ | ⟨_, h⟩
  · left; rw [h]
    simp [Session.send, World.emit, World.registryCalls, List.filterMap_append]
  · left; rw [h]; exact ⟨rfl, rfl, rfl⟩
  · right; exact ⟨u, h⟩
  · left; rw [h]; exact SessionManager.handle_client_message_calls B w _ message

theorem RegistryCall.lastJoin_append (s : SessionId) (calls : List RegistryCall)
    (c : RegistryCall) :
    RegistryCall.lastJoin s (calls ++ [c]) =
      match c with
      | RegistryCall.join k _ => if k = s then some c else RegistryCall.lastJoin s calls
      | RegistryCall.leave _ => RegistryCall.lastJoin s calls := by
  cases c with
  | join k v =>
    by_cases hk : k = s <;> simp [RegistryCall.lastJoin, hk]
  | leave v => simp [RegistryCall.lastJoin]


theorem RegistryCall.sessionState_append (s : SessionId) (calls : List RegistryCall)
    (c : RegistryCall) :
    RegistryCall.sessionState s (calls ++ [c]) =
      match c with
      | RegistryCall.join k u => if k = s then ⟨u, true⟩ else RegistryCall.sessionState s calls
      | RegistryCall.leave _ => RegistryCall.sessionState s calls := by
  cases c with
  | join k v =>
    by_cases hk : k = s <;>
      simp [RegistryCall.sessionState, RegistryCall.lastJoin_append, hk]
  | leave v => simp [RegistryCall.sessionState, RegistryCall.lastJoin_append]

theorem Server.step_tracked (B : Backend) (sv : Server) (a : Action) (actions : List Action)
    (hsound : sv.registrySound)
    (h1 : ∀ u s, sv.world.sessions_ u = some s ↔
      RegistryCall.lastNaming u sv.world.registryCalls = some (RegistryCall.join s u))
    (h2 : ∀ s, sv.world.objs s = RegistryCall.sessionState s sv.world.registryCalls)
    (h3 : ∀ u s, sv.world.sessions_ u = some s → (sv.world.objs s).user_id_ = u →
      (∀ n, Action.close s (ErrorCode.failure n) ∉ actions) → sv.live s = true) :
    (∀ u s, (Server.step B sv a).world.sessions_ u = some s ↔
      RegistryCall.lastNaming u (Server.step B sv a).world.registryCalls =
        some (RegistryCall.join s u)) ∧
    (∀ s, (Server.step B sv a).world.objs s =
      RegistryCall.sessionState s (Server.step B sv a).world.registryCalls) ∧
    (∀ u s, (Server.step B sv a).world.sessions_ u = some s →
      ((Server.step B sv a).world.objs s).user_id_ = u →
      (∀ n, Action.close s (ErrorCode.failure n) ∉ actions ++ [a]) →
      (Server.step B sv a).live s = true) := by
  have hweak : ∀ (k : SessionId), (∀ n, Action.close k (ErrorCode.failure n) ∉ actions ++ [a]) →
      ∀ n, Action.close k (ErrorCode.failure n) ∉ actions := by
    intro k hk n hn
    exact hk n (List.mem_append_left _ hn)
  cases a with
  | accept s ec =>
    by_cases hacc : sv.accepted s = true
    · have e : Server.step B sv (Action.accept s ec) = sv := by simp [Server.step, hacc]
      rw [e]
      exact ⟨h1, h2, fun u k hk hu hn => h3 u k hk hu (hweak k hn)⟩
    · have hw : (Session.on_accept sv.world s ec).sessions_ = sv.world.sessions_ ∧
          (Session.on_accept sv.world s ec).objs = sv.world.objs ∧
          (Session.on_accept sv.world s ec).registryCalls = sv.world.registryCalls := by
        cases ec <;>
          simp [Session.on_accept, Session.do_read, World.emit, World.registryCalls,
            List.filterMap_append]
      simp only [Server.step, hacc]
      simp only [Bool.false_eq_true, if_false, hw.1, hw.2.1, hw.2.2]
      refine ⟨h1, h2, ?_⟩
      intro u k hk hu hn
      have hks : k ≠ s := by
        intro hks
        rw [hks] at hk
        exact hacc (hsound u s hk).1
      simp [hks, h3 u k hk hu (hweak k hn)]
  | frame s message =>
    by_cases hl : sv.live s = true
    · simp only [Server.step, hl, if_true]
      rcases Session.handle_message_calls B sv.world s message with ⟨e1, e2, e3⟩ | ⟨v, hv⟩
      · have hw : (Session.on_read B sv.world s ErrorCode.success message).sessions_ =
              sv.world.sessions_ ∧
            (Session.on_read B sv.world s ErrorCode.success message).objs = sv.world.objs ∧
            (Session.on_read B sv.world s ErrorCode.success message).registryCalls =
              sv.world.registryCalls := by
          refine ⟨by simpa [Session.on_read, Session.do_read, World.emit] using e1,
            by simpa [Session.on_read, Session.do_read, World.emit] using e2, ?_⟩
          simp only [Session.on_read, Session.do_read, World.emit, World.registryCalls,
            List.filterMap_append] at e3 ⊢
          simp [e3]
        simp only [hw.1, hw.2.1, hw.2.2]
        exact ⟨h1, h2, fun u k hk hu hn => h3 u k hk hu (hweak k hn)⟩
      · have hs : ∀ u, (Session.on_read B sv.world s ErrorCode.success message).sessions_ u =
            if u = v then some s else sv.world.sessions_ u := by
          intro u
          simp [Session.on_read, Session.do_read, hv, Session.send, World.emit,
            SessionManager.join, World.setObj]
        have ho : ∀ k, (Session.on_read B sv.world s ErrorCode.success message).objs k =
            if k = s then ⟨v, true⟩ else sv.world.objs k := by
          intro k
          simp [Session.on_read, Session.do_read, hv, Session.send, World.emit,
            SessionManager.join, World.setObj]
        have hc : (Session.on_read B sv.world s ErrorCode.success message).registryCalls =
            sv.world.registryCalls ++ [RegistryCall.join s v] := by
          simp [Session.on_read, Session.do_read, hv, Session.send, World.emit,
            SessionManager.join, World.setObj, World.registryCalls, List.filterMap_append]
        refine ⟨?_, ?_, ?_⟩
        · intro u k
          rw [hs, hc, RegistryCall.lastNaming_append]
          by_cases hu : u = v
          · subst hu
            simp [RegistryCall.user]
          · have hu' : ¬ v = u := fun h => hu h.symm
            simp [RegistryCall.user, hu, hu', h1 u k]
        · intro k
          rw [ho, hc, RegistryCall.sessionState_append]
          by_cases hk : k = s
          · subst hk; simp
          · have hk' : ¬ s = k := fun h => hk h.symm
            simp [hk, hk', h2 k]
        · intro u k hk hu hn
          rw [hs] at hk
          rw [ho] at hu
          by_cases huv : u = v
          · simp [huv] at hk
            rw [← hk]; exact hl
          · simp only [huv, if_false] at hk
            by_cases hks : k = s
            · simp [hks] at hu
              exact absurd hu.symm huv
            · simp only [hks, if_false] at hu
              exact h3 u k hk hu (hweak k hn)
    · have e : Server.step B sv (Action.frame s message) = sv := by simp [Server.step, hl]
      rw [e]
      exact ⟨h1, h2, fun u k hk hu hn => h3 u k hk hu (hweak k hn)⟩
  | close s ec =>
    by_cases hc : sv.live s = true ∧ ec ≠ ErrorCode.success
    · have e : Server.step B sv (Action.close s ec) =
          ⟨Session.on_read B sv.world s ec "", sv.accepted,
            fun k => if k = s then false else sv.live k⟩ := by
        simp only [Server.step]
        rw [if_pos hc]
      rw [e]
      cases ec with
      | success => exact absurd rfl hc.2
      | failure n =>
        have hw : Session.on_read B sv.world s (ErrorCode.failure n) "" = sv.world := rfl
        simp only [hw]
        refine ⟨h1, h2, ?_⟩
        intro u k hk hu hn
        have hks : k ≠ s := by
          intro hks
          exact hn n (by simp [hks])
        simp [hks, h3 u k hk hu (hweak k hn)]
      | closed =>
        by_cases hauth : (sv.world.objs s).authenticated_ = true
        · have hs : ∀ u, (Session.on_read B sv.world s ErrorCode.closed "").sessions_ u =
              if u = (sv.world.objs s).user_id_ then none else sv.world.sessions_ u := by
            intro u
            simp [Session.on_read, hauth, SessionManager.leave]
          have ho : (Session.on_read B sv.world s ErrorCode.closed "").objs = sv.world.objs := by
            simp [Session.on_read, hauth, SessionManager.leave]
          have hcl : (Session.on_read B sv.world s ErrorCode.closed "").registryCalls =
              sv.world.registryCalls ++ [RegistryCall.leave (sv.world.objs s).user_id_] := by
            simp [Session.on_read, hauth, SessionManager.leave, World.registryCalls,
              List.filterMap_append]
          refine ⟨?_, ?_, ?_⟩
          · intro u k
            simp only []
            rw [hs, hcl, RegistryCall.lastNaming_append]
            by_cases hu : u = (sv.world.objs s).user_id_
            · simp [RegistryCall.user, hu]
            · have hu' : ¬ (sv.world.objs s).user_id_ = u := fun h => hu h.symm
              simp [RegistryCall.user, hu, hu', h1 u k]
          · intro k
            simp only []
            rw [ho, hcl, RegistryCall.sessionState_append]
            exact h2 k
          · intro u k hk hu hn
            simp only [] at hk hu ⊢
            rw [hs] at hk
            rw [ho] at hu
            by_cases huv : u = (sv.world.objs s).user_id_
            · simp [huv] at hk
            · simp only [huv, if_false] at hk
              have hks : k ≠ s := by
                intro hks
                rw [hks] at hu
                exact huv hu.symm
              simp [hks, h3 u k hk hu (hweak k hn)]
        · have hw : Session.on_read B sv.world s ErrorCode.closed "" = sv.world := by
            simp [Session.on_read, hauth]
          simp only [hw]
          refine ⟨h1, h2, ?_⟩
          intro u k hk hu hn
          have hks : k ≠ s := by
            intro hks
            rw [hks] at hk
            exact hauth (hsound u s hk).2.1
          simp [hks, h3 u k hk hu (hweak k hn)]
    · have e : Server.step B sv (Action.close s ec) = sv := by
        simp only [Server.step]
        rw [if_neg hc]
      rw [e]
      exact ⟨h1, h2, fun u k hk hu hn => h3 u k hk hu (hweak k hn)⟩

theorem Server.run_tracked (B : Backend) (actions : List Action) :
    (∀ u s, (Server.run B actions).world.sessions_ u = some s ↔
      RegistryCall.lastNaming u (Server.run B actions).world.registryCalls =
        some (RegistryCall.join s u)) ∧
    (∀ s, (Server.run B actions).world.objs s =
      RegistryCall.sessionState s (Server.run B actions).world.registryCalls) ∧
    (∀ u s, (Server.run B actions).world.sessions_ u = some s →
      ((Server.run B actions).world.objs s).user_id_ = u →
      (∀ n, Action.close s (ErrorCode.failure n) ∉ actions) →
      (Server.run B actions).live s = true) := by
  induction actions using List.reverseRecOn with
  | nil =>
    refine ⟨?_, ?_, ?_⟩
    · intro u s
      simp [Server.run, Server.initial, World.initial, Registry.empty, World.registryCalls,
        RegistryCall.lastNaming]
    · intro s
      simp [Server.run, Server.initial, World.initial, World.registryCalls,
        RegistryCall.sessionState, RegistryCall.lastJoin]
    · intro u s hus
      simp [Server.run, Server.initial, World.initial, Registry.empty] at hus
  | append_singleton actions a ih =>
    have hrun : Server.run B (actions ++ [a]) = Server.step B (Server.run B actions) a := by
      simp [Server.run, List.foldl_append]
    rw [hrun]
    exact Server.step_tracked B _ a actions (Server.run_sound B actions).2 ih.1 ih.2.1 ih.2.2


theorem RegistryCall.lastJoin_some (s : SessionId) (calls : List RegistryCall)
    (c : RegistryCall) (h : RegistryCall.lastJoin s calls = some c) :
    c ∈ calls ∧ ∃ u, c = RegistryCall.join s u := by
  unfold RegistryCall.lastJoin at h
  have hp := List.find?_some h
  have hm := List.mem_of_find?_eq_some h
  refine ⟨by simpa using hm, ?_⟩
  cases c with
  | join k v =>
    simp at hp
    exact ⟨v, by rw [hp]⟩
  | leave v => simp at hp

/-- C20, the claim as stated fails. Sessions 1 and 2 are accepted, both
authenticate as `u`, and session 1 is closed gracefully: session 2 is open
and authenticated with user id `u`, yet `u` is not a key of the registry.
Session 1 authenticates as `u` and then as `v`: the entry for `u` refers to
session 1, whose user id is `v`; after its graceful close the entry for `u`
is still there and refers to a session that is not open. -/
theorem registry_not_exact :
    ¬ (Server.run (tableBackend frames)
        [Action.accept 1 ErrorCode.success, Action.accept 2 ErrorCode.success,
         Action.frame 1 "auth-u", Action.frame 2 "auth-u",
         Action.close 1 ErrorCode.closed]).registryExact ∧
    ((Server.run (tableBackend frames)
        [Action.accept 1 ErrorCode.success, Action.frame 1 "auth-u",
         Action.frame 1 "auth-v"]).world.sessions_ "u" = some 1 ∧
      (Server.run (tableBackend frames)
        [Action.accept 1 ErrorCode.success, Action.frame 1 "auth-u",
         Action.frame 1 "auth-v"]).world.objs 1 = ⟨"v", true⟩) ∧
    ((Server.run (tableBackend frames)
        [Action.accept 1 ErrorCode.success, Action.frame 1 "auth-u",
         Action.frame 1 "auth-v", Action.close 1 ErrorCode.closed]).world.sessions_ "u"
        = some 1 ∧
      (Server.run (tableBackend frames)
        [Action.accept 1 ErrorCode.success, Action.frame 1 "auth-u",
         Action.frame 1 "auth-v", Action.close 1 ErrorCode.closed]).live 1 = false) := by
  refine ⟨?_, ⟨by decide, by decide⟩, ⟨by decide, by decide⟩⟩
  intro h
  have h2 := (h "u").1.mpr ⟨2, by decide, by decide, by decide⟩
  exact absurd h2 (by decide)

/-- C20 as amended. In every state reached from a freshly started server by
accepting connections, handling inbound frames and closing connections:
the registry has an entry for `u` referring to `s` exactly when the last call
of `join` or `leave` that names `u` is `join(s, u)`; a session is
authenticated exactly when it has joined, and its user id is that of its last
join; the session an entry for `u` refers to has been accepted, is
authenticated and has joined under `u`, and when it still has the user id `u`
and no read of it has failed, it is open; an authenticated session with user
id `u` has the entry for `u` unless the last call naming `u` is a `leave` or
the `join` of another session. -/
theorem registry_follows_calls (B : Backend) (actions : List Action) (u : String) :
    (∀ s, (Server.run B actions).world.sessions_ u = some s ↔
      RegistryCall.lastNaming u (Server.run B actions).world.registryCalls =
        some (RegistryCall.join s u)) ∧
    (∀ s, (Server.run B actions).world.objs s =
      RegistryCall.sessionState s (Server.run B actions).world.registryCalls) ∧
    (∀ s, (Server.run B actions).world.sessions_ u = some s →
      (Server.run B actions).accepted s = true ∧
      ((Server.run B actions).world.objs s).authenticated_ = true ∧
      Event.join s u ∈ (Server.run B actions).world.trace ∧
      (((Server.run B actions).world.objs s).user_id_ = u →
        (∀ n, Action.close s (ErrorCode.failure n) ∉ actions) →
        (Server.run B actions).live s = true)) ∧
    (∀ s, ((Server.run B actions).world.objs s).authenticated_ = true →
      ((Server.run B actions).world.objs s).user_id_ = u →
      (Server.run B actions).world.sessions_ u = some s ∨
      ∃ c, RegistryCall.lastNaming u (Server.run B actions).world.registryCalls = some c ∧
        c ≠ RegistryCall.join s u) := by
  obtain ⟨h1, h2, h3⟩ := Server.run_tracked B actions
  refine ⟨h1 u, h2, ?_, ?_⟩
  · intro s hs
    obtain ⟨ha, hb, hc⟩ := (Server.run_sound B actions).2 u s hs
    exact ⟨ha, hb, hc, h3 u s hs⟩
  · intro s hauth huser
    have hstate := h2 s
    unfold RegistryCall.sessionState at hstate
    rcases hj : RegistryCall.lastJoin s (Server.run B actions).world.registryCalls with _ | c
    · rw [hj] at hstate
      rw [hstate] at hauth
      simp [SessionState.init] at hauth
    · obtain ⟨hmem, v, hv⟩ := RegistryCall.lastJoin_some s _ c hj
      subst hv
      rw [hj] at hstate
      simp only [] at hstate
      have huv : v = u := by rw [hstate] at huser; exact huser
      subst huv
      have hsome : (RegistryCall.lastNaming v
          (Server.run B actions).world.registryCalls).isSome = true := by
        unfold RegistryCall.lastNaming
        rw [List.find?_isSome]
        exact ⟨RegistryCall.join s v, by simpa using hmem, by simp [RegistryCall.user]⟩
      rcases hl : RegistryCall.lastNaming v (Server.run B actions).world.registryCalls
        with _ | c
      · rw [hl] at hsome; simp at hsome
      · by_cases hc : c = RegistryCall.join s v
        · left
          rw [h1 v s, hl, hc]
        · right
          exact ⟨c, rfl, hc⟩

/-! ## Writes in flight -/

theorem Server.step_trace (B : Backend) (sv : Server) (a : Action) :
    ∃ evs, (Server.step B sv a).world.trace = sv.world.trace ++ evs := by
  cases a with
  | accept s ec =>
    by_cases hacc : sv.accepted s = true
    · exact ⟨[], by simp [Server.step, hacc]⟩
    · cases ec
      · exact ⟨[Event.read s], by simp [Server.step, hacc, Session.on_accept,
          Session.do_read, World.emit]⟩
      · exact ⟨[], by simp [Server.step, hacc, Session.on_accept]⟩
      · exact ⟨[], by simp [Server.step, hacc, Session.on_accept]⟩
  | frame s message =>
    by_cases hl : sv.live s = true
    · rcases Session.handle_message_cases B sv.world s message with hext | ⟨u, hu⟩
      · obtain ⟨_, _, evs, h3, _⟩ := hext
        exact ⟨evs ++ [Event.read s], by simp [Server.step, hl, Session.on_read,
          Session.do_read, World.emit, h3]⟩
      · exact ⟨[Event.join s u, Event.send s (B.serialize (authSuccess u)), Event.read s],
          by simp [Server.step, hl, Session.on_read, Session.do_read, World.emit, hu,
            Session.send, SessionManager.join, World.setObj]⟩
    · exact ⟨[], by simp [Server.step, hl]⟩
  | close s ec =>
    by_cases hc : sv.live s = true ∧ ec ≠ ErrorCode.success
    · have e : Server.step B sv (Action.close s ec) =
          ⟨Session.on_read B sv.world s ec "", sv.accepted,
            fun k => if k = s then false else sv.live k⟩ := by
        simp only [Server.step]
        rw [if_pos hc]
      rw [e]
      cases ec with
      | success => exact absurd rfl hc.2
      | failure n => exact ⟨[], by simp [Session.on_read]⟩
      | closed =>
        by_cases hauth : (sv.world.objs s).authenticated_ = true
        · exact ⟨[Event.leave (sv.world.objs s).user_id_],
            by simp [Session.on_read, hauth, SessionManager.leave]⟩
        · exact ⟨[], by simp [Session.on_read, hauth]⟩
    · have e : Server.step B sv (Action.close s ec) = sv := by
        simp only [Server.step]
        rw [if_neg hc]
      rw [e]
      exact ⟨[], by simp⟩

theorem Server.step_sentTo (B : Backend) (sv : Server) (a : Action) (s : SessionId) :
    ∃ new, (Server.step B sv a).world.sentTo s = sv.world.sentTo s ++ new := by
  obtain ⟨evs, h⟩ := Server.step_trace B sv a
  exact ⟨(World.mk sv.world.sessions_ sv.world.objs evs).sentTo s,
    by simp only [World.sentTo, h, List.filterMap_append]⟩

theorem Wire.step_completed (B : Backend) (wr : Wire) (a : WireAction) (s : SessionId)
    (h : wr.completed s ≤ (wr.server.world.sentTo s).length) :
    (Wire.step B wr a).completed s ≤ ((Wire.step B wr a).server.world.sentTo s).length := by
  cases a with
  | act x =>
    obtain ⟨new, hnew⟩ := Server.step_sentTo B wr.server x s
    simp only [Wire.step, hnew, List.length_append]
    omega
  | written k ec =>
    by_cases hk : 0 < wr.outstanding k
    · simp only [Wire.step, hk, if_true, Session.on_write]
      by_cases hks : s = k
      · subst hks
        simp only [if_true]
        unfold Wire.outstanding at hk
        omega
      · simp only [hks, if_false]
        exact h
    · simp only [Wire.step, hk, if_false]
      exact h

theorem Wire.run_completed (B : Backend) (actions : List WireAction) (s : SessionId) :
    (Wire.run B actions).completed s ≤
      ((Wire.run B actions).server.world.sentTo s).length := by
  induction actions using List.reverseRecOn with
  | nil => simp [Wire.run, Wire.initial]
  | append_singleton actions a ih =>
    have hrun : Wire.run B (actions ++ [a]) = Wire.step B (Wire.run B actions) a := by
      simp [Wire.run, List.foldl_append]
    rw [hrun]
    exact Wire.step_completed B _ a s ih


/-- C22, the claim as stated fails. Session 0 authenticates as `u` and the
write of its `auth_success` completes, so that no write is outstanding; it
then sends a message to `u`: `message_sent` and `new_message` are both
submitted to session 0 within the one call of the handler, and two writes are
outstanding on the connection. -/
theorem writes_overlap :
    (Wire.run (acceptingBackend selfFrames)
      [WireAction.act (Action.accept 0 ErrorCode.success),
       WireAction.act (Action.frame 0 "auth-u"),
       WireAction.written 0 ErrorCode.success]).outstanding 0 = 0 ∧
    (Wire.run (acceptingBackend selfFrames)
      [WireAction.act (Action.accept 0 ErrorCode.success),
       WireAction.act (Action.frame 0 "auth-u"),
       WireAction.written 0 ErrorCode.success,
       WireAction.act (Action.frame 0 "send-self")]).outstanding 0 = 2 ∧
    ¬ (Wire.run (acceptingBackend selfFrames)
      [WireAction.act (Action.accept 0 ErrorCode.success),
       WireAction.act (Action.frame 0 "auth-u"),
       WireAction.written 0 ErrorCode.success,
       WireAction.act (Action.frame 0 "send-self")]).serialized := by
  refine ⟨by decide, by decide, ?_⟩
  intro h
  exact absurd (h 0) (by decide)

/-- C22 as amended. In every state reached by accepting connections,
completing reads and completing writes: no more writes of a session have
completed than were started; the envelopes an action submits to a session are
appended, in submission order, to those submitted before, and each starts a
write at once, whatever the number of writes outstanding; the completion of a
write, with or without an error code, changes nothing in the server and ends
one outstanding write of that session only; `Session::send` and, for a user
registered on the session, `SessionManager::send_to_user` submit exactly the
envelope they are given. -/
theorem writes_started_at_once (B : Backend) (actions : List WireAction) (s : SessionId) :
    (Wire.run B actions).completed s ≤
      ((Wire.run B actions).server.world.sentTo s).length ∧
    (∀ a, ∃ new,
      (Wire.step B (Wire.run B actions) (WireAction.act a)).server.world.sentTo s =
        (Wire.run B actions).server.world.sentTo s ++ new ∧
      (Wire.step B (Wire.run B actions) (WireAction.act a)).outstanding s =
        (Wire.run B actions).outstanding s + new.length) ∧
    (∀ k ec,
      (Wire.step B (Wire.run B actions) (WireAction.written k ec)).server =
        (Wire.run B actions).server ∧
      (Wire.step B (Wire.run B actions) (WireAction.written k ec)).outstanding s =
        if k = s then (Wire.run B actions).outstanding s - 1
        else (Wire.run B actions).outstanding s) ∧
    (∀ (w : World) (m : String),
      (Session.send w s m).sentTo s = w.sentTo s ++ [m] ∧
      ∀ u, w.sessions_ u = some s →
        (SessionManager.send_to_user w u m).sentTo s = w.sentTo s ++ [m]) := by
  have hc := Wire.run_completed B actions s
  refine ⟨hc, ?_, ?_, ?_⟩
  · intro a
    obtain ⟨new, hnew⟩ := Server.step_sentTo B (Wire.run B actions).server a s
    refine ⟨new, hnew, ?_⟩
    simp only [Wire.outstanding, Wire.step, hnew, List.length_append]
    omega
  · intro k ec
    by_cases hk : 0 < (Wire.run B actions).outstanding k
    · have e : Wire.step B (Wire.run B actions) (WireAction.written k ec) =
          ⟨(Wire.run B actions).server,
            fun j => if j = k then (Wire.run B actions).completed j + 1
              else (Wire.run B actions).completed j⟩ := by
        simp only [Wire.step, if_pos hk, Session.on_write]
      rw [e]
      refine ⟨rfl, ?_⟩
      by_cases hks : k = s
      · subst hks
        simp only [Wire.outstanding, if_true]
        omega
      · have hks' : ¬ s = k := fun h => hks h.symm
        simp only [Wire.outstanding, hks, hks', if_false]
    · have e : Wire.step B (Wire.run B actions) (WireAction.written k ec) =
          Wire.run B actions := by
        simp only [Wire.step, if_neg hk]
      rw [e]
      refine ⟨rfl, ?_⟩
      by_cases hks : k = s
      · subst hks
        simp only [if_true]
        omega
      · simp only [hks, if_false]
  · intro w m
    refine ⟨by simp [Session.send, World.emit, World.sentTo, List.filterMap_append], ?_⟩
    intro u hu
    simp [SessionManager.send_to_user, hu, Session.send, World.emit, World.sentTo,
      List.filterMap_append]

end CBox
